import Mathlib

/-!
# pr-service: the pull-request entity and the pull-request service

A shallow embedding of `internal/domain/entities/pull_request.go`,
`internal/domain/errors.go`, `internal/domain/entities/user.go`,
`internal/app/ports.go`, `internal/app/services/pull_request_service.go`,
`internal/app/services/team_service.go`, `internal/infrastructure/db/tx_manager.go` and
the repositories of `internal/infrastructure/postgres/repositories`.

Conventions of the embedding.

* The identifier types of `value_objects` are Go string types; they are `String` here.
* `time.Time` is kept abstract as a natural number; a `*time.Time` is an `Option`.
* A Go slice is a `List`.  Where the source distinguishes a nil slice from an
  allocated one (the return value of `AddReviewers`), the slice is an
  `Option (List _)` with `none` for nil.
* A Go `error` is an `Option Error`, `none` for nil.
* A method with a pointer receiver that mutates the receiver returns the new value of
  the receiver.
* A run-time panic is the outer `none` of an `Option`.
-/

namespace PrService

/-! ## Value objects and errors -/

abbrev UserID := String
abbrev TeamName := String
abbrev PullRequestID := String
abbrev Time := Nat

/-- The errors of the program: the nine sentinel values of `domain/errors.go`, the
sentinel of the `app` package, an error produced by the infrastructure (driver, query
builder) identified by its text, and an error built by `fmt.Errorf` with `%w` around
another one; the `text` of the latter is the format with its `%v` operands written out
and `%w` standing for the text of the wrapped error. -/
inductive Error where
  | ErrTeamExists
  | ErrPRExists
  | ErrPRMerged
  | ErrNotAssigned
  | ErrNoCandidate
  | ErrUserNotFound
  | ErrTeamNotFound
  | ErrPRNotFound
  | ErrAuthorNotActive
  /-- Modelled from the spec: `app.ErrTransactionRequired`, whose declaration is not among
  the sources; the error of a unit of work that is not configured. -/
  | ErrTransactionRequired
  | infra (text : String)
  | wrapped (text : String) (inner : Error)
  deriving DecidableEq, Repr

/-! ## Entities -/

/-- The struct `entities.User`. -/
structure User where
  ID : UserID
  Username : String
  Team : TeamName
  IsActive : Bool
  deriving DecidableEq, Repr

/-- Modelled from the spec: the struct `entities.Team`, whose declaration is not among
the sources; a named grouping with no attribute beyond its name. -/
structure Team where
  Name : TeamName
  deriving DecidableEq, Repr

abbrev PullRequestStatus := String

def StatusOpen : PullRequestStatus := "OPEN"
def StatusMerged : PullRequestStatus := "MERGED"

def maxReviewers : Nat := 2

/-- The struct `entities.PullRequest`. -/
structure PullRequest where
  ID : PullRequestID
  Name : String
  AuthorID : UserID
  Status : PullRequestStatus
  reviewers : List UserID
  CreatedAt : Time
  MergedAt : Option Time
  deriving DecidableEq, Repr

def NewPullRequest (id : PullRequestID) (name : String) (authorID : UserID)
    (createdAt : Time) : PullRequest :=
  { ID := id
    Name := name
    AuthorID := authorID
    Status := StatusOpen
    reviewers := []
    CreatedAt := createdAt
    MergedAt := none }

namespace PullRequest

/-- The accessor `Reviewers`: a copy of the reviewer slice. -/
def Reviewers (pr : PullRequest) : List UserID := pr.reviewers

/-- The loop of `IsReviewer` over the reviewer slice. -/
def isReviewerLoop (id : UserID) : List UserID → Bool
  | [] => false
  | reviewerID :: rest => if reviewerID = id then true else isReviewerLoop id rest

def IsReviewer (pr : PullRequest) (id : UserID) : Bool :=
  isReviewerLoop id pr.reviewers

def IsMerged (pr : PullRequest) : Bool :=
  decide (pr.Status = StatusMerged)

def IsFullyAssigned (pr : PullRequest) : Bool :=
  decide (pr.reviewers.length = maxReviewers)

/-- The `for _, candidate := range candidates` loop of `AddReviewers`.  The state is
the pull request (only its reviewer slice changes) and `addedReviewers`; the result is
the state when the loop ends, by `break` or by exhaustion. -/
def addReviewersLoop (reviewersLimit : Nat) :
    List UserID → PullRequest → List UserID → PullRequest × List UserID
  | [], pr, addedReviewers => (pr, addedReviewers)
  | candidate :: rest, pr, addedReviewers =>
    if addedReviewers.length = reviewersLimit then
      (pr, addedReviewers)
    else if candidate = pr.AuthorID ∨ pr.IsReviewer candidate = true then
      addReviewersLoop reviewersLimit rest pr addedReviewers
    else
      addReviewersLoop reviewersLimit rest
        { pr with reviewers := pr.reviewers ++ [candidate] } (addedReviewers ++ [candidate])

/-- The method `AddReviewers`.  Result: the pull request afterwards and the returned
slice (`none` for nil).  `maxReviewers - len(pr.reviewers)` is a signed subtraction in
the source and `make` panics on a negative capacity, which is the outer `none`. -/
def AddReviewers (pr : PullRequest) (candidates : List UserID) :
    Option (PullRequest × Option (List UserID)) :=
  if pr.IsMerged = true ∨ pr.IsFullyAssigned = true ∨ candidates.length = 0 then
    some (pr, none)
  else if maxReviewers < pr.reviewers.length then
    none
  else
    let reviewersLimit := maxReviewers - pr.reviewers.length
    let (pr1, addedReviewers) := addReviewersLoop reviewersLimit candidates pr []
    if addedReviewers.length = 0 then
      some (pr1, none)
    else
      some (pr1, some addedReviewers)

def SetReviewers (pr : PullRequest) (reviewers : List UserID) : PullRequest :=
  { pr with reviewers := reviewers }

/-- The first loop over the reviewers in `ReassignReviewer`: is `newID` among them. -/
def containsLoop (newID : UserID) : List UserID → Bool
  | [] => false
  | reviewerID :: rest => if reviewerID = newID then true else containsLoop newID rest

/-- The second loop over the reviewers in `ReassignReviewer`: overwrite the first entry
equal to `oldID` with `newID`; `none` when the loop ends without finding one. -/
def replaceLoop (oldID newID : UserID) : List UserID → Option (List UserID)
  | [] => none
  | reviewerID :: rest =>
    if reviewerID = oldID then some (newID :: rest)
    else (replaceLoop oldID newID rest).map (fun rest1 => reviewerID :: rest1)

/-- The method `ReassignReviewer`: the pull request afterwards and the returned error. -/
def ReassignReviewer (pr : PullRequest) (oldID newID : UserID) :
    PullRequest × Option Error :=
  if pr.IsMerged = true then (pr, some Error.ErrPRMerged)
  else if pr.IsReviewer oldID = false then (pr, some Error.ErrNotAssigned)
  else if newID = pr.AuthorID then (pr, some Error.ErrNoCandidate)
  else if containsLoop newID pr.reviewers = true then (pr, some Error.ErrNoCandidate)
  else
    match replaceLoop oldID newID pr.reviewers with
    | some reviewers1 => ({ pr with reviewers := reviewers1 }, none)
    | none => (pr, some Error.ErrNotAssigned)

def Merge (pr : PullRequest) (mergedAt : Time) : PullRequest :=
  if pr.Status = StatusMerged then pr
  else { pr with Status := StatusMerged, MergedAt := some mergedAt }

end PullRequest

/-! ## Ports of the application layer (`internal/app/ports.go`)

The collaborators are interfaces.  Each method maps its arguments and the state of the
world `ω` (the store, the clock, the random source) to its results and the next state of
the world.  The `context.Context` argument is left out. -/

structure UserRepository (ω : Type) where
  GetByID : UserID → ω → (User × Option Error) × ω
  GetUsersByTeam : TeamName → ω → (List User × Option Error) × ω
  GetAll : ω → (List User × Option Error) × ω
  UpsertMembers : TeamName → List User → ω → Option Error × ω
  SetIsActive : UserID → Bool → ω → (User × Option Error) × ω

structure TeamRepository (ω : Type) where
  Create : Team → ω → Option Error × ω
  GetByName : TeamName → ω → (Team × Option Error) × ω
  GetAll : ω → (List Team × Option Error) × ω

/-- The interface `PullRequestRepository`.  `Create` and `Save` receive a pointer in the
source; they are given the value it points to and do not write through it. -/
structure PullRequestRepository (ω : Type) where
  Create : PullRequest → ω → Option Error × ω
  Save : PullRequest → ω → Option Error × ω
  GetByID : PullRequestID → ω → (Option PullRequest × Option Error) × ω
  GetByReviewer : UserID → ω → (List PullRequest × Option Error) × ω
  GetAll : ω → (List PullRequest × Option Error) × ω
  ReassignReviewer : PullRequestID → UserID → UserID → ω → Option Error × ω

structure TimeProvider (ω : Type) where
  Now : ω → Time × ω

/-- The interface `RandomProvider`.  `Shuffle n swapFunc` calls `swapFunc` on a sequence
of index pairs of its choice, which is what the method returns here. -/
structure RandomProvider (ω : Type) where
  Shuffle : Nat → ω → List (Int × Int) × ω
  Intn : Int → ω → Int × ω

/-- The interface `TxManager`.  The operation is a closure: it acts on the variables it
captures, of some type `κ`, and on the world, returns an error or nil, and may panic
(`none`).  The manager cannot reach the captured variables except by running the
operation. -/
structure TxManager (ω : Type) where
  Do : {κ : Type} → (κ × ω → Option (Option Error × (κ × ω))) → κ × ω →
    Option (Option Error × (κ × ω))

/-- The test double `mocks.TxManager` set up to return `ret`: it runs the operation and
returns its error when `ret` is nil, and returns `ret` without running it otherwise. -/
def mockTxManager {ω : Type} (ret : Option Error) : TxManager ω where
  Do := fun operation st => if ret = none then operation st else some (ret, st)

/-! ## The pull-request service (`internal/app/services/pull_request_service.go`) -/

structure pullRequestService (ω : Type) where
  userRepository : UserRepository ω
  teamRepository : TeamRepository ω
  pullRequestRepository : PullRequestRepository ω
  txManager : Option (TxManager ω)
  timeProvider : TimeProvider ω
  random : RandomProvider ω

def filterActiveUsersExcludeAuthor (authorID : UserID) (candidates : List User) : List User :=
  candidates.filter (fun candidate => candidate.IsActive && decide (candidate.ID ≠ authorID))

def toUserIDs (users : List User) : List UserID :=
  users.map (fun user => user.ID)

/-- The closure passed to `Shuffle` in `Create`, called at `(i, j)`:
`ids[i], ids[j] = ids[j], ids[i]`.  Both elements are read first, then both are
written; an index out of range panics. -/
def swapFunc (ids : List UserID) (i j : Int) : Option (List UserID) :=
  if 0 ≤ i ∧ i < ids.length ∧ 0 ≤ j ∧ j < ids.length then
    some ((ids.set i.toNat (ids.getD j.toNat "")).set j.toNat (ids.getD i.toNat ""))
  else
    none

/-- The calls of the swap closure made by one `Shuffle`, in order. -/
def applySwaps : List UserID → List (Int × Int) → Option (List UserID)
  | ids, [] => some ids
  | ids, (i, j) :: rest => (swapFunc ids i j).bind (fun ids1 => applySwaps ids1 rest)

namespace pullRequestService

/-- The last step of the operation of `Create`: persist and return the error. -/
def createPersist {ω : Type} (s : pullRequestService ω) (resultPullRequest : PullRequest)
    (w : ω) : Option (Option Error × (Option PullRequest × ω)) :=
  some ((s.pullRequestRepository.Create resultPullRequest w).1,
    (some resultPullRequest, (s.pullRequestRepository.Create resultPullRequest w).2))

/-- The steps of the operation of `Create` from the construction of the pull request
on: the clock is read, the candidates are filtered, shuffled when there are any and
offered to `AddReviewers`, and the pull request is persisted. -/
def createAssign {ω : Type} (s : pullRequestService ω) (pullRequestID : PullRequestID)
    (pullRequestName : String) (authorID : UserID) (teamMembers : List User) (w : ω) :
    Option (Option Error × (Option PullRequest × ω)) :=
  let resultPullRequest :=
    NewPullRequest pullRequestID pullRequestName authorID (s.timeProvider.Now w).1
  let w1 := (s.timeProvider.Now w).2
  let activeCandidates := filterActiveUsersExcludeAuthor authorID teamMembers
  if activeCandidates.length > 0 then
    let activeCandidatesIDs := toUserIDs activeCandidates
    let shuffled := s.random.Shuffle activeCandidatesIDs.length w1
    match applySwaps activeCandidatesIDs shuffled.1 with
    | none => none
    | some activeCandidatesIDs1 =>
      match resultPullRequest.AddReviewers activeCandidatesIDs1 with
      | none => none
      | some (resultPullRequest1, _) => createPersist s resultPullRequest1 shuffled.2
  else
    createPersist s resultPullRequest w1

/-- The closure `operation` of `Create`.  Its captured variable is `resultPullRequest`,
a pointer that is nil until the pull request is constructed. -/
def createOperation {ω : Type} (s : pullRequestService ω) (pullRequestID : PullRequestID)
    (pullRequestName : String) (authorID : UserID) :
    Option PullRequest × ω → Option (Option Error × (Option PullRequest × ω))
  | (resultPullRequest, w) =>
    let found := s.pullRequestRepository.GetByID pullRequestID w
    if found.1.2 = none then
      some (some Error.ErrPRExists, (resultPullRequest, found.2))
    else
      let author := s.userRepository.GetByID authorID found.2
      if author.1.2 ≠ none then
        some (some Error.ErrUserNotFound, (resultPullRequest, author.2))
      else
        let team := s.teamRepository.GetByName author.1.1.Team author.2
        match team.1.2 with
        | some err => some (some err, (resultPullRequest, team.2))
        | none =>
          if author.1.1.IsActive = false then
            some (some Error.ErrAuthorNotActive, (resultPullRequest, team.2))
          else
            let teamMembers := s.userRepository.GetUsersByTeam team.1.1.Name team.2
            match teamMembers.1.2 with
            | some err => some (some err, (resultPullRequest, teamMembers.2))
            | none =>
              createAssign s pullRequestID pullRequestName authorID teamMembers.1.1
                teamMembers.2

/-- The method `Create`: the returned pull request (`none` for a nil pointer), the
returned error and the world afterwards; the outer `none` is a panic. -/
def Create {ω : Type} (s : pullRequestService ω) (pullRequestID : PullRequestID)
    (pullRequestName : String) (authorID : UserID) (w : ω) :
    Option ((Option PullRequest × Option Error) × ω) :=
  match s.txManager with
  | none => some ((none, some Error.ErrTransactionRequired), w)
  | some txManager =>
    match txManager.Do (createOperation s pullRequestID pullRequestName authorID) (none, w) with
    | none => none
    | some (some err, (_, w1)) => some ((none, some err), w1)
    | some (none, (resultPullRequest, w1)) => some ((resultPullRequest, none), w1)

end pullRequestService

/-- The author of the tests of `pull_request_service_test.go`. -/
def testAuthor : User :=
  { ID := "author1", Username := "author", Team := "backend", IsActive := true }

/-- The team members of the test "successfully create pull request with reviewers". -/
def testMembers : List User :=
  [{ ID := "user1", Username := "user1", Team := "backend", IsActive := true },
   { ID := "user2", Username := "user2", Team := "backend", IsActive := true },
   testAuthor]

def testUserRepository : UserRepository Unit where
  GetByID := fun _ w => ((testAuthor, none), w)
  GetUsersByTeam := fun _ w => ((testMembers, none), w)
  GetAll := fun w => (([], some (Error.infra "unexpected call")), w)
  UpsertMembers := fun _ _ w => (some (Error.infra "unexpected call"), w)
  SetIsActive := fun _ _ w => ((testAuthor, some (Error.infra "unexpected call")), w)

def testTeamRepository : TeamRepository Unit where
  Create := fun _ w => (some (Error.infra "unexpected call"), w)
  GetByName := fun _ w => (({ Name := "backend" }, none), w)
  GetAll := fun w => (([], some (Error.infra "unexpected call")), w)

def testPullRequestRepository : PullRequestRepository Unit where
  Create := fun _ w => (none, w)
  Save := fun _ w => (some (Error.infra "unexpected call"), w)
  GetByID := fun _ w => ((none, some Error.ErrPRNotFound), w)
  GetByReviewer := fun _ w => (([], some (Error.infra "unexpected call")), w)
  GetAll := fun w => (([], some (Error.infra "unexpected call")), w)
  ReassignReviewer := fun _ _ _ w => (some (Error.infra "unexpected call"), w)

/-- The collaborators of the test "successfully create pull request with reviewers" of
`pull_request_service_test.go`, over a world without state: no pull request is found,
"author1" is an active user of team "backend", whose members are "user1", "user2" and
the author, the clock reads 42, `Shuffle` swaps the indices 0 and 1, the persist
succeeds.  The methods the test does not set up fail with an infrastructure error. -/
def testService : pullRequestService Unit where
  userRepository := testUserRepository
  teamRepository := testTeamRepository
  pullRequestRepository := testPullRequestRepository
  txManager := some (mockTxManager none)
  timeProvider := { Now := fun w => (42, w) }
  random := { Shuffle := fun _ w => ([(0, 1)], w), Intn := fun _ w => (0, w) }

/-- The function `errors.Is` of the standard library: the error is the target, or it
wraps an error that is.  Two errors of the infrastructure with the same text are one
value here; every target in the program is a sentinel. -/
def errorsIs : Error → Error → Bool
  | Error.wrapped text inner, target =>
    decide (Error.wrapped text inner = target) || errorsIs inner target
  | err, target => decide (err = target)

/-- The inner loop of `filterActiveUsersExcludeAuthorAndReviewer` over
`pullRequest.Reviewers()`, which computes `isAlreadyReviewer`. -/
def isAlreadyReviewerLoop (candidateID reviewerID : UserID) : List UserID → Bool
  | [] => false
  | existingReviewer :: rest =>
    if existingReviewer = candidateID ∧ existingReviewer ≠ reviewerID then true
    else isAlreadyReviewerLoop candidateID reviewerID rest

def filterActiveUsersExcludeAuthorAndReviewer (pullRequest : PullRequest)
    (authorID reviewerID : UserID) (candidates : List User) : List User :=
  candidates.filter (fun candidate =>
    candidate.IsActive && decide (candidate.ID ≠ authorID) &&
      decide (candidate.ID ≠ reviewerID) &&
      !(isAlreadyReviewerLoop candidate.ID reviewerID pullRequest.Reviewers))

namespace pullRequestService

/-- The captured variables of the operation of `ReassignReviewer`:
`resultPullRequest` and `newReviewerID`. -/
abbrev ReassignCaptured := Option PullRequest × UserID

/-- The steps of the operation of `ReassignReviewer` after the member lookup: the
candidates are filtered, one is drawn with `Intn` (an index out of range panics), the
swap is requested and the pull request is read again. -/
def reassignSelect {ω : Type} (s : pullRequestService ω) (pullRequestID : PullRequestID)
    (oldReviewerID : UserID) (pullRequest : PullRequest) (teamMembers : List User)
    (captured : ReassignCaptured) (w : ω) :
    Option (Option Error × (ReassignCaptured × ω)) :=
  let activeCandidates := filterActiveUsersExcludeAuthorAndReviewer pullRequest
    pullRequest.AuthorID oldReviewerID teamMembers
  if activeCandidates.length = 0 then
    some (some Error.ErrNoCandidate, (captured, w))
  else
    let activeCandidatesIDs := toUserIDs activeCandidates
    let drawn := s.random.Intn activeCandidatesIDs.length w
    if 0 ≤ drawn.1 ∧ drawn.1 < activeCandidatesIDs.length then
      let newReviewerID := activeCandidatesIDs.getD drawn.1.toNat ""
      let swapped := s.pullRequestRepository.ReassignReviewer pullRequestID oldReviewerID
        newReviewerID drawn.2
      match swapped.1 with
      | some err => some (some err, ((captured.1, newReviewerID), swapped.2))
      | none =>
        let reread := s.pullRequestRepository.GetByID pullRequestID swapped.2
        some (reread.1.2, ((reread.1.1, newReviewerID), reread.2))
    else
      none

/-- The steps of the operation of `ReassignReviewer` from the lookup of the author to
the lookup of the members. -/
def reassignLookups {ω : Type} (s : pullRequestService ω) (pullRequestID : PullRequestID)
    (oldReviewerID : UserID) (pullRequest : PullRequest) (captured : ReassignCaptured)
    (w : ω) : Option (Option Error × (ReassignCaptured × ω)) :=
  let author := s.userRepository.GetByID pullRequest.AuthorID w
  match author.1.2 with
  | some err => some (some err, (captured, author.2))
  | none =>
    let team := s.teamRepository.GetByName author.1.1.Team author.2
    match team.1.2 with
    | some err => some (some err, (captured, team.2))
    | none =>
      let teamMembers := s.userRepository.GetUsersByTeam team.1.1.Name team.2
      match teamMembers.1.2 with
      | some err => some (some err, (captured, teamMembers.2))
      | none =>
        reassignSelect s pullRequestID oldReviewerID pullRequest teamMembers.1.1 captured
          teamMembers.2

/-- The closure `operation` of `ReassignReviewer`.  A lookup that returns neither a pull
request nor an error makes `pullRequest.IsMerged()` dereference nil, a panic. -/
def reassignOperation {ω : Type} (s : pullRequestService ω) (pullRequestID : PullRequestID)
    (oldReviewerID : UserID) :
    ReassignCaptured × ω → Option (Option Error × (ReassignCaptured × ω))
  | (captured, w) =>
    let found := s.pullRequestRepository.GetByID pullRequestID w
    match found.1.2 with
    | some err => some (some err, (captured, found.2))
    | none =>
      match found.1.1 with
      | none => none
      | some pullRequest =>
        if pullRequest.IsMerged = true then
          some (some Error.ErrPRMerged, (captured, found.2))
        else
          let oldReviewer := s.userRepository.GetByID oldReviewerID found.2
          if oldReviewer.1.2 ≠ none then
            some (some Error.ErrUserNotFound, (captured, oldReviewer.2))
          else if pullRequest.IsReviewer oldReviewerID = false then
            some (some Error.ErrNotAssigned, (captured, oldReviewer.2))
          else
            reassignLookups s pullRequestID oldReviewerID pullRequest captured oldReviewer.2

/-- The method `ReassignReviewer`: the returned pull request, reviewer ID and error,
and the world afterwards; the outer `none` is a panic. -/
def ReassignReviewer {ω : Type} (s : pullRequestService ω) (pullRequestID : PullRequestID)
    (oldReviewerID : UserID) (w : ω) :
    Option ((Option PullRequest × UserID × Option Error) × ω) :=
  match s.txManager with
  | none => some ((none, "", some Error.ErrTransactionRequired), w)
  | some txManager =>
    match txManager.Do (reassignOperation s pullRequestID oldReviewerID) ((none, ""), w) with
    | none => none
    | some (some err, (_, w1)) => some ((none, "", some err), w1)
    | some (none, ((resultPullRequest, newReviewerID), w1)) =>
      some ((resultPullRequest, newReviewerID, none), w1)

/-- The method `Merge`.  As in `ReassignReviewer`, a lookup that returns neither a pull
request nor an error ends in a nil dereference. -/
def Merge {ω : Type} (s : pullRequestService ω) (pullRequestID : PullRequestID) (w : ω) :
    Option ((Option PullRequest × Option Error) × ω) :=
  let found := s.pullRequestRepository.GetByID pullRequestID w
  match found.1.2 with
  | some err => some ((none, some err), found.2)
  | none =>
    match found.1.1 with
    | none => none
    | some pullRequest =>
      let now := s.timeProvider.Now found.2
      let saved := s.pullRequestRepository.Save (pullRequest.Merge now.1) now.2
      match saved.1 with
      | some err => some ((none, some err), saved.2)
      | none => some ((some (pullRequest.Merge now.1), none), saved.2)

end pullRequestService

/-! ## The team service (`internal/app/services/team_service.go`) -/

structure teamService (ω : Type) where
  userRepository : UserRepository ω
  teamRepository : TeamRepository ω
  txManager : Option (TxManager ω)

namespace teamService

/-- The captured variables of the operation of `Create`: `resultTeam` and
`resultTeamMembers`, a slice that is nil (`none`) until the members are read again.  The
list a repository returns is written into it as it comes. -/
abbrev CreateCaptured := Team × Option (List User)

/-- The closure `operation` of `Create`. -/
def createOperation {ω : Type} (s : teamService ω) (teamName : TeamName)
    (members : List User) :
    CreateCaptured × ω → Option (Option Error × (CreateCaptured × ω))
  | (captured, w) =>
    let found := s.teamRepository.GetByName teamName w
    match found.1.2 with
    | none => some (some Error.ErrTeamExists, (captured, found.2))
    | some err =>
      if errorsIs err Error.ErrTeamNotFound = false then
        some (some err, (captured, found.2))
      else
        let created := s.teamRepository.Create { Name := teamName } found.2
        match created.1 with
        | some createErr => some (some createErr, (captured, created.2))
        | none =>
          let upserted := s.userRepository.UpsertMembers teamName members created.2
          match upserted.1 with
          | some upsertErr => some (some upsertErr, (captured, upserted.2))
          | none =>
            let reread := s.userRepository.GetUsersByTeam teamName upserted.2
            match reread.1.2 with
            | some err => some (some err, ((captured.1, some reread.1.1), reread.2))
            | none => some (none, (({ Name := teamName }, some reread.1.1), reread.2))

/-- The method `Create`: the returned team, member list (`none` for nil) and error, and
the world afterwards.  Its last statement returns the two captured variables and the
result of `Do`; the variables are read after `Do` has returned, the order on which the
test "successfully create team with members" relies. -/
def Create {ω : Type} (s : teamService ω) (teamName : TeamName) (members : List User)
    (w : ω) : Option ((Team × Option (List User) × Option Error) × ω) :=
  match s.txManager with
  | none => some (({ Name := "" }, none, some Error.ErrTransactionRequired), w)
  | some txManager =>
    match txManager.Do (createOperation s teamName members) (({ Name := "" }, none), w) with
    | none => none
    | some (err, ((resultTeam, resultTeamMembers), w1)) =>
      some ((resultTeam, resultTeamMembers, err), w1)

end teamService

/-! ## The transaction manager (`internal/infrastructure/db/tx_manager.go`) -/

/-- The part of `database/sql` that the transaction manager calls: `BeginTx` on the
handle, `Rollback` and `Commit` on the transaction it returned.  Each gives the text of
the driver's error, or `none`, and the next state of the world. -/
structure SqlDB (ω : Type) where
  BeginTx : ω → Option String × ω
  Rollback : ω → Option String × ω
  Commit : ω → Option String × ω

/-- The method `txManager.Do`. -/
def txManagerDo {ω κ : Type} (db : SqlDB ω)
    (operation : κ × ω → Option (Option Error × (κ × ω))) (st : κ × ω) :
    Option (Option Error × (κ × ω)) :=
  let begun := db.BeginTx st.2
  match begun.1 with
  | some text =>
    some (some (Error.wrapped "failed to begin transaction: %w" (Error.infra text)),
      (st.1, begun.2))
  | none =>
    match operation (st.1, begun.2) with
    | none => none
    | some (some operationErr, st1) =>
      let rolledBack := db.Rollback st1.2
      match rolledBack.1 with
      | some text =>
        some (some (Error.wrapped ("operation failed: %w, rollback error: " ++ text)
          operationErr), (st1.1, rolledBack.2))
      | none =>
        some (some (Error.wrapped "operation failed: %w" operationErr),
          (st1.1, rolledBack.2))
    | some (none, st1) =>
      let committed := db.Commit st1.2
      match committed.1 with
      | some text =>
        some (some (Error.wrapped "failed to commit transaction: %w" (Error.infra text)),
          (st1.1, committed.2))
      | none => some (none, (st1.1, committed.2))

def NewTxManager {ω : Type} (db : SqlDB ω) : TxManager ω where
  Do := fun operation st => txManagerDo db operation st

/-! ## Test doubles that record their calls

The doubles of `internal/app/services/mocks` with a world that is the list of the calls
made so far, oldest first.  What each call answers is fixed by `Answers`. -/

/-- One call on a collaborator, with its arguments. -/
inductive Call where
  | UserGetByID (id : UserID)
  | UserGetUsersByTeam (teamName : TeamName)
  | UserGetAll
  | UserUpsertMembers (teamName : TeamName) (members : List User)
  | UserSetIsActive (id : UserID) (isActive : Bool)
  | TeamCreate (team : Team)
  | TeamGetByName (name : TeamName)
  | TeamGetAll
  | PullRequestCreate (pullRequest : PullRequest)
  | PullRequestSave (pullRequest : PullRequest)
  | PullRequestGetByID (id : PullRequestID)
  | PullRequestGetByReviewer (reviewerID : UserID)
  | PullRequestGetAll
  | PullRequestReassignReviewer (id : PullRequestID) (oldReviewerID newReviewerID : UserID)
  | Now
  | Shuffle (n : Nat)
  | Intn (n : Int)
  | BeginTx
  | Rollback
  | Commit
  deriving DecidableEq, Repr

/-- What the doubles answer.  The lookup of a pull request answers by the number of
lookups made before it, as the tests set it up with `Once`. -/
structure Answers where
  userGetByID : UserID → User × Option Error
  userGetUsersByTeam : TeamName → List User × Option Error
  userUpsertMembers : Option Error
  teamGetByName : TeamName → Team × Option Error
  teamCreate : Option Error
  pullRequestGetByID : Nat → Option PullRequest × Option Error
  pullRequestCreate : Option Error
  pullRequestSave : Option Error
  pullRequestReassignReviewer : Option Error
  now : Time
  shuffle : List (Int × Int)
  intn : Int

/-- The number of pull-request lookups among the calls. -/
def lookupsSoFar (calls : List Call) : Nat :=
  (calls.filter (fun c => match c with
    | Call.PullRequestGetByID _ => true
    | _ => false)).length

def recordingUserRepository (a : Answers) : UserRepository (List Call) where
  GetByID := fun id calls => (a.userGetByID id, calls ++ [Call.UserGetByID id])
  GetUsersByTeam := fun teamName calls =>
    (a.userGetUsersByTeam teamName, calls ++ [Call.UserGetUsersByTeam teamName])
  GetAll := fun calls => (([], some (Error.infra "unexpected call")), calls ++ [Call.UserGetAll])
  UpsertMembers := fun teamName members calls =>
    (a.userUpsertMembers, calls ++ [Call.UserUpsertMembers teamName members])
  SetIsActive := fun id isActive calls =>
    (((a.userGetByID id).1, some (Error.infra "unexpected call")),
      calls ++ [Call.UserSetIsActive id isActive])

def recordingTeamRepository (a : Answers) : TeamRepository (List Call) where
  Create := fun team calls => (a.teamCreate, calls ++ [Call.TeamCreate team])
  GetByName := fun name calls => (a.teamGetByName name, calls ++ [Call.TeamGetByName name])
  GetAll := fun calls => (([], some (Error.infra "unexpected call")), calls ++ [Call.TeamGetAll])

def recordingPullRequestRepository (a : Answers) : PullRequestRepository (List Call) where
  Create := fun pullRequest calls =>
    (a.pullRequestCreate, calls ++ [Call.PullRequestCreate pullRequest])
  Save := fun pullRequest calls =>
    (a.pullRequestSave, calls ++ [Call.PullRequestSave pullRequest])
  GetByID := fun id calls =>
    (a.pullRequestGetByID (lookupsSoFar calls), calls ++ [Call.PullRequestGetByID id])
  GetByReviewer := fun reviewerID calls =>
    (([], some (Error.infra "unexpected call")), calls ++ [Call.PullRequestGetByReviewer reviewerID])
  GetAll := fun calls =>
    (([], some (Error.infra "unexpected call")), calls ++ [Call.PullRequestGetAll])
  ReassignReviewer := fun id oldReviewerID newReviewerID calls =>
    (a.pullRequestReassignReviewer,
      calls ++ [Call.PullRequestReassignReviewer id oldReviewerID newReviewerID])

/-- The pull-request service over the recording doubles. -/
def recordingPullRequestService (a : Answers) (txManager : Option (TxManager (List Call))) :
    pullRequestService (List Call) where
  userRepository := recordingUserRepository a
  teamRepository := recordingTeamRepository a
  pullRequestRepository := recordingPullRequestRepository a
  txManager := txManager
  timeProvider := { Now := fun calls => (a.now, calls ++ [Call.Now]) }
  random :=
    { Shuffle := fun n calls => (a.shuffle, calls ++ [Call.Shuffle n])
      Intn := fun n calls => (a.intn, calls ++ [Call.Intn n]) }

/-- The team service over the recording doubles. -/
def recordingTeamService (a : Answers) (txManager : Option (TxManager (List Call))) :
    teamService (List Call) where
  userRepository := recordingUserRepository a
  teamRepository := recordingTeamRepository a
  txManager := txManager

/-- A database handle that records the calls of the transaction manager and answers
them as given. -/
def recordingSqlDB (begin rollback commit : Option String) : SqlDB (List Call) where
  BeginTx := fun calls => (begin, calls ++ [Call.BeginTx])
  Rollback := fun calls => (rollback, calls ++ [Call.Rollback])
  Commit := fun calls => (commit, calls ++ [Call.Commit])

/-- Answers in which every lookup fails and every write succeeds; the tests below
override the fields they set up. -/
def noAnswers : Answers where
  userGetByID := fun _ =>
    ({ ID := "", Username := "", Team := "", IsActive := false }, some Error.ErrUserNotFound)
  userGetUsersByTeam := fun _ => ([], some (Error.infra "unexpected call"))
  userUpsertMembers := none
  teamGetByName := fun _ => ({ Name := "" }, some Error.ErrTeamNotFound)
  teamCreate := none
  pullRequestGetByID := fun _ => (none, some Error.ErrPRNotFound)
  pullRequestCreate := none
  pullRequestSave := none
  pullRequestReassignReviewer := none
  now := 42
  shuffle := []
  intn := 0

/-- The pull request of the tests of `ReassignReviewer`, with the given reviewers. -/
def testPullRequest (reviewers : List UserID) : PullRequest :=
  { ID := "pull-request-1", Name := "Test Pull Request", AuthorID := "author1",
    Status := StatusOpen, reviewers := reviewers, CreatedAt := 0, MergedAt := none }

/-- The answers of the test "successfully reassign reviewer": the first lookup finds
the pull request with reviewer "reviewer1", the second the one with "reviewer2"; the
team has the active members "reviewer2" and "user3"; `Intn` returns 0. -/
def reassignAnswers : Answers :=
  { noAnswers with
    pullRequestGetByID := fun n =>
      if n = 0 then (some (testPullRequest ["reviewer1"]), none)
      else (some (testPullRequest ["reviewer2"]), none)
    userGetByID := fun id =>
      if id = "author1" then (testAuthor, none)
      else ({ ID := id, Username := "reviewer1", Team := "backend", IsActive := true }, none)
    teamGetByName := fun _ => ({ Name := "backend" }, none)
    userGetUsersByTeam := fun _ =>
      ([{ ID := "reviewer2", Username := "reviewer2", Team := "backend", IsActive := true },
        { ID := "user3", Username := "user3", Team := "backend", IsActive := true }], none) }

/-- The answers of the test "fail when no candidates available": the only member of the
team is the author. -/
def noCandidateAnswers : Answers :=
  { reassignAnswers with userGetUsersByTeam := fun _ => ([testAuthor], none) }

/-- The answers of the tests of `Merge`: the lookup finds the given pull request. -/
def mergeAnswers (pr : PullRequest) : Answers :=
  { noAnswers with pullRequestGetByID := fun _ => (some pr, none) }

/-- The answers of the test "successfully create team with members": the team is not
found, and the members read again are the member "user1". -/
def teamAnswers : Answers :=
  { noAnswers with
    userGetUsersByTeam := fun _ =>
      ([{ ID := "user1", Username := "Alice", Team := "backend", IsActive := true }], none) }

/-- The answers of the test "successfully create pull request with reviewers". -/
def createAnswers : Answers :=
  { noAnswers with
    userGetByID := fun _ => (testAuthor, none)
    teamGetByName := fun _ => ({ Name := "backend" }, none)
    userGetUsersByTeam := fun _ => (testMembers, none)
    shuffle := [(0, 1)] }

/-! ## The store (`internal/infrastructure/postgres/repositories`)

The repositories of the program over a model of the database: four tables and the
answers of the driver.  Every call on the handle or on a transaction takes the next
answer of `faults`: `none`, the call is carried out, or the text of the error the driver
returns instead; past the end of `faults` every call is carried out.  The tables are
plain lists in insertion order, which is also the order of the rows of a query; a
statement that the database would reject fails through `faults`.  The query builder
does not fail on the queries of the program, and reading the columns of a row does
not fail. -/

/-- A row of the table `pull_requests`, the struct `db_models.PullRequest`.  The two
times are kept as times: their text form is left out. -/
structure PullRequestRow where
  ID : String
  Name : String
  AuthorID : String
  Status : String
  CreatedAt : Time
  MergedAt : Option Time
  deriving DecidableEq, Repr

/-- The database behind the handle `*sql.DB`.  A row of `teams` is `(id, team_name)`, a
row of `users` has the fields of `db_models.User`, which are those of `entities.User`,
a row of `pull_request_reviewers` is `(pull_request_id, user_id)`. -/
structure Database where
  teams : List (String × String)
  users : List User
  pullRequests : List PullRequestRow
  pullRequestReviewers : List (String × String)
  faults : List (Option String)
  deriving DecidableEq, Repr

/-- One call on the handle or on a transaction: the answer of the driver and the
database with that answer consumed. -/
def Database.call (db : Database) : Option String × Database :=
  match db.faults with
  | [] => (none, db)
  | fault :: rest => (fault, { db with faults := rest })

def ToPullRequestDBModel (pullRequest : PullRequest) : PullRequestRow :=
  { ID := pullRequest.ID
    Name := pullRequest.Name
    AuthorID := pullRequest.AuthorID
    Status := pullRequest.Status
    CreatedAt := pullRequest.CreatedAt
    MergedAt := pullRequest.MergedAt }

def FromPullRequestDBModel (dbPullRequest : PullRequestRow) : PullRequest :=
  { ID := dbPullRequest.ID
    Name := dbPullRequest.Name
    AuthorID := dbPullRequest.AuthorID
    Status := dbPullRequest.Status
    reviewers := []
    CreatedAt := dbPullRequest.CreatedAt
    MergedAt := dbPullRequest.MergedAt }

/-- The zero value `entities.User{}`. -/
def emptyUser : User := { ID := "", Username := "", Team := "", IsActive := false }

namespace repositories

/-- The loop of `pullRequestRepository.Create` over the reviewers: one insert into
`pull_request_reviewers` each, the first failure ends the loop. -/
def insertReviewersLoop (pullRequestID : String) : List UserID → Database →
    Option Error × Database
  | [], db => (none, db)
  | reviewerID :: rest, db =>
    match db.call with
    | (some text, db1) => (some (Error.infra ("failed to insert reviewer: " ++ text)), db1)
    | (none, db1) =>
      insertReviewersLoop pullRequestID rest
        { db1 with
          pullRequestReviewers := db1.pullRequestReviewers ++ [(pullRequestID, reviewerID)] }

def pullRequestCreate (pullRequest : PullRequest) (db : Database) : Option Error × Database :=
  match db.call with
  | (some text, db1) => (some (Error.infra ("failed to insert pull request: " ++ text)), db1)
  | (none, db1) =>
    if pullRequest.Reviewers.length > 0 then
      insertReviewersLoop (ToPullRequestDBModel pullRequest).ID pullRequest.Reviewers
        { db1 with pullRequests := db1.pullRequests ++ [ToPullRequestDBModel pullRequest] }
    else
      (none, { db1 with pullRequests := db1.pullRequests ++ [ToPullRequestDBModel pullRequest] })

def pullRequestSave (pullRequest : PullRequest) (db : Database) : Option Error × Database :=
  match db.call with
  | (some text, db1) => (some (Error.infra ("failed to update pull request: " ++ text)), db1)
  | (none, db1) =>
    (none, { db1 with
      pullRequests := db1.pullRequests.map (fun row =>
        if row.ID = (ToPullRequestDBModel pullRequest).ID then
          { row with Status := (ToPullRequestDBModel pullRequest).Status,
                     MergedAt := (ToPullRequestDBModel pullRequest).MergedAt }
        else row) })

def pullRequestGetByID (id : PullRequestID) (db : Database) :
    (Option PullRequest × Option Error) × Database :=
  match db.call with
  | (some text, db1) =>
    ((none, some (Error.infra ("failed to fetch pull request: " ++ text))), db1)
  | (none, db1) =>
    match db1.pullRequests.find? (fun row => decide (row.ID = id)) with
    | none => ((none, some Error.ErrPRNotFound), db1)
    | some dbPullRequest =>
      match db1.call with
      | (some text, db2) =>
        ((none, some (Error.infra ("failed to fetch reviewers: " ++ text))), db2)
      | (none, db2) =>
        ((some ((FromPullRequestDBModel dbPullRequest).SetReviewers
            ((db2.pullRequestReviewers.filter (fun r => decide (r.1 = id))).map
              (fun r => r.2))), none), db2)

def pullRequestGetByReviewer (reviewerID : UserID) (db : Database) :
    (List PullRequest × Option Error) × Database :=
  match db.call with
  | (some text, db1) =>
    (([], some (Error.infra ("failed to fetch pull requests: " ++ text))), db1)
  | (none, db1) =>
    (((db1.pullRequests.flatMap (fun row =>
        (db1.pullRequestReviewers.filter
          (fun r => decide (r.1 = row.ID ∧ r.2 = reviewerID))).map
          (fun _ => FromPullRequestDBModel row))), none), db1)

def pullRequestGetAll (db : Database) : (List PullRequest × Option Error) × Database :=
  match db.call with
  | (some text, db1) =>
    (([], some (Error.infra ("failed to fetch pull requests: " ++ text))), db1)
  | (none, db1) => ((db1.pullRequests.map FromPullRequestDBModel, none), db1)

def pullRequestReassignReviewer (pullRequestID : PullRequestID)
    (oldReviewerID newReviewerID : UserID) (db : Database) : Option Error × Database :=
  match db.call with
  | (some text, db1) => (some (Error.infra ("failed to reassign reviewer: " ++ text)), db1)
  | (none, db1) =>
    (none, { db1 with
      pullRequestReviewers := db1.pullRequestReviewers.map (fun r =>
        if r.1 = pullRequestID ∧ r.2 = oldReviewerID then (r.1, newReviewerID) else r) })

def NewPullRequestRepository : PullRequestRepository Database where
  Create := pullRequestCreate
  Save := pullRequestSave
  GetByID := pullRequestGetByID
  GetByReviewer := pullRequestGetByReviewer
  GetAll := pullRequestGetAll
  ReassignReviewer := pullRequestReassignReviewer

def userGetByID (id : UserID) (db : Database) : (User × Option Error) × Database :=
  match db.call with
  | (some text, db1) => ((emptyUser, some (Error.infra ("failed to fetch user: " ++ text))), db1)
  | (none, db1) =>
    match db1.users.find? (fun row => decide (row.ID = id)) with
    | none => ((emptyUser, some Error.ErrUserNotFound), db1)
    | some dbUser => ((dbUser, none), db1)

def userGetUsersByTeam (teamName : TeamName) (db : Database) :
    (List User × Option Error) × Database :=
  match db.call with
  | (some text, db1) => (([], some (Error.infra ("failed to fetch users: " ++ text))), db1)
  | (none, db1) => ((db1.users.filter (fun row => decide (row.Team = teamName)), none), db1)

def userGetAll (db : Database) : (List User × Option Error) × Database :=
  match db.call with
  | (some text, db1) => (([], some (Error.infra ("failed to fetch users: " ++ text))), db1)
  | (none, db1) => ((db1.users, none), db1)

/-- The statement of `UpsertMembers` for one member: insert, or on a row with the same
`id` overwrite its other columns. -/
def upsertUser (row : User) (users : List User) : List User :=
  if users.any (fun u => decide (u.ID = row.ID)) then
    users.map (fun u => if u.ID = row.ID then row else u)
  else
    users ++ [row]

def userUpsertMembers (teamName : TeamName) : List User → Database → Option Error × Database
  | [], db => (none, db)
  | member :: rest, db =>
    match db.call with
    | (some text, db1) =>
      (some (Error.infra ("failed to execute upsert query: " ++ text)), db1)
    | (none, db1) =>
      userUpsertMembers teamName rest
        { db1 with users := upsertUser { member with Team := teamName } db1.users }

def userSetIsActive (id : UserID) (isActive : Bool) (db : Database) :
    (User × Option Error) × Database :=
  match db.call with
  | (some text, db1) =>
    ((emptyUser, some (Error.infra ("failed to execute update: " ++ text))), db1)
  | (none, db1) =>
    if (db1.users.filter (fun u => decide (u.ID = id))).length = 0 then
      ((emptyUser, some Error.ErrUserNotFound), db1)
    else
      userGetByID id
        { db1 with
          users := db1.users.map (fun u => if u.ID = id then { u with IsActive := isActive }
            else u) }

def NewUserRepository : UserRepository Database where
  GetByID := userGetByID
  GetUsersByTeam := userGetUsersByTeam
  GetAll := userGetAll
  UpsertMembers := userUpsertMembers
  SetIsActive := userSetIsActive

def teamCreate (team : Team) (db : Database) : Option Error × Database :=
  match db.call with
  | (some text, db1) => (some (Error.infra ("failed to create team: " ++ text)), db1)
  | (none, db1) => (none, { db1 with teams := db1.teams ++ [(team.Name, team.Name)] })

def teamGetByName (name : TeamName) (db : Database) : (Team × Option Error) × Database :=
  match db.call with
  | (some text, db1) =>
    (({ Name := "" }, some (Error.infra ("failed to fetch team: " ++ text))), db1)
  | (none, db1) =>
    match db1.teams.find? (fun row => decide (row.2 = name)) with
    | none => (({ Name := "" }, some Error.ErrTeamNotFound), db1)
    | some dbTeam => (({ Name := dbTeam.2 }, none), db1)

def teamGetAll (db : Database) : (List Team × Option Error) × Database :=
  match db.call with
  | (some text, db1) => (([], some (Error.infra ("failed to fetch teams: " ++ text))), db1)
  | (none, db1) => ((db1.teams.map (fun row => { Name := row.2 }), none), db1)

def NewTeamRepository : TeamRepository Database where
  Create := teamCreate
  GetByName := teamGetByName
  GetAll := teamGetAll

end repositories

/-- The handle as the transaction manager uses it.  No repository executes on the
transaction: each holds the handle it was built with and calls `r.db`, and `Do` hands
the operation the context it received.  So the transaction holds no statement, and its
`Commit` and `Rollback` leave the tables as the calls on the handle left them. -/
def sqlDatabase : SqlDB Database where
  BeginTx := Database.call
  Rollback := Database.call
  Commit := Database.call

/-- The pull-request service as `cmd/pr_service/main.go` wires it: the repositories
and the transaction manager share one handle.  The clock and the random source are
left as parameters. -/
def productionPullRequestService (timeProvider : TimeProvider Database)
    (random : RandomProvider Database) : pullRequestService Database where
  userRepository := repositories.NewUserRepository
  teamRepository := repositories.NewTeamRepository
  pullRequestRepository := repositories.NewPullRequestRepository
  txManager := some (NewTxManager sqlDatabase)
  timeProvider := timeProvider
  random := random

/-- A store with the team "backend" and its two active users "a1" and "u1", no pull
request, and a driver that carries out six calls and fails the seventh with
"connection reset". -/
def partialFailureDatabase : Database where
  teams := [("backend", "backend")]
  users := [{ ID := "a1", Username := "author", Team := "backend", IsActive := true },
    { ID := "u1", Username := "user1", Team := "backend", IsActive := true }]
  pullRequests := []
  pullRequestReviewers := []
  faults := [none, none, none, none, none, none, some "connection reset"]

/-- A store with the team "backend", its active users "a1", "r1", "u2" and "u3", and the
open pull request "pr-1" of "a1" with the reviewer "r1"; the driver carries out every
call. -/
def raceDatabase : Database where
  teams := [("backend", "backend")]
  users := [{ ID := "a1", Username := "author", Team := "backend", IsActive := true },
    { ID := "r1", Username := "reviewer1", Team := "backend", IsActive := true },
    { ID := "u2", Username := "user2", Team := "backend", IsActive := true },
    { ID := "u3", Username := "user3", Team := "backend", IsActive := true }]
  pullRequests := [{ ID := "pr-1", Name := "feature", AuthorID := "a1",
                     Status := StatusOpen, CreatedAt := 7, MergedAt := none }]
  pullRequestReviewers := [("pr-1", "r1")]
  faults := []

/-- The service of `productionPullRequestService` for one of two concurrent calls.  The
world is the store that both calls share.  `Intn` answers `answer`; it is called between
the lookup of the members and the update of the reviewer row, and `meanwhile` is what
the other call does to the store during that time. -/
def racingService (answer : Int) (meanwhile : Database → Database) :
    pullRequestService Database :=
  productionPullRequestService { Now := fun db => (42, db) }
    { Shuffle := fun _ db => ([], db)
      Intn := fun _ db => (answer, meanwhile db) }

/-- The second call of `ReassignReviewer` for "pr-1" and "r1": `Intn` answers 1, and
nothing else touches the store while it runs. -/
def secondReassign (db : Database) :
    Option ((Option PullRequest × UserID × Option Error) × Database) :=
  (racingService 1 id).ReassignReviewer "pr-1" "r1" db

/-- The store after the second call has run from its first step to its last. -/
def afterSecondReassign (db : Database) : Database :=
  match secondReassign db with
  | some r => r.2
  | none => db

/-- The first call of `ReassignReviewer` for "pr-1" and "r1": `Intn` answers 0, and the
second call runs from its first step to its last between the first call's lookup of the
members and its update. -/
def firstReassign (db : Database) :
    Option ((Option PullRequest × UserID × Option Error) × Database) :=
  (racingService 0 afterSecondReassign).ReassignReviewer "pr-1" "r1" db

/-! ## The mapping of errors to responses (`internal/api/mappers/error_mappers`) -/

namespace apierrors

def PRExists : String := "PR_EXISTS"
def TeamExists : String := "TEAM_EXISTS"
def PRMerged : String := "PR_MERGED"
def NoCandidate : String := "NO_CANDIDATE"
def NotAssigned : String := "NOT_ASSIGNED"
def AuthorNotActive : String := "AUTHOR_NOT_ACTIVE"
def NotFound : String := "NOT_FOUND"
def InternalError : String := "INTERNAL_ERROR"

def PRExistsMessage : String := "PR id already exists"
def TeamExistsMessage : String := "team_name already exists"
def PRMergedMessage : String := "cannot reassign on merged PR"
def NoCandidateMessage : String := "no active replacement candidate in team"
def NotAssignedMessage : String := "reviewer is not assigned to this PR"
def AuthorNotActiveMessage : String := "user can not create PR with false active status"
def NotFoundMessage : String := "resource not found"
def InternalErrorMessage : String := "internal server error"

end apierrors

/-- Modelled from the spec: the structs `dto.ErrorResponse` and `dto.Error`, whose
declarations are not among the sources; a machine-readable code and a message, the two
fields that `ToHTTPError` fills. -/
structure ErrorResponse where
  Code : String
  Message : String
  deriving DecidableEq, Repr

/-- The function `errors.Is` on an error that may be nil: nil is no error. -/
def errorsIsNil : Option Error → Error → Bool
  | none, _ => false
  | some err, target => errorsIs err target

/-- The function `ToHTTPError`: the status and the body.  The cases of the `switch` are
tried in order. -/
def ToHTTPError (domainErr : Option Error) : Nat × ErrorResponse :=
  if errorsIsNil domainErr Error.ErrPRExists = true then
    (409, { Code := apierrors.PRExists, Message := apierrors.PRExistsMessage })
  else if errorsIsNil domainErr Error.ErrTeamExists = true then
    (409, { Code := apierrors.TeamExists, Message := apierrors.TeamExistsMessage })
  else if errorsIsNil domainErr Error.ErrPRMerged = true then
    (409, { Code := apierrors.PRMerged, Message := apierrors.PRMergedMessage })
  else if errorsIsNil domainErr Error.ErrNoCandidate = true then
    (409, { Code := apierrors.NoCandidate, Message := apierrors.NoCandidateMessage })
  else if errorsIsNil domainErr Error.ErrNotAssigned = true then
    (409, { Code := apierrors.NotAssigned, Message := apierrors.NotAssignedMessage })
  else if errorsIsNil domainErr Error.ErrAuthorNotActive = true then
    (409, { Code := apierrors.AuthorNotActive, Message := apierrors.AuthorNotActiveMessage })
  else if errorsIsNil domainErr Error.ErrUserNotFound = true ∨
      errorsIsNil domainErr Error.ErrTeamNotFound = true ∨
      errorsIsNil domainErr Error.ErrPRNotFound = true then
    (404, { Code := apierrors.NotFound, Message := apierrors.NotFoundMessage })
  else
    (500, { Code := apierrors.InternalError, Message := apierrors.InternalErrorMessage })

/-! ## The user service (`internal/app/services/user_service.go`) -/

structure userService (ω : Type) where
  userRepository : UserRepository ω
  pullRequestRepo : PullRequestRepository ω

namespace userService

def SetActiveStatus {ω : Type} (s : userService ω) (userID : UserID) (isActive : Bool)
    (w : ω) : (User × Option Error) × ω :=
  s.userRepository.SetIsActive userID isActive w

/-- The method `GetUserReviews`: the returned list (`none` for the nil it returns with an
error) and error, and the world afterwards. -/
def GetUserReviews {ω : Type} (s : userService ω) (userID : UserID) (w : ω) :
    (Option (List PullRequest) × Option Error) × ω :=
  let found := s.userRepository.GetByID userID w
  match found.1.2 with
  | some err => ((none, some err), found.2)
  | none =>
    let pullRequests := s.pullRequestRepo.GetByReviewer userID found.2
    match pullRequests.1.2 with
    | some err => ((none, some err), pullRequests.2)
    | none => ((some pullRequests.1.1, none), pullRequests.2)

end userService

/-- The user service over the recording doubles; the list of the pull requests of a
reviewer is answered as given. -/
def recordingUserService (a : Answers) (reviews : List PullRequest × Option Error) :
    userService (List Call) where
  userRepository := recordingUserRepository a
  pullRequestRepo :=
    { recordingPullRequestRepository a with
      GetByReviewer := fun reviewerID calls =>
        (reviews, calls ++ [Call.PullRequestGetByReviewer reviewerID]) }

/-! ## The statistics (`internal/app/services/stats_service.go`) -/

/-- The struct `dto.TeamStats`.  Its counters are of type `int`; each is at most the
length of a slice, so they are natural numbers here. -/
structure TeamStats where
  TeamName : String
  MemberCount : Nat
  ActiveMembers : Nat
  PullRequestsCount : Nat
  deriving DecidableEq, Repr

/-- The first loop of `calculateTeamStats` over the users, for one team. -/
def countMembersLoop (teamName : TeamName) : List User → TeamStats → TeamStats
  | [], stats => stats
  | user :: rest, stats =>
    if user.Team = teamName then
      if user.IsActive = true then
        countMembersLoop teamName rest
          { stats with MemberCount := stats.MemberCount + 1,
                       ActiveMembers := stats.ActiveMembers + 1 }
      else
        countMembersLoop teamName rest { stats with MemberCount := stats.MemberCount + 1 }
    else
      countMembersLoop teamName rest stats

/-- The inner loop over the users for one pull request: does it reach the increment
and the `break`. -/
def authorInTeamLoop (authorID : UserID) (teamName : TeamName) : List User → Bool
  | [] => false
  | user :: rest =>
    if user.ID = authorID ∧ user.Team = teamName then true
    else authorInTeamLoop authorID teamName rest

/-- The second loop of `calculateTeamStats`, over the pull requests, for one team. -/
def countPullRequestsLoop (teamName : TeamName) (users : List User) :
    List PullRequest → TeamStats → TeamStats
  | [], stats => stats
  | pullRequest :: rest, stats =>
    if authorInTeamLoop pullRequest.AuthorID teamName users = true then
      countPullRequestsLoop teamName users rest
        { stats with PullRequestsCount := stats.PullRequestsCount + 1 }
    else
      countPullRequestsLoop teamName users rest stats

/-- The body of the loop of `calculateTeamStats` over the teams. -/
def teamStatsOf (users : List User) (pullRequests : List PullRequest) (team : Team) :
    TeamStats :=
  countPullRequestsLoop team.Name users pullRequests
    (countMembersLoop team.Name users
      { TeamName := team.Name, MemberCount := 0, ActiveMembers := 0, PullRequestsCount := 0 })

def calculateTeamStats (teams : List Team) (users : List User)
    (pullRequests : List PullRequest) : List TeamStats :=
  teams.map (teamStatsOf users pullRequests)

/-- The answers of the test "fail when no active candidates" of `Create`: the only
member of the team of the author is the author. -/
def onlyAuthorAnswers : Answers :=
  { createAnswers with userGetUsersByTeam := fun _ => ([testAuthor], none) }

/-! ## Sequences of entity calls -/

/-- One call of a mutating method of the entity, with its arguments. -/
inductive Op where
  | addReviewers (candidates : List UserID)
  | reassignReviewer (oldID newID : UserID)
  | merge (mergedAt : Time)
  deriving DecidableEq, Repr

/-- The pull request after one call; the value returned by the call is dropped, so a
call of `ReassignReviewer` that fails is a step like any other. -/
def applyOp (pr : PullRequest) : Op → Option PullRequest
  | Op.addReviewers candidates => (pr.AddReviewers candidates).map Prod.fst
  | Op.reassignReviewer oldID newID => some (pr.ReassignReviewer oldID newID).1
  | Op.merge mergedAt => some (pr.Merge mergedAt)

/-- The pull request after a sequence of calls, `none` if one of them panics. -/
def runOps : PullRequest → List Op → Option PullRequest
  | pr, [] => some pr
  | pr, op :: ops => (applyOp pr op).bind (fun pr1 => runOps pr1 ops)

/-! ## Specification-side definitions -/

/-- Specification side: keep, in order, the first occurrence of each ID of a list. -/
def keepFirstOccurrences : List UserID → List UserID
  | [] => []
  | x :: xs => x :: (keepFirstOccurrences xs).filter (fun y => decide (y ≠ x))

/-- Specification side: the subsequence of the candidates that keeps, in order, the
first occurrence of each ID that is neither the author nor in the reviewer list `r`. -/
def eligibleCandidates (author : UserID) (r : List UserID) (candidates : List UserID) :
    List UserID :=
  keepFirstOccurrences (candidates.filter (fun x => decide (x ≠ author ∧ x ∉ r)))

/-- Specification side: the error kinds of the specification's error taxonomy. -/
inductive ErrorKind where
  | NotFound
  | Conflict
  | InvalidState
  | PolicyViolation
  | TransactionUnavailable
  | Unexpected
  deriving DecidableEq, Repr

/-- Specification side: the kind of each error.  `NotFound` is an absent user, team or
pull request; `Conflict` a duplicate creation; `InvalidState` the reassignment on a
merged pull request; `PolicyViolation` an inactive author, no eligible candidate or a
reviewer that is not assigned; `TransactionUnavailable` the missing unit of work; every
other error is `Unexpected`. -/
def errorKind : Error → ErrorKind
  | Error.ErrUserNotFound => ErrorKind.NotFound
  | Error.ErrTeamNotFound => ErrorKind.NotFound
  | Error.ErrPRNotFound => ErrorKind.NotFound
  | Error.ErrPRExists => ErrorKind.Conflict
  | Error.ErrTeamExists => ErrorKind.Conflict
  | Error.ErrPRMerged => ErrorKind.InvalidState
  | Error.ErrAuthorNotActive => ErrorKind.PolicyViolation
  | Error.ErrNoCandidate => ErrorKind.PolicyViolation
  | Error.ErrNotAssigned => ErrorKind.PolicyViolation
  | Error.ErrTransactionRequired => ErrorKind.TransactionUnavailable
  | Error.infra _ => ErrorKind.Unexpected
  | Error.wrapped _ _ => ErrorKind.Unexpected

/-- Specification side: the eligible pool of a reassignment, the team members, in the
order given, that are active, differ from the author, differ from the reviewer to
replace and are not reviewers of the pull request. -/
def eligiblePool (pr : PullRequest) (oldReviewerID : UserID) (members : List User) :
    List User :=
  members.filter (fun u => decide (u.IsActive = true ∧ u.ID ≠ pr.AuthorID ∧
    u.ID ≠ oldReviewerID ∧ u.ID ∉ pr.Reviewers))

/-- Specification side: the nine domain errors of `domain/errors.go`. -/
def domainErrors : List Error :=
  [Error.ErrTeamExists, Error.ErrPRExists, Error.ErrPRMerged, Error.ErrNotAssigned,
    Error.ErrNoCandidate, Error.ErrUserNotFound, Error.ErrTeamNotFound, Error.ErrPRNotFound,
    Error.ErrAuthorNotActive]

/-! ## Lemmas on the loops of the entity -/

theorem isReviewerLoop_iff (id : UserID) (l : List UserID) :
    PullRequest.isReviewerLoop id l = true ↔ id ∈ l := by
  induction l with
  | nil => simp [PullRequest.isReviewerLoop]
  | cons a l ih =>
    by_cases h : a = id
    · simp [PullRequest.isReviewerLoop, h]
    · have h2 : ¬ id = a := fun e => h e.symm
      simp [PullRequest.isReviewerLoop, h, h2, ih]

theorem containsLoop_iff (id : UserID) (l : List UserID) :
    PullRequest.containsLoop id l = true ↔ id ∈ l := by
  induction l with
  | nil => simp [PullRequest.containsLoop]
  | cons a l ih =>
    by_cases h : a = id
    · simp [PullRequest.containsLoop, h]
    · have h2 : ¬ id = a := fun e => h e.symm
      simp [PullRequest.containsLoop, h, h2, ih]

theorem IsReviewer_iff (pr : PullRequest) (id : UserID) :
    pr.IsReviewer id = true ↔ id ∈ pr.reviewers := by
  unfold PullRequest.IsReviewer
  exact isReviewerLoop_iff id pr.reviewers

theorem keepFirstOccurrences_filter (q : UserID → Bool) (l : List UserID) :
    (keepFirstOccurrences l).filter q = keepFirstOccurrences (l.filter q) := by
  induction l with
  | nil => simp [keepFirstOccurrences]
  | cons x xs ih =>
    by_cases hq : q x = true
    · rw [List.filter_cons_of_pos hq]
      simp only [keepFirstOccurrences]
      rw [List.filter_cons_of_pos hq, ← ih, List.filter_filter, List.filter_filter]
      congr 2
      funext y
      exact Bool.and_comm _ _
    · rw [List.filter_cons_of_neg hq]
      simp only [keepFirstOccurrences]
      rw [List.filter_cons_of_neg hq, ← ih, List.filter_filter]
      congr 1
      funext y
      by_cases hy : y = x
      · subst hy
        simp [hq]
      · simp [hy]

theorem mem_keepFirstOccurrences (l : List UserID) (y : UserID) :
    y ∈ keepFirstOccurrences l ↔ y ∈ l := by
  induction l with
  | nil => simp [keepFirstOccurrences]
  | cons x xs ih =>
    by_cases hy : y = x
    · simp [keepFirstOccurrences, hy]
    · simp [keepFirstOccurrences, hy, ih]

theorem nodup_keepFirstOccurrences (l : List UserID) : (keepFirstOccurrences l).Nodup := by
  induction l with
  | nil => simp [keepFirstOccurrences]
  | cons x xs ih =>
    simp only [keepFirstOccurrences, List.nodup_cons]
    refine ⟨?_, ih.filter _⟩
    simp [List.mem_filter]

theorem mem_eligibleCandidates (author : UserID) (r c : List UserID) (y : UserID) :
    y ∈ eligibleCandidates author r c ↔ y ∈ c ∧ y ≠ author ∧ y ∉ r := by
  unfold eligibleCandidates
  rw [mem_keepFirstOccurrences]
  simp [List.mem_filter]

theorem eligibleCandidates_nil (author : UserID) (r : List UserID) :
    eligibleCandidates author r [] = [] := by
  simp [eligibleCandidates, keepFirstOccurrences]

theorem eligibleCandidates_cons_skip (author : UserID) (r : List UserID) (x : UserID)
    (xs : List UserID) (h : x = author ∨ x ∈ r) :
    eligibleCandidates author r (x :: xs) = eligibleCandidates author r xs := by
  unfold eligibleCandidates
  rw [List.filter_cons_of_neg]
  simp only [decide_eq_true_eq, not_and, not_not]
  intro hne
  rcases h with h | h
  · exact absurd h hne
  · exact h

theorem eligibleCandidates_cons_keep (author : UserID) (r : List UserID) (x : UserID)
    (xs : List UserID) (h1 : x ≠ author) (h2 : x ∉ r) :
    eligibleCandidates author r (x :: xs) = x :: eligibleCandidates author (r ++ [x]) xs := by
  unfold eligibleCandidates
  rw [List.filter_cons_of_pos (by simp [h1, h2])]
  simp only [keepFirstOccurrences]
  rw [keepFirstOccurrences_filter, List.filter_filter]
  congr 3
  funext y
  simp only [List.mem_append, List.mem_singleton, not_or, ne_eq, Bool.decide_and,
    Bool.and_assoc]
  cases decide (¬ y = x) <;> simp

theorem addReviewersLoop_spec (limit : Nat) (c : List UserID) :
    ∀ (pr : PullRequest) (a : List UserID), a.length ≤ limit →
      PullRequest.addReviewersLoop limit c pr a =
        ({ pr with reviewers := pr.reviewers ++
              (eligibleCandidates pr.AuthorID pr.reviewers c).take (limit - a.length) },
          a ++ (eligibleCandidates pr.AuthorID pr.reviewers c).take (limit - a.length)) := by
  induction c with
  | nil =>
    intro pr a _
    simp [PullRequest.addReviewersLoop, eligibleCandidates_nil]
  | cons x xs ih =>
    intro pr a ha
    by_cases hfull : a.length = limit
    · simp [PullRequest.addReviewersLoop, hfull]
    · by_cases hskip : x = pr.AuthorID ∨ pr.IsReviewer x = true
      · have hskip2 : x = pr.AuthorID ∨ x ∈ pr.reviewers := by
          rcases hskip with h | h
          · exact Or.inl h
          · exact Or.inr ((IsReviewer_iff pr x).1 h)
        rw [PullRequest.addReviewersLoop, if_neg hfull, if_pos hskip, ih pr a ha,
          eligibleCandidates_cons_skip _ _ _ _ hskip2]
      · have h1 : x ≠ pr.AuthorID := fun e => hskip (Or.inl e)
        have h2 : x ∉ pr.reviewers := fun e => hskip (Or.inr ((IsReviewer_iff pr x).2 e))
        have hlen : (a ++ [x]).length ≤ limit := by
          simp only [List.length_append, List.length_singleton]
          omega
        have hsub : limit - a.length = (limit - (a ++ [x]).length) + 1 := by
          simp only [List.length_append, List.length_singleton]
          omega
        rw [PullRequest.addReviewersLoop, if_neg hfull, if_neg hskip, ih _ _ hlen,
          eligibleCandidates_cons_keep _ _ _ _ h1 h2, hsub, List.take_succ_cons]
        simp

theorem IsMerged_iff (pr : PullRequest) : pr.IsMerged = true ↔ pr.Status = StatusMerged := by
  simp [PullRequest.IsMerged]

theorem IsFullyAssigned_iff (pr : PullRequest) :
    pr.IsFullyAssigned = true ↔ pr.reviewers.length = 2 := by
  simp [PullRequest.IsFullyAssigned, maxReviewers]

/-- The guard of `AddReviewers`. -/
theorem AddReviewers_of_guard (pr : PullRequest) (c : List UserID)
    (h : pr.Status = StatusMerged ∨ pr.reviewers.length = 2 ∨ c = []) :
    pr.AddReviewers c = some (pr, none) := by
  unfold PullRequest.AddReviewers
  rw [if_pos]
  rcases h with h | h | h
  · exact Or.inl ((IsMerged_iff pr).2 h)
  · exact Or.inr (Or.inl ((IsFullyAssigned_iff pr).2 h))
  · exact Or.inr (Or.inr (by simp [h]))

/-- Past its guard, `AddReviewers` with room left appends the first eligible
candidates. -/
theorem AddReviewers_of_room (pr : PullRequest) (c : List UserID)
    (hst : pr.Status ≠ StatusMerged) (hlen : pr.reviewers.length < 2) (hc : c ≠ []) :
    pr.AddReviewers c =
      some ({ pr with reviewers := pr.reviewers ++
                (eligibleCandidates pr.AuthorID pr.reviewers c).take (2 - pr.reviewers.length) },
        if (eligibleCandidates pr.AuthorID pr.reviewers c).take (2 - pr.reviewers.length) = []
        then none
        else some ((eligibleCandidates pr.AuthorID pr.reviewers c).take
          (2 - pr.reviewers.length))) := by
  have hguard : ¬ (pr.IsMerged = true ∨ pr.IsFullyAssigned = true ∨ c.length = 0) := by
    rw [IsMerged_iff, IsFullyAssigned_iff]
    intro h
    rcases h with h | h | h
    · exact hst h
    · omega
    · exact hc (List.length_eq_zero.1 h)
  have hcap : ¬ maxReviewers < pr.reviewers.length := by
    simp only [maxReviewers]
    omega
  unfold PullRequest.AddReviewers
  rw [if_neg hguard, if_neg hcap]
  have hspec := addReviewersLoop_spec (maxReviewers - pr.reviewers.length) c pr []
    (Nat.zero_le _)
  simp only [hspec, List.length_nil, Nat.sub_zero, List.nil_append, List.length_eq_zero]
  simp only [maxReviewers]
  split <;> rfl

/-- With at most two reviewers `AddReviewers` does not panic, and what it leaves is the
old list followed by eligible candidates only. -/
theorem AddReviewers_shape (pr : PullRequest) (c : List UserID)
    (hlen : pr.reviewers.length ≤ 2) :
    ∃ (added : List UserID) (ret : Option (List UserID)),
      pr.AddReviewers c = some ({ pr with reviewers := pr.reviewers ++ added }, ret) ∧
      pr.reviewers.length + added.length ≤ 2 ∧ added.Nodup ∧
      (∀ y ∈ added, y ≠ pr.AuthorID ∧ y ∉ pr.reviewers) ∧
      (pr.Status = StatusMerged → added = []) := by
  by_cases hg : pr.Status = StatusMerged ∨ pr.reviewers.length = 2 ∨ c = []
  · refine ⟨[], none, ?_, by simpa using hlen, List.nodup_nil, by simp, fun _ => rfl⟩
    rw [AddReviewers_of_guard pr c hg]
    simp
  · have hst : pr.Status ≠ StatusMerged := fun h => hg (Or.inl h)
    have hlt : pr.reviewers.length < 2 := by
      have : pr.reviewers.length ≠ 2 := fun h => hg (Or.inr (Or.inl h))
      omega
    have hc : c ≠ [] := fun h => hg (Or.inr (Or.inr h))
    refine ⟨(eligibleCandidates pr.AuthorID pr.reviewers c).take (2 - pr.reviewers.length),
      _, AddReviewers_of_room pr c hst hlt hc, ?_, ?_, ?_, fun h => absurd h hst⟩
    · have := List.length_take_le (2 - pr.reviewers.length)
        (eligibleCandidates pr.AuthorID pr.reviewers c)
      omega
    · exact (nodup_keepFirstOccurrences _).sublist (List.take_sublist _ _)
    · intro y hy
      exact ((mem_eligibleCandidates _ _ _ _).1 (List.mem_of_mem_take hy)).2

theorem replaceLoop_of_mem (oldID newID : UserID) (l : List UserID) (h : oldID ∈ l) :
    PullRequest.replaceLoop oldID newID l = some (l.set (l.indexOf oldID) newID) := by
  induction l with
  | nil => simp at h
  | cons a t ih =>
    by_cases ha : a = oldID
    · subst ha
      simp [PullRequest.replaceLoop]
    · have hmem : oldID ∈ t := by
        rcases List.mem_cons.1 h with h1 | h1
        · exact absurd h1.symm ha
        · exact h1
      rw [PullRequest.replaceLoop, if_neg ha, ih hmem, List.indexOf_cons_ne t ha]
      simp

theorem not_mem_set_indexOf (oldID newID : UserID) (l : List UserID) (hnd : l.Nodup)
    (hne : oldID ≠ newID) : oldID ∉ l.set (l.indexOf oldID) newID := by
  induction l with
  | nil => simp
  | cons a t ih =>
    rw [List.nodup_cons] at hnd
    by_cases ha : a = oldID
    · subst ha
      simp only [List.indexOf_cons_self, List.set_cons_zero, List.mem_cons, not_or]
      exact ⟨hne, hnd.1⟩
    · rw [List.indexOf_cons_ne t ha]
      simp only [List.set_cons_succ, List.mem_cons, not_or]
      exact ⟨fun e => ha e.symm, ih hnd.2⟩

/-- What `ReassignReviewer` does, by cases in the order of its checks. -/
theorem ReassignReviewer_eq (pr : PullRequest) (oldID newID : UserID) :
    pr.ReassignReviewer oldID newID =
      if pr.Status = StatusMerged then (pr, some Error.ErrPRMerged)
      else if oldID ∉ pr.reviewers then (pr, some Error.ErrNotAssigned)
      else if newID = pr.AuthorID ∨ newID ∈ pr.reviewers then (pr, some Error.ErrNoCandidate)
      else ({ pr with reviewers := pr.reviewers.set (pr.reviewers.indexOf oldID) newID },
        none) := by
  unfold PullRequest.ReassignReviewer
  by_cases hm : pr.Status = StatusMerged
  · rw [if_pos ((IsMerged_iff pr).2 hm), if_pos hm]
  · rw [if_neg (fun h => hm ((IsMerged_iff pr).1 h)), if_neg hm]
    by_cases ho : oldID ∈ pr.reviewers
    · have ho2 : ¬ pr.IsReviewer oldID = false := by
        rw [(IsReviewer_iff pr oldID).2 ho]
        simp
      rw [if_neg ho2, if_neg (not_not.2 ho)]
      by_cases ha : newID = pr.AuthorID
      · rw [if_pos ha, if_pos (Or.inl ha)]
      · rw [if_neg ha]
        by_cases hn : newID ∈ pr.reviewers
        · rw [if_pos ((containsLoop_iff newID pr.reviewers).2 hn), if_pos (Or.inr hn)]
        · rw [if_neg (fun h => hn ((containsLoop_iff newID pr.reviewers).1 h)),
            if_neg (fun h => h.elim ha hn), replaceLoop_of_mem oldID newID pr.reviewers ho]
    · have ho2 : pr.IsReviewer oldID = false := by
        cases hb : pr.IsReviewer oldID
        · rfl
        · exact absurd ((IsReviewer_iff pr oldID).1 hb) ho
      rw [if_pos ho2, if_pos ho]

/-- The reviewer list after `ReassignReviewer` keeps its length, its freedom from the
author and its freedom from repeated IDs, whether the call succeeds or not. -/
theorem ReassignReviewer_shape (pr : PullRequest) (oldID newID : UserID) :
    (pr.ReassignReviewer oldID newID).1.reviewers.length = pr.reviewers.length ∧
    (pr.ReassignReviewer oldID newID).1.AuthorID = pr.AuthorID ∧
    (pr.ReassignReviewer oldID newID).1.Status = pr.Status ∧
    (pr.ReassignReviewer oldID newID).1.MergedAt = pr.MergedAt ∧
    (pr.AuthorID ∉ pr.reviewers →
      pr.AuthorID ∉ (pr.ReassignReviewer oldID newID).1.reviewers) ∧
    (pr.reviewers.Nodup → (pr.ReassignReviewer oldID newID).1.reviewers.Nodup) := by
  rw [ReassignReviewer_eq]
  by_cases hm : pr.Status = StatusMerged
  · simp [hm]
  · by_cases ho : oldID ∈ pr.reviewers
    · by_cases hn : newID = pr.AuthorID ∨ newID ∈ pr.reviewers
      · simp [hm, ho, hn]
      · rw [if_neg hm, if_neg (not_not.2 ho), if_neg hn]
        have hna : newID ≠ pr.AuthorID := fun h => hn (Or.inl h)
        have hnr : newID ∉ pr.reviewers := fun h => hn (Or.inr h)
        refine ⟨by simp, rfl, rfl, rfl, ?_, ?_⟩
        · intro hauth hmem
          rcases List.mem_or_eq_of_mem_set hmem with h | h
          · exact hauth h
          · exact hna h.symm
        · intro hnd
          exact hnd.set hnr
    · simp [hm, ho]

theorem Merge_eq (pr : PullRequest) (t : Time) :
    (pr.Merge t).reviewers = pr.reviewers ∧ (pr.Merge t).AuthorID = pr.AuthorID ∧
    (pr.Merge t).Status = StatusMerged ∧
    ((pr.MergedAt.isSome = true ↔ pr.Status = StatusMerged) →
      ((pr.Merge t).MergedAt.isSome = true ↔ (pr.Merge t).Status = StatusMerged)) := by
  unfold PullRequest.Merge
  by_cases h : pr.Status = StatusMerged
  · simp [h]
  · simp [h]

/-- One call on a pull request with at most two reviewers does not panic, keeps the
author, and keeps each of the four properties that held before it. -/
theorem applyOp_keeps (pr : PullRequest) (op : Op) (hcap : pr.reviewers.length ≤ 2) :
    ∃ pr1, applyOp pr op = some pr1 ∧ pr1.reviewers.length ≤ 2 ∧
      pr1.AuthorID = pr.AuthorID ∧
      (pr.AuthorID ∉ pr.reviewers → pr1.AuthorID ∉ pr1.reviewers) ∧
      (pr.reviewers.Nodup → pr1.reviewers.Nodup) ∧
      ((pr.MergedAt.isSome = true ↔ pr.Status = StatusMerged) →
        (pr1.MergedAt.isSome = true ↔ pr1.Status = StatusMerged)) := by
  cases op with
  | addReviewers c =>
    obtain ⟨added, ret, heq, hlen, hnd, hel, _⟩ := AddReviewers_shape pr c hcap
    refine ⟨{ pr with reviewers := pr.reviewers ++ added }, ?_, ?_, rfl, ?_, ?_, ?_⟩
    · simp [applyOp, heq]
    · simpa using hlen
    · intro hauth hmem
      rcases List.mem_append.1 hmem with h | h
      · exact hauth h
      · exact (hel _ h).1 rfl
    · intro hr
      refine List.nodup_append.2 ⟨hr, hnd, ?_⟩
      intro y hy1 hy2
      exact (hel y hy2).2 hy1
    · intro h
      exact h
  | reassignReviewer o n =>
    obtain ⟨h1, h2, h3, h4, h5, h6⟩ := ReassignReviewer_shape pr o n
    refine ⟨(pr.ReassignReviewer o n).1, rfl, by omega, h2, ?_, h6, ?_⟩
    · intro hauth
      rw [h2]
      exact h5 hauth
    · intro h
      rw [h3, h4]
      exact h
  | merge t =>
    obtain ⟨h1, h2, _, h4⟩ := Merge_eq pr t
    refine ⟨pr.Merge t, rfl, by rw [h1]; exact hcap, h2, ?_, ?_, h4⟩
    · intro hauth
      rw [h1, h2]
      exact hauth
    · intro hr
      rw [h1]
      exact hr

theorem runOps_keeps (ops : List Op) :
    ∀ pr : PullRequest, pr.reviewers.length ≤ 2 →
      ∃ pr1, runOps pr ops = some pr1 ∧ pr1.reviewers.length ≤ 2 ∧
        (pr.AuthorID ∉ pr.reviewers → pr1.AuthorID ∉ pr1.reviewers) ∧
        (pr.reviewers.Nodup → pr1.reviewers.Nodup) ∧
        ((pr.MergedAt.isSome = true ↔ pr.Status = StatusMerged) →
          (pr1.MergedAt.isSome = true ↔ pr1.Status = StatusMerged)) := by
  induction ops with
  | nil =>
    intro pr hcap
    exact ⟨pr, rfl, hcap, id, id, id⟩
  | cons op ops ih =>
    intro pr hcap
    obtain ⟨pr1, h0, h1, _, h3, h4, h5⟩ := applyOp_keeps pr op hcap
    obtain ⟨pr2, k0, k1, k3, k4, k5⟩ := ih pr1 h1
    refine ⟨pr2, ?_, k1, fun h => k3 (h3 h), fun h => k4 (h4 h), fun h => k5 (h5 h)⟩
    simp [runOps, h0, k0]

/-! ## Lemmas on the service -/

theorem swapFunc_some (ids : List UserID) (i j : Int)
    (h : 0 ≤ i ∧ i < ids.length ∧ 0 ≤ j ∧ j < ids.length) :
    ∃ ids1, swapFunc ids i j = some ids1 ∧ ids1.length = ids.length ∧
      ∀ x, x ∈ ids1 ↔ x ∈ ids := by
  have ha : i.toNat < ids.length := by omega
  have hb : j.toNat < ids.length := by omega
  refine ⟨_, by rw [swapFunc, if_pos h], by simp, ?_⟩
  intro x
  rw [List.getD_eq_getElem ids "" ha, List.getD_eq_getElem ids "" hb]
  constructor
  · intro hx
    rcases List.mem_or_eq_of_mem_set hx with h1 | h1
    · rcases List.mem_or_eq_of_mem_set h1 with h2 | h2
      · exact h2
      · rw [h2]
        exact List.getElem_mem _
    · rw [h1]
      exact List.getElem_mem _
  · intro hx
    obtain ⟨k, hk, hkx⟩ := List.getElem_of_mem hx
    rw [List.mem_iff_getElem?]
    by_cases hka : k = i.toNat
    · refine ⟨j.toNat, ?_⟩
      subst hka
      simp [List.getElem?_set, hb, hkx]
    · by_cases hkb : k = j.toNat
      · refine ⟨i.toNat, ?_⟩
        subst hkb
        simp [List.getElem?_set, ha, hkx, hka]
      · refine ⟨k, ?_⟩
        have h1 : ¬ i.toNat = k := fun e => hka e.symm
        have h2 : ¬ j.toNat = k := fun e => hkb e.symm
        simp [List.getElem?_set, h1, h2, hk, hkx]

theorem applySwaps_some (swaps : List (Int × Int)) :
    ∀ ids : List UserID,
      (∀ p ∈ swaps, 0 ≤ p.1 ∧ p.1 < ids.length ∧ 0 ≤ p.2 ∧ p.2 < ids.length) →
      ∃ ids1, applySwaps ids swaps = some ids1 ∧ ids1.length = ids.length ∧
        ∀ x, x ∈ ids1 ↔ x ∈ ids := by
  induction swaps with
  | nil =>
    intro ids _
    exact ⟨ids, rfl, rfl, fun _ => Iff.rfl⟩
  | cons p rest ih =>
    intro ids h
    obtain ⟨i, j⟩ := p
    obtain ⟨ids1, h1, hlen1, hmem1⟩ := swapFunc_some ids i j (h (i, j) (List.mem_cons_self _ _))
    have hrest : ∀ q ∈ rest,
        0 ≤ q.1 ∧ q.1 < ids1.length ∧ 0 ≤ q.2 ∧ q.2 < ids1.length := by
      intro q hq
      rw [hlen1]
      exact h q (List.mem_cons_of_mem _ hq)
    obtain ⟨ids2, h2, hlen2, hmem2⟩ := ih ids1 hrest
    refine ⟨ids2, ?_, hlen2.trans hlen1, fun x => (hmem2 x).trans (hmem1 x)⟩
    simp [applySwaps, h1, h2]

theorem length_keepFirstOccurrences (l : List UserID) :
    (keepFirstOccurrences l).length = l.toFinset.card := by
  rw [← List.toFinset_card_of_nodup (nodup_keepFirstOccurrences l)]
  congr 1
  ext x
  simp [mem_keepFirstOccurrences]

theorem mem_toUserIDs_filter (authorID : UserID) (members : List User) (x : UserID) :
    x ∈ toUserIDs (filterActiveUsersExcludeAuthor authorID members) ↔
      ∃ u ∈ members, u.ID = x ∧ u.IsActive = true ∧ u.ID ≠ authorID := by
  simp only [toUserIDs, filterActiveUsersExcludeAuthor, List.mem_map, List.mem_filter,
    Bool.and_eq_true, decide_eq_true_eq]
  constructor
  · rintro ⟨u, ⟨hu, ha, hne⟩, hx⟩
    exact ⟨u, hu, hx, ha, hne⟩
  · rintro ⟨u, hu, hx, ha, hne⟩
    exact ⟨u, ⟨hu, ha, hne⟩, hx⟩

/-- The second half of the operation of `Create`, when the swaps of `Shuffle` are in
range: it ends in the persist of a pull request with up to two of the candidates, in
the world that `Shuffle` left, or the clock when there is no candidate. -/
theorem createAssign_ok {ω : Type} (s : pullRequestService ω) (id : PullRequestID)
    (name : String) (authorID : UserID) (members : List User) (w : ω)
    (hrange : ∀ p ∈ (s.random.Shuffle
        (toUserIDs (filterActiveUsersExcludeAuthor authorID members)).length
        (s.timeProvider.Now w).2).1,
      0 ≤ p.1 ∧ p.1 < (toUserIDs (filterActiveUsersExcludeAuthor authorID members)).length ∧
      0 ≤ p.2 ∧ p.2 < (toUserIDs (filterActiveUsersExcludeAuthor authorID members)).length) :
    ∃ (pr : PullRequest) (w1 : ω),
      pullRequestService.createAssign s id name authorID members w =
        pullRequestService.createPersist s pr w1 ∧
      w1 = (if (filterActiveUsersExcludeAuthor authorID members).length > 0 then
        (s.random.Shuffle (toUserIDs (filterActiveUsersExcludeAuthor authorID members)).length
          (s.timeProvider.Now w).2).2
        else (s.timeProvider.Now w).2) ∧
      pr.ID = id ∧ pr.Name = name ∧ pr.AuthorID = authorID ∧ pr.Status = StatusOpen ∧
      pr.MergedAt = none ∧ pr.CreatedAt = (s.timeProvider.Now w).1 ∧
      pr.reviewers.length =
        min 2 (toUserIDs (filterActiveUsersExcludeAuthor authorID members)).toFinset.card ∧
      (∀ r ∈ pr.reviewers, r ∈ toUserIDs (filterActiveUsersExcludeAuthor authorID members)) ∧
      pr.reviewers.Nodup := by
  by_cases hpos : (filterActiveUsersExcludeAuthor authorID members).length > 0
  · obtain ⟨ids1, h1, hlen1, hmem1⟩ := applySwaps_some _ _ hrange
    have hne : ids1 ≠ [] := by
      intro e
      rw [e] at hlen1
      simp only [toUserIDs, List.length_map, List.length_nil] at hlen1
      omega
    have hst : (NewPullRequest id name authorID (s.timeProvider.Now w).1).Status ≠
        StatusMerged := by
      simp only [NewPullRequest]
      decide
    have hroom := AddReviewers_of_room
      (NewPullRequest id name authorID (s.timeProvider.Now w).1) ids1 hst
      (by simp [NewPullRequest]) hne
    have hmemE : ∀ x, x ∈ eligibleCandidates authorID [] ids1 ↔
        x ∈ toUserIDs (filterActiveUsersExcludeAuthor authorID members) := by
      intro x
      rw [mem_eligibleCandidates, hmem1]
      constructor
      · intro h
        exact h.1
      · intro h
        refine ⟨h, ?_, by simp⟩
        obtain ⟨u, _, hx, _, hu⟩ := (mem_toUserIDs_filter authorID members x).1 h
        rw [← hx]
        exact hu
    have hcard : (eligibleCandidates authorID [] ids1).length =
        (toUserIDs (filterActiveUsersExcludeAuthor authorID members)).toFinset.card := by
      unfold eligibleCandidates
      rw [length_keepFirstOccurrences]
      congr 1
      ext x
      have := hmemE x
      unfold eligibleCandidates at this
      rw [mem_keepFirstOccurrences] at this
      simpa using this
    refine ⟨{ NewPullRequest id name authorID (s.timeProvider.Now w).1 with
        reviewers := [] ++ (eligibleCandidates authorID [] ids1).take (2 - 0) },
      (s.random.Shuffle (toUserIDs (filterActiveUsersExcludeAuthor authorID members)).length
        (s.timeProvider.Now w).2).2,
      ?_, ?_, ?_, ?_, ?_, ?_, ?_, ?_, ?_, ?_, ?_⟩
    · unfold pullRequestService.createAssign
      simp only [hpos, if_true, h1, hroom]
      rfl
    · rw [if_pos hpos]
    · rfl
    · rfl
    · rfl
    · rfl
    · rfl
    · rfl
    · simp only [NewPullRequest, List.nil_append, List.length_nil, Nat.sub_zero,
        List.length_take, hcard]
    · intro r hr
      simp only [NewPullRequest, List.nil_append] at hr
      exact (hmemE r).1 (List.mem_of_mem_take hr)
    · simp only [NewPullRequest, List.nil_append]
      exact (nodup_keepFirstOccurrences _).sublist (List.take_sublist _ _)
  · have hnil : filterActiveUsersExcludeAuthor authorID members = [] := by
      apply List.length_eq_zero.1
      omega
    refine ⟨NewPullRequest id name authorID (s.timeProvider.Now w).1,
      (s.timeProvider.Now w).2, ?_, ?_, rfl, rfl, rfl, rfl, rfl, rfl, ?_, ?_, ?_⟩
    · unfold pullRequestService.createAssign
      simp only [hpos, if_false]
    · rw [if_neg hpos]
    · simp [hnil, toUserIDs, NewPullRequest]
    · simp [NewPullRequest]
    · simp [NewPullRequest]

/-- The second half of the operation of `Create` ends in the persist of a pull request,
when the swaps of `Shuffle` are in range. -/
theorem createAssign_persists {ω : Type} (s : pullRequestService ω) (id : PullRequestID)
    (name : String) (authorID : UserID) (members : List User) (w : ω)
    (hrange : ∀ p ∈ (s.random.Shuffle
        (toUserIDs (filterActiveUsersExcludeAuthor authorID members)).length
        (s.timeProvider.Now w).2).1,
      0 ≤ p.1 ∧ p.1 < (toUserIDs (filterActiveUsersExcludeAuthor authorID members)).length ∧
      0 ≤ p.2 ∧ p.2 < (toUserIDs (filterActiveUsersExcludeAuthor authorID members)).length) :
    ∃ (pr : PullRequest) (w1 : ω),
      pullRequestService.createAssign s id name authorID members w =
        pullRequestService.createPersist s pr w1 := by
  by_cases hpos : (filterActiveUsersExcludeAuthor authorID members).length > 0
  · obtain ⟨ids1, h1, hlen1, _⟩ := applySwaps_some _ _ hrange
    have hne : ids1 ≠ [] := by
      intro e
      rw [e] at hlen1
      simp only [toUserIDs, List.length_map, List.length_nil] at hlen1
      omega
    have hst : (NewPullRequest id name authorID (s.timeProvider.Now w).1).Status ≠
        StatusMerged := by
      simp only [NewPullRequest]
      decide
    have hroom := AddReviewers_of_room
      (NewPullRequest id name authorID (s.timeProvider.Now w).1) ids1 hst
      (by simp [NewPullRequest]) hne
    unfold pullRequestService.createAssign
    simp only [hpos, if_true, h1, hroom]
    exact ⟨_, _, rfl⟩
  · unfold pullRequestService.createAssign
    simp only [hpos, if_false]
    exact ⟨_, _, rfl⟩

theorem isAlreadyReviewerLoop_iff (candidateID reviewerID : UserID) (l : List UserID) :
    isAlreadyReviewerLoop candidateID reviewerID l = true ↔
      candidateID ∈ l ∧ candidateID ≠ reviewerID := by
  induction l with
  | nil => simp [isAlreadyReviewerLoop]
  | cons a t ih =>
    by_cases h : a = candidateID ∧ a ≠ reviewerID
    · rw [isAlreadyReviewerLoop, if_pos h]
      obtain ⟨h1, h2⟩ := h
      subst h1
      simp [h2]
    · rw [isAlreadyReviewerLoop, if_neg h, ih]
      constructor
      · rintro ⟨h1, h2⟩
        exact ⟨List.mem_cons_of_mem _ h1, h2⟩
      · rintro ⟨h1, h2⟩
        refine ⟨?_, h2⟩
        rcases List.mem_cons.1 h1 with h3 | h3
        · exact absurd ⟨h3.symm, h3 ▸ h2⟩ h
        · exact h3

/-- The filter of the service computes the eligible pool. -/
theorem filterActiveUsersExcludeAuthorAndReviewer_eq (pr : PullRequest)
    (oldReviewerID : UserID) (members : List User) :
    filterActiveUsersExcludeAuthorAndReviewer pr pr.AuthorID oldReviewerID members =
      eligiblePool pr oldReviewerID members := by
  unfold filterActiveUsersExcludeAuthorAndReviewer eligiblePool
  apply List.filter_congr
  intro u _
  by_cases hloop : isAlreadyReviewerLoop u.ID oldReviewerID pr.Reviewers = true
  · have h := (isAlreadyReviewerLoop_iff _ _ _).1 hloop
    simp [hloop, h.1]
  · have hloop2 : isAlreadyReviewerLoop u.ID oldReviewerID pr.Reviewers = false := by
      simpa using hloop
    by_cases hold : u.ID = oldReviewerID
    · simp [hloop2, hold]
    · have hnot : u.ID ∉ pr.Reviewers := fun hm =>
        hloop ((isAlreadyReviewerLoop_iff _ _ _).2 ⟨hm, hold⟩)
      simp [hloop2, hold, hnot]

/-- With the pull request found and not merged, the old reviewer known and assigned, and
the author, team and member lookups successful, the operation of `ReassignReviewer`
comes to the selection of a candidate. -/
theorem reassignOperation_select {ω : Type} (s : pullRequestService ω)
    (id : PullRequestID) (oldReviewerID : UserID) (captured : Option PullRequest × UserID)
    (w w1 w2 w3 w4 w5 : ω) (pr : PullRequest) (oldUser author : User) (team : Team)
    (members : List User)
    (hfound : s.pullRequestRepository.GetByID id w = ((some pr, none), w1))
    (hst : pr.Status ≠ StatusMerged)
    (hold : s.userRepository.GetByID oldReviewerID w1 = ((oldUser, none), w2))
    (hassigned : oldReviewerID ∈ pr.Reviewers)
    (hauthor : s.userRepository.GetByID pr.AuthorID w2 = ((author, none), w3))
    (hteam : s.teamRepository.GetByName author.Team w3 = ((team, none), w4))
    (hmembers : s.userRepository.GetUsersByTeam team.Name w4 = ((members, none), w5)) :
    pullRequestService.reassignOperation s id oldReviewerID (captured, w) =
      pullRequestService.reassignSelect s id oldReviewerID pr members captured w5 := by
  have hm : ¬ pr.IsMerged = true := fun h => hst ((IsMerged_iff pr).1 h)
  have hr : ¬ pr.IsReviewer oldReviewerID = false := by
    rw [(IsReviewer_iff pr oldReviewerID).2 hassigned]
    simp
  unfold pullRequestService.reassignOperation
  simp only [hfound, hm, if_false, hold, hr, ne_eq, not_true_eq_false]
  unfold pullRequestService.reassignLookups
  simp only [hauthor, hteam, hmembers]
  simp

theorem reassignSelect_empty {ω : Type} (s : pullRequestService ω) (id : PullRequestID)
    (oldReviewerID : UserID) (pr : PullRequest) (members : List User)
    (captured : Option PullRequest × UserID) (w : ω)
    (hpool : eligiblePool pr oldReviewerID members = []) :
    pullRequestService.reassignSelect s id oldReviewerID pr members captured w =
      some (some Error.ErrNoCandidate, (captured, w)) := by
  unfold pullRequestService.reassignSelect
  simp [filterActiveUsersExcludeAuthorAndReviewer_eq, hpool]

/-- The selection when the pool has a member at the index that `Intn` returns. -/
theorem reassignSelect_draw {ω : Type} (s : pullRequestService ω) (id : PullRequestID)
    (oldReviewerID : UserID) (pr : PullRequest) (members : List User)
    (captured : Option PullRequest × UserID) (w : ω) (i : Nat) (u : User)
    (hdraw : (s.random.Intn (eligiblePool pr oldReviewerID members).length w).1 = (i : Int))
    (hu : (eligiblePool pr oldReviewerID members)[i]? = some u) :
    pullRequestService.reassignSelect s id oldReviewerID pr members captured w =
      match (s.pullRequestRepository.ReassignReviewer id oldReviewerID u.ID
          (s.random.Intn (eligiblePool pr oldReviewerID members).length w).2).1 with
      | some err => some (some err, ((captured.1, u.ID),
          (s.pullRequestRepository.ReassignReviewer id oldReviewerID u.ID
            (s.random.Intn (eligiblePool pr oldReviewerID members).length w).2).2))
      | none =>
        some ((s.pullRequestRepository.GetByID id
            (s.pullRequestRepository.ReassignReviewer id oldReviewerID u.ID
              (s.random.Intn (eligiblePool pr oldReviewerID members).length w).2).2).1.2,
          (((s.pullRequestRepository.GetByID id
            (s.pullRequestRepository.ReassignReviewer id oldReviewerID u.ID
              (s.random.Intn (eligiblePool pr oldReviewerID members).length w).2).2).1.1,
              u.ID),
            (s.pullRequestRepository.GetByID id
              (s.pullRequestRepository.ReassignReviewer id oldReviewerID u.ID
                (s.random.Intn (eligiblePool pr oldReviewerID members).length w).2).2).2)) := by
  have hlt : i < (eligiblePool pr oldReviewerID members).length := by
    by_contra hge
    rw [List.getElem?_eq_none (by omega)] at hu
    exact absurd hu (by simp)
  have hlen : (eligiblePool pr oldReviewerID members).length ≠ 0 := by omega
  have hget : (toUserIDs (eligiblePool pr oldReviewerID members)).getD i "" = u.ID := by
    rw [List.getElem?_eq_getElem hlt] at hu
    simp only [Option.some.injEq] at hu
    rw [← hu]
    simp [toUserIDs, List.getD_eq_getElem?_getD, hlt]
  unfold pullRequestService.reassignSelect
  simp only [filterActiveUsersExcludeAuthorAndReviewer_eq, hlen, if_false]
  have hlenIDs : (toUserIDs (eligiblePool pr oldReviewerID members)).length =
      (eligiblePool pr oldReviewerID members).length := by simp [toUserIDs]
  simp only [hlenIDs, hdraw, Int.toNat_ofNat, hget]
  have hrange : (0 : Int) ≤ (i : Int) ∧
      (i : Int) < ((eligiblePool pr oldReviewerID members).length : Int) := by
    constructor <;> omega
  rw [if_pos hrange]

/-- The selection panics when `Intn` returns an index outside the pool. -/
theorem reassignSelect_out_of_range {ω : Type} (s : pullRequestService ω)
    (id : PullRequestID) (oldReviewerID : UserID) (pr : PullRequest) (members : List User)
    (captured : Option PullRequest × UserID) (w : ω)
    (hpool : eligiblePool pr oldReviewerID members ≠ [])
    (hdraw : ¬ (0 ≤ (s.random.Intn (eligiblePool pr oldReviewerID members).length w).1 ∧
      (s.random.Intn (eligiblePool pr oldReviewerID members).length w).1 <
        (eligiblePool pr oldReviewerID members).length)) :
    pullRequestService.reassignSelect s id oldReviewerID pr members captured w = none := by
  have hlen : (eligiblePool pr oldReviewerID members).length ≠ 0 := by
    intro h
    exact hpool (List.length_eq_zero.1 h)
  have hlenIDs : (toUserIDs (eligiblePool pr oldReviewerID members)).length =
      (eligiblePool pr oldReviewerID members).length := by simp [toUserIDs]
  unfold pullRequestService.reassignSelect
  simp only [filterActiveUsersExcludeAuthorAndReviewer_eq, hlen, if_false, hlenIDs]
  rw [if_neg hdraw]

/-- The method `ReassignReviewer` under a transaction manager that runs the operation
and returns its error. -/
theorem ReassignReviewer_of_run {ω : Type} (s : pullRequestService ω) (tx : TxManager ω)
    (id : PullRequestID) (oldReviewerID : UserID) (w : ω)
    (htx : s.txManager = some tx)
    (hrun : ∀ (κ : Type) (operation : κ × ω → Option (Option Error × (κ × ω)))
      (st : κ × ω), tx.Do operation st = operation st) :
    s.ReassignReviewer id oldReviewerID w =
      match pullRequestService.reassignOperation s id oldReviewerID ((none, ""), w) with
      | none => none
      | some (some err, (_, w1)) => some ((none, "", some err), w1)
      | some (none, ((resultPullRequest, newReviewerID), w1)) =>
        some ((resultPullRequest, newReviewerID, none), w1) := by
  unfold pullRequestService.ReassignReviewer
  rw [htx]
  simp only [hrun]

theorem errorsIs_self (e : Error) : errorsIs e e = true := by
  cases e <;> simp [errorsIs]

/-- The method `Create` of the team service under a transaction manager that runs the
operation and returns its error. -/
theorem teamCreate_of_run {ω : Type} (s : teamService ω) (tx : TxManager ω)
    (teamName : TeamName) (members : List User) (w : ω)
    (htx : s.txManager = some tx)
    (hrun : ∀ (κ : Type) (operation : κ × ω → Option (Option Error × (κ × ω)))
      (st : κ × ω), tx.Do operation st = operation st) :
    s.Create teamName members w =
      match teamService.createOperation s teamName members (({ Name := "" }, none), w) with
      | none => none
      | some (err, ((resultTeam, resultTeamMembers), w1)) =>
        some ((resultTeam, resultTeamMembers, err), w1) := by
  unfold teamService.Create
  rw [htx]
  simp only [hrun]

/-- For a target that is a domain error, `errors.Is` looks through a wrapping. -/
theorem errorsIs_wrapped (text : String) (inner d : Error) (hd : d ∈ domainErrors) :
    errorsIs (Error.wrapped text inner) d = errorsIs inner d := by
  have hne : Error.wrapped text inner ≠ d := by
    intro h
    rw [← h] at hd
    simp [domainErrors] at hd
  simp [errorsIs, hne]

/-- A wrapping does not change the response. -/
theorem ToHTTPError_wrapped (text : String) (inner : Error) :
    ToHTTPError (some (Error.wrapped text inner)) = ToHTTPError (some inner) := by
  unfold ToHTTPError
  simp only [errorsIsNil,
    errorsIs_wrapped text inner Error.ErrPRExists (by simp [domainErrors]),
    errorsIs_wrapped text inner Error.ErrTeamExists (by simp [domainErrors]),
    errorsIs_wrapped text inner Error.ErrPRMerged (by simp [domainErrors]),
    errorsIs_wrapped text inner Error.ErrNoCandidate (by simp [domainErrors]),
    errorsIs_wrapped text inner Error.ErrNotAssigned (by simp [domainErrors]),
    errorsIs_wrapped text inner Error.ErrAuthorNotActive (by simp [domainErrors]),
    errorsIs_wrapped text inner Error.ErrUserNotFound (by simp [domainErrors]),
    errorsIs_wrapped text inner Error.ErrTeamNotFound (by simp [domainErrors]),
    errorsIs_wrapped text inner Error.ErrPRNotFound (by simp [domainErrors])]

/-- An error matches at most one domain error. -/
theorem errorsIs_unique (e : Error) :
    ∀ d1 ∈ domainErrors, ∀ d2 ∈ domainErrors,
      errorsIs e d1 = true → errorsIs e d2 = true → d1 = d2 := by
  induction e with
  | wrapped text inner ih =>
    intro d1 h1 d2 h2 e1 e2
    rw [errorsIs_wrapped text inner d1 h1] at e1
    rw [errorsIs_wrapped text inner d2 h2] at e2
    exact ih d1 h1 d2 h2 e1 e2
  | _ =>
    intro d1 _ d2 _ e1 e2
    simp only [errorsIs, decide_eq_true_eq] at e1 e2
    rw [← e1, ← e2]

/-- The response to an error that matches the domain error `d` is the response to `d`. -/
theorem ToHTTPError_of_is (e d : Error) (hd : d ∈ domainErrors) (his : errorsIs e d = true) :
    ToHTTPError (some e) = ToHTTPError (some d) := by
  have hother : ∀ d2 ∈ domainErrors, errorsIs e d2 = decide (d2 = d) := by
    intro d2 h2
    by_cases h : d2 = d
    · rw [h, his]
      simp
    · have : errorsIs e d2 ≠ true := fun h3 => h (errorsIs_unique e d2 h2 d hd h3 his)
      simp only [Bool.not_eq_true] at this
      rw [this]
      simp [h]
  have hself : ∀ d2 ∈ domainErrors, errorsIs d d2 = decide (d2 = d) := by
    intro d2 _
    simp only [domainErrors, List.mem_cons, List.mem_singleton, List.not_mem_nil,
      or_false] at hd
    rcases hd with h | h | h | h | h | h | h | h | h <;> subst h <;>
      simp only [errorsIs] <;> exact decide_eq_decide.2 eq_comm
  unfold ToHTTPError
  simp only [errorsIsNil,
    hother Error.ErrPRExists (by simp [domainErrors]),
    hother Error.ErrTeamExists (by simp [domainErrors]),
    hother Error.ErrPRMerged (by simp [domainErrors]),
    hother Error.ErrNoCandidate (by simp [domainErrors]),
    hother Error.ErrNotAssigned (by simp [domainErrors]),
    hother Error.ErrAuthorNotActive (by simp [domainErrors]),
    hother Error.ErrUserNotFound (by simp [domainErrors]),
    hother Error.ErrTeamNotFound (by simp [domainErrors]),
    hother Error.ErrPRNotFound (by simp [domainErrors]),
    hself Error.ErrPRExists (by simp [domainErrors]),
    hself Error.ErrTeamExists (by simp [domainErrors]),
    hself Error.ErrPRMerged (by simp [domainErrors]),
    hself Error.ErrNoCandidate (by simp [domainErrors]),
    hself Error.ErrNotAssigned (by simp [domainErrors]),
    hself Error.ErrAuthorNotActive (by simp [domainErrors]),
    hself Error.ErrUserNotFound (by simp [domainErrors]),
    hself Error.ErrTeamNotFound (by simp [domainErrors]),
    hself Error.ErrPRNotFound (by simp [domainErrors])]

theorem countMembersLoop_eq (teamName : TeamName) (users : List User) :
    ∀ stats : TeamStats, countMembersLoop teamName users stats =
      { stats with
        MemberCount := stats.MemberCount +
          users.countP (fun u => decide (u.Team = teamName)),
        ActiveMembers := stats.ActiveMembers +
          users.countP (fun u => decide (u.Team = teamName ∧ u.IsActive = true)) } := by
  induction users with
  | nil =>
    intro stats
    simp [countMembersLoop]
  | cons u rest ih =>
    intro stats
    by_cases ht : u.Team = teamName
    · by_cases ha : u.IsActive = true
      · rw [countMembersLoop, if_pos ht, if_pos ha, ih]
        simp [List.countP_cons, ht, ha, Nat.add_assoc, Nat.add_comm 1]
      · rw [countMembersLoop, if_pos ht, if_neg ha, ih]
        simp [List.countP_cons, ht, ha, Nat.add_assoc, Nat.add_comm 1]
    · rw [countMembersLoop, if_neg ht, ih]
      simp [List.countP_cons, ht]

theorem authorInTeamLoop_iff (authorID : UserID) (teamName : TeamName) (users : List User) :
    authorInTeamLoop authorID teamName users = true ↔
      ∃ u ∈ users, u.ID = authorID ∧ u.Team = teamName := by
  induction users with
  | nil => simp [authorInTeamLoop]
  | cons u rest ih =>
    by_cases h : u.ID = authorID ∧ u.Team = teamName
    · rw [authorInTeamLoop, if_pos h]
      simp only [true_iff]
      exact ⟨u, List.mem_cons_self _ _, h⟩
    · rw [authorInTeamLoop, if_neg h, ih]
      constructor
      · rintro ⟨v, hv, hp⟩
        exact ⟨v, List.mem_cons_of_mem _ hv, hp⟩
      · rintro ⟨v, hv, hp⟩
        rcases List.mem_cons.1 hv with h1 | h1
        · rw [h1] at hp
          exact absurd hp h
        · exact ⟨v, h1, hp⟩

theorem countPullRequestsLoop_eq (teamName : TeamName) (users : List User)
    (pullRequests : List PullRequest) :
    ∀ stats : TeamStats, countPullRequestsLoop teamName users pullRequests stats =
      { stats with
        PullRequestsCount := stats.PullRequestsCount +
          pullRequests.countP (fun p =>
            decide (∃ u ∈ users, u.ID = p.AuthorID ∧ u.Team = teamName)) } := by
  induction pullRequests with
  | nil =>
    intro stats
    simp [countPullRequestsLoop]
  | cons p rest ih =>
    intro stats
    by_cases h : authorInTeamLoop p.AuthorID teamName users = true
    · have h2 := (authorInTeamLoop_iff _ _ _).1 h
      rw [countPullRequestsLoop, if_pos h, ih, List.countP_cons_of_pos _ _ (by simpa using h2)]
      simp [Nat.add_assoc, Nat.add_comm 1]
    · have h2 : ¬ ∃ u ∈ users, u.ID = p.AuthorID ∧ u.Team = teamName :=
        fun hex => h ((authorInTeamLoop_iff _ _ _).2 hex)
      rw [countPullRequestsLoop, if_neg h, ih, List.countP_cons_of_neg _ _ (by simpa using h2)]

/-! ## The claims on the entity -/

/-- C1: capacity and self-exclusion invariant.  From any pull request with at most two
reviewers, none of them the author, every finite sequence of `AddReviewers`,
`ReassignReviewer` and `Merge` calls with arbitrary arguments runs without a panic and
ends in a pull request with at most two reviewers, none of them the author. -/
theorem capacity_and_self_exclusion (pr : PullRequest) (ops : List Op)
    (hcap : pr.reviewers.length ≤ 2) (hauth : pr.AuthorID ∉ pr.reviewers) :
    ∃ pr1, runOps pr ops = some pr1 ∧ pr1.reviewers.length ≤ 2 ∧
      pr1.AuthorID ∉ pr1.reviewers := by
  obtain ⟨pr1, h0, h1, h2, _, _⟩ := runOps_keeps ops pr hcap
  exact ⟨pr1, h0, h1, h2 hauth⟩

/-- C1 at a concrete input: a new pull request of "Artem", then five calls, one of them a
failing reassignment and one an `AddReviewers` that names the author. -/
theorem capacity_and_self_exclusion_witness :
    (NewPullRequest "pr-1" "feature" "Artem" 7).reviewers.length ≤ 2 ∧
    (NewPullRequest "pr-1" "feature" "Artem" 7).AuthorID ∉
      (NewPullRequest "pr-1" "feature" "Artem" 7).reviewers ∧
    ∃ pr1, runOps (NewPullRequest "pr-1" "feature" "Artem" 7)
        [Op.addReviewers ["Artem", "user1", "user1"], Op.reassignReviewer "user1" "Artem",
          Op.addReviewers ["user2", "user3"], Op.reassignReviewer "user2" "user3",
          Op.merge 9] = some pr1 ∧
      pr1.reviewers.length ≤ 2 ∧ pr1.AuthorID ∉ pr1.reviewers :=
  ⟨by decide, by decide,
    capacity_and_self_exclusion (NewPullRequest "pr-1" "feature" "Artem" 7) _
      (by decide) (by decide)⟩

/-- C2: no duplicate reviewers.  On a pull request whose reviewer list has no repeated ID
and at most two entries, `AddReviewers` with any candidate sequence returns and leaves a
reviewer list without repeated ID, and so does a `ReassignReviewer` that succeeds. -/
theorem no_duplicate_reviewers (pr : PullRequest) (hnd : pr.reviewers.Nodup)
    (hcap : pr.reviewers.length ≤ 2) :
    (∀ c : List UserID, ∃ pr1 ret, pr.AddReviewers c = some (pr1, ret) ∧
      pr1.reviewers.Nodup) ∧
    (∀ oldID newID : UserID, (pr.ReassignReviewer oldID newID).2 = none →
      (pr.ReassignReviewer oldID newID).1.reviewers.Nodup) := by
  constructor
  · intro c
    obtain ⟨added, ret, heq, _, hadd, hel, _⟩ := AddReviewers_shape pr c hcap
    refine ⟨_, ret, heq, List.nodup_append.2 ⟨hnd, hadd, ?_⟩⟩
    intro y hy1 hy2
    exact (hel y hy2).2 hy1
  · intro oldID newID _
    exact (ReassignReviewer_shape pr oldID newID).2.2.2.2.2 hnd

/-- C2 at a concrete input: one reviewer, candidates that repeat it and repeat each
other, and a reassignment of that reviewer. -/
theorem no_duplicate_reviewers_witness :
    (∃ pr1 ret,
      ({ NewPullRequest "pr-1" "feature" "Artem" 7 with reviewers := ["user1"] } :
        PullRequest).AddReviewers ["user1", "user2", "user2", "user1"] = some (pr1, ret) ∧
      pr1.reviewers.Nodup) ∧
    ((({ NewPullRequest "pr-1" "feature" "Artem" 7 with reviewers := ["user1"] } :
        PullRequest).ReassignReviewer "user1" "user3").2 = none →
      (({ NewPullRequest "pr-1" "feature" "Artem" 7 with reviewers := ["user1"] } :
        PullRequest).ReassignReviewer "user1" "user3").1.reviewers.Nodup) :=
  ⟨(no_duplicate_reviewers
      { NewPullRequest "pr-1" "feature" "Artem" 7 with reviewers := ["user1"] }
      (by decide) (by decide)).1 ["user1", "user2", "user2", "user1"],
    (no_duplicate_reviewers
      { NewPullRequest "pr-1" "feature" "Artem" 7 with reviewers := ["user1"] }
      (by decide) (by decide)).2 "user1" "user3"⟩

/-- C4: `ReassignReviewer` checks its preconditions in a fixed order and the first
failure decides the error: `ErrPRMerged` when the pull request is MERGED; otherwise
`ErrNotAssigned` when the old ID is not a reviewer; otherwise `ErrNoCandidate` when the
new ID is the author or already a reviewer; otherwise nil. -/
theorem ReassignReviewer_error_order (pr : PullRequest) (oldID newID : UserID) :
    ((pr.ReassignReviewer oldID newID).2 =
      if pr.Status = StatusMerged then some Error.ErrPRMerged
      else if oldID ∉ pr.reviewers then some Error.ErrNotAssigned
      else if newID = pr.AuthorID ∨ newID ∈ pr.reviewers then some Error.ErrNoCandidate
      else none) ∧
    ((pr.ReassignReviewer oldID newID).2 = some Error.ErrPRMerged ↔
      pr.Status = StatusMerged) ∧
    (pr.Status ≠ StatusMerged →
      ((pr.ReassignReviewer oldID newID).2 = some Error.ErrNotAssigned ↔
        oldID ∉ pr.reviewers)) ∧
    (pr.Status ≠ StatusMerged → oldID ∈ pr.reviewers →
      ((pr.ReassignReviewer oldID newID).2 = some Error.ErrNoCandidate ↔
        (newID = pr.AuthorID ∨ newID ∈ pr.reviewers))) ∧
    (pr.Status ≠ StatusMerged → oldID ∈ pr.reviewers →
      ((pr.ReassignReviewer oldID newID).2 = none ↔
        ¬ (newID = pr.AuthorID ∨ newID ∈ pr.reviewers))) := by
  rw [ReassignReviewer_eq]
  by_cases hm : pr.Status = StatusMerged
  · simp [hm]
  · by_cases ho : oldID ∈ pr.reviewers
    · by_cases hn : newID = pr.AuthorID ∨ newID ∈ pr.reviewers
      · simp [hm, ho, hn]
      · simp [hm, ho, hn]
    · simp [hm, ho]

/-- C5: a `ReassignReviewer` that succeeds keeps the length of the reviewer list, writes
the new ID at the index of the first occurrence of the old one, leaves every other index
and every other field as it was; the new ID is then a reviewer and, when the list had no
repeated ID, the old one is not. -/
theorem ReassignReviewer_success (pr : PullRequest) (oldID newID : UserID)
    (hok : (pr.ReassignReviewer oldID newID).2 = none) :
    (pr.ReassignReviewer oldID newID).1.reviewers.length = pr.reviewers.length ∧
    pr.reviewers.indexOf oldID < pr.reviewers.length ∧
    (pr.ReassignReviewer oldID newID).1.reviewers[pr.reviewers.indexOf oldID]? = some newID ∧
    (∀ i : Nat, i ≠ pr.reviewers.indexOf oldID →
      (pr.ReassignReviewer oldID newID).1.reviewers[i]? = pr.reviewers[i]?) ∧
    (pr.ReassignReviewer oldID newID).1.ID = pr.ID ∧
    (pr.ReassignReviewer oldID newID).1.Name = pr.Name ∧
    (pr.ReassignReviewer oldID newID).1.AuthorID = pr.AuthorID ∧
    (pr.ReassignReviewer oldID newID).1.Status = pr.Status ∧
    (pr.ReassignReviewer oldID newID).1.CreatedAt = pr.CreatedAt ∧
    (pr.ReassignReviewer oldID newID).1.MergedAt = pr.MergedAt ∧
    newID ∈ (pr.ReassignReviewer oldID newID).1.reviewers ∧
    (pr.reviewers.Nodup → oldID ∉ (pr.ReassignReviewer oldID newID).1.reviewers) := by
  rw [ReassignReviewer_eq] at hok ⊢
  by_cases hm : pr.Status = StatusMerged
  · simp [hm] at hok
  · by_cases ho : oldID ∈ pr.reviewers
    · by_cases hn : newID = pr.AuthorID ∨ newID ∈ pr.reviewers
      · simp [hm, ho, hn] at hok
      · rw [if_neg hm, if_neg (not_not.2 ho), if_neg hn]
        have hidx : pr.reviewers.indexOf oldID < pr.reviewers.length :=
          List.indexOf_lt_length.2 ho
        have hne : oldID ≠ newID := by
          intro e
          rw [← e] at hn
          exact hn (Or.inr ho)
        refine ⟨by simp, hidx, ?_, ?_, rfl, rfl, rfl, rfl, rfl, rfl, ?_, ?_⟩
        · simp [List.getElem?_set, hidx]
        · intro i hi
          simp [List.getElem?_set, Ne.symm hi]
        · exact (List.mem_set _ _ hidx _)
        · intro hnd
          exact not_mem_set_indexOf oldID newID pr.reviewers hnd hne
    · simp [hm, ho] at hok

/-- C5 at a concrete input, the test "successfully reassign reviewer": reviewers
"user1", "user2"; "user1" is replaced in place by "user3". -/
theorem ReassignReviewer_success_witness :
    (({ NewPullRequest "pr-1" "feature" "Artem" 7 with reviewers := ["user1", "user2"] } :
        PullRequest).ReassignReviewer "user1" "user3") =
      ({ NewPullRequest "pr-1" "feature" "Artem" 7 with reviewers := ["user3", "user2"] },
        none) ∧
    "user3" ∈ (({ NewPullRequest "pr-1" "feature" "Artem" 7 with
        reviewers := ["user1", "user2"] } : PullRequest).ReassignReviewer
          "user1" "user3").1.reviewers :=
  ⟨by decide,
    (ReassignReviewer_success
      { NewPullRequest "pr-1" "feature" "Artem" 7 with reviewers := ["user1", "user2"] }
      "user1" "user3" (by decide)).2.2.2.2.2.2.2.2.2.2.1⟩

/-- C6: MERGED is a terminal, frozen state.  On a MERGED pull request `AddReviewers`
returns nil, `ReassignReviewer` returns `ErrPRMerged` and `Merge` does nothing, each
leaving the pull request as it was; and on an OPEN pull request `Merge t1` followed by
`Merge t2`, `t2` different from `t1`, leaves status MERGED and `mergedAt = t1`. -/
theorem merged_is_frozen (pr : PullRequest) :
    (pr.Status = StatusMerged →
      (∀ c : List UserID, pr.AddReviewers c = some (pr, none)) ∧
      (∀ oldID newID : UserID,
        pr.ReassignReviewer oldID newID = (pr, some Error.ErrPRMerged)) ∧
      (∀ t : Time, pr.Merge t = pr)) ∧
    (pr.Status = StatusOpen → ∀ t1 t2 : Time, t2 ≠ t1 →
      ((pr.Merge t1).Merge t2).Status = StatusMerged ∧
      ((pr.Merge t1).Merge t2).MergedAt = some t1 ∧
      ((pr.Merge t1).Merge t2).reviewers = pr.reviewers) := by
  constructor
  · intro hm
    refine ⟨fun c => AddReviewers_of_guard pr c (Or.inl hm), ?_, ?_⟩
    · intro oldID newID
      rw [ReassignReviewer_eq, if_pos hm]
    · intro t
      simp [PullRequest.Merge, hm]
  · intro hopen t1 t2 _
    have hst : pr.Status ≠ StatusMerged := by
      rw [hopen]
      decide
    simp [PullRequest.Merge, hst]

/-- C6 at a concrete input: a merged pull request with one reviewer, and the test
"idempotent merge". -/
theorem merged_is_frozen_witness :
    (({ NewPullRequest "pr-1" "feature" "Artem" 7 with
        Status := StatusMerged, reviewers := ["user1"], MergedAt := some 8 } :
        PullRequest).AddReviewers ["user2"] =
      some ({ NewPullRequest "pr-1" "feature" "Artem" 7 with
        Status := StatusMerged, reviewers := ["user1"], MergedAt := some 8 }, none)) ∧
    (((NewPullRequest "pr-1" "feature" "Artem" 7).Merge 8).Merge 9).MergedAt = some 8 :=
  ⟨((merged_is_frozen { NewPullRequest "pr-1" "feature" "Artem" 7 with
        Status := StatusMerged, reviewers := ["user1"], MergedAt := some 8 }).1
      (by decide)).1 ["user2"],
    ((merged_is_frozen (NewPullRequest "pr-1" "feature" "Artem" 7)).2
      (by decide) 8 9 (by decide)).2.1⟩

/-- C7: `NewPullRequest` yields status OPEN, no reviewer, the given creation time and no
`mergedAt`; and after any sequence of `AddReviewers`, `ReassignReviewer` and `Merge`
calls on it (none of which panics) `mergedAt` is set if and only if the status is
MERGED. -/
theorem mergedAt_iff_merged (id : PullRequestID) (name : String) (authorID : UserID)
    (createdAt : Time) (ops : List Op) :
    (NewPullRequest id name authorID createdAt).Status = StatusOpen ∧
    (NewPullRequest id name authorID createdAt).Reviewers = [] ∧
    (NewPullRequest id name authorID createdAt).CreatedAt = createdAt ∧
    (NewPullRequest id name authorID createdAt).MergedAt = none ∧
    (NewPullRequest id name authorID createdAt).ID = id ∧
    (NewPullRequest id name authorID createdAt).Name = name ∧
    (NewPullRequest id name authorID createdAt).AuthorID = authorID ∧
    ∃ pr1, runOps (NewPullRequest id name authorID createdAt) ops = some pr1 ∧
      (pr1.MergedAt.isSome = true ↔ pr1.Status = StatusMerged) := by
  refine ⟨rfl, rfl, rfl, rfl, rfl, rfl, rfl, ?_⟩
  obtain ⟨pr1, h0, _, _, _, h4⟩ :=
    runOps_keeps ops (NewPullRequest id name authorID createdAt) (by simp [NewPullRequest])
  refine ⟨pr1, h0, h4 ?_⟩
  simp only [NewPullRequest, Option.isSome_none]
  constructor
  · intro h
    exact absurd h (by decide)
  · intro h
    exact absurd h (by decide)

/-- C8: `AddReviewers` is a no-op in its three guard cases.  On a MERGED pull request,
or one with exactly two reviewers, or with an empty candidate sequence, it returns nil
and leaves every field of the pull request as it was. -/
theorem AddReviewers_guard_noop (pr : PullRequest) (c : List UserID)
    (h : pr.Status = StatusMerged ∨ pr.reviewers.length = 2 ∨ c = []) :
    pr.AddReviewers c = some (pr, none) :=
  AddReviewers_of_guard pr c h

/-- C8 at a concrete input, the test "return nil when pullRequest is fully assigned". -/
theorem AddReviewers_guard_noop_witness :
    ({ NewPullRequest "pr-1" "feature" "Artem" 7 with reviewers := ["user1", "user2"] } :
        PullRequest).AddReviewers ["user3"] =
      some ({ NewPullRequest "pr-1" "feature" "Artem" 7 with
        reviewers := ["user1", "user2"] }, none) :=
  AddReviewers_guard_noop
    { NewPullRequest "pr-1" "feature" "Artem" 7 with reviewers := ["user1", "user2"] }
    ["user3"] (Or.inr (Or.inl (by decide)))

/-- C9, as stated, fails: on a MERGED pull request a reassignment whose new ID is the
author fails with `ErrPRMerged`, whose kind is `InvalidState`, not `PolicyViolation`. -/
theorem self_protection_counterexample :
    ¬ (∀ (pr : PullRequest) (oldID newID : UserID),
        newID = pr.AuthorID ∨ newID ∈ pr.reviewers →
        ∃ e, (pr.ReassignReviewer oldID newID).2 = some e ∧
          errorKind e = ErrorKind.PolicyViolation) := by
  intro h
  obtain ⟨e, he, hk⟩ := h { NewPullRequest "pr-1" "feature" "Artem" 7 with
    Status := StatusMerged, reviewers := ["user1"], MergedAt := some 8 } "user1" "Artem"
    (Or.inl rfl)
  have hres : ({ NewPullRequest "pr-1" "feature" "Artem" 7 with
      Status := StatusMerged, reviewers := ["user1"], MergedAt := some 8 } :
      PullRequest).ReassignReviewer "user1" "Artem" =
      ({ NewPullRequest "pr-1" "feature" "Artem" 7 with
        Status := StatusMerged, reviewers := ["user1"], MergedAt := some 8 },
        some Error.ErrPRMerged) := by decide
  rw [hres] at he
  simp only [Option.some.injEq] at he
  rw [← he] at hk
  exact absurd hk (by decide)

/-- C9, amended: on a pull request that is not MERGED, whenever the new ID is the author
or already a reviewer, `ReassignReviewer` fails with an error of the `PolicyViolation`
kind, `ErrNotAssigned` when the old ID is not a reviewer and `ErrNoCandidate` otherwise,
and changes nothing; on a MERGED one it fails with `ErrPRMerged`, of the `InvalidState`
kind. -/
theorem self_protection_when_not_merged (pr : PullRequest) (oldID newID : UserID)
    (hnew : newID = pr.AuthorID ∨ newID ∈ pr.reviewers) :
    (pr.Status ≠ StatusMerged →
      ∃ e, pr.ReassignReviewer oldID newID = (pr, some e) ∧
        errorKind e = ErrorKind.PolicyViolation ∧
        e = if oldID ∈ pr.reviewers then Error.ErrNoCandidate else Error.ErrNotAssigned) ∧
    (pr.Status = StatusMerged →
      pr.ReassignReviewer oldID newID = (pr, some Error.ErrPRMerged) ∧
        errorKind Error.ErrPRMerged = ErrorKind.InvalidState) := by
  rw [ReassignReviewer_eq]
  constructor
  · intro hm
    by_cases ho : oldID ∈ pr.reviewers
    · refine ⟨Error.ErrNoCandidate, ?_, rfl, by simp [ho]⟩
      simp [hm, ho, hnew]
    · refine ⟨Error.ErrNotAssigned, ?_, rfl, by simp [ho]⟩
      simp [hm, ho]
  · intro hm
    exact ⟨by simp [hm], rfl⟩

/-- C9, amended, at a concrete input: the tests "fail when new reviewer is author" and
"fail when new reviewer is already assigned". -/
theorem self_protection_when_not_merged_witness :
    (∃ e, ({ NewPullRequest "pr-1" "feature" "Artem" 7 with reviewers := ["user1"] } :
        PullRequest).ReassignReviewer "user1" "Artem" =
          ({ NewPullRequest "pr-1" "feature" "Artem" 7 with reviewers := ["user1"] }, some e) ∧
        errorKind e = ErrorKind.PolicyViolation ∧
        e = if "user1" ∈ ({ NewPullRequest "pr-1" "feature" "Artem" 7 with
            reviewers := ["user1"] } : PullRequest).reviewers
          then Error.ErrNoCandidate else Error.ErrNotAssigned) :=
  (self_protection_when_not_merged
    { NewPullRequest "pr-1" "feature" "Artem" 7 with reviewers := ["user1"] }
    "user1" "Artem" (Or.inl rfl)).1 (by decide)

/-! ## The claims on the pull-request service -/

/-- C10: result of `Create`.  Under a transaction manager that runs the operation and
returns its error, when the pull-request lookup reports not-found, the author lookup
returns an active user and the team and member lookups succeed, then for every member
list and whatever in-range swaps `Shuffle` makes, the operation ends in the persist of
one pull request `pr`, in the world that `Shuffle` left (that the clock left when there
is no candidate), and when that persist succeeds `Create` returns `pr` and no error.
`pr` has the given id, name and author, status OPEN, no `mergedAt`, `createdAt` the
reading of the clock, and exactly `min 2 k` reviewers, `k` the number of distinct IDs of
active members other than the author; every reviewer is such a member and none is
repeated.  With `k = 0` the pull request has no reviewers and is persisted all the
same. -/
theorem Create_result {ω : Type} (s : pullRequestService ω) (tx : TxManager ω)
    (id : PullRequestID) (name : String) (authorID : UserID) (w w1 w2 w3 w4 : ω)
    (found : Option PullRequest) (author : User) (team : Team) (members : List User)
    (htx : s.txManager = some tx)
    (hrun : ∀ (κ : Type) (operation : κ × ω → Option (Option Error × (κ × ω)))
      (st : κ × ω), tx.Do operation st = operation st)
    (hfound : s.pullRequestRepository.GetByID id w = ((found, some Error.ErrPRNotFound), w1))
    (hauthor : s.userRepository.GetByID authorID w1 = ((author, none), w2))
    (hactive : author.IsActive = true)
    (hteam : s.teamRepository.GetByName author.Team w2 = ((team, none), w3))
    (hmembers : s.userRepository.GetUsersByTeam team.Name w3 = ((members, none), w4))
    (hrange : ∀ p ∈ (s.random.Shuffle
        (toUserIDs (filterActiveUsersExcludeAuthor authorID members)).length
        (s.timeProvider.Now w4).2).1,
      0 ≤ p.1 ∧ p.1 < (toUserIDs (filterActiveUsersExcludeAuthor authorID members)).length ∧
      0 ≤ p.2 ∧ p.2 < (toUserIDs (filterActiveUsersExcludeAuthor authorID members)).length) :
    ∃ (pr : PullRequest) (wp : ω),
      pullRequestService.createOperation s id name authorID (none, w) =
        pullRequestService.createPersist s pr wp ∧
      wp = (if (filterActiveUsersExcludeAuthor authorID members).length > 0 then
        (s.random.Shuffle (toUserIDs (filterActiveUsersExcludeAuthor authorID members)).length
          (s.timeProvider.Now w4).2).2
        else (s.timeProvider.Now w4).2) ∧
      ((s.pullRequestRepository.Create pr wp).1 = none →
        s.Create id name authorID w =
          some ((some pr, none), (s.pullRequestRepository.Create pr wp).2)) ∧
      pr.ID = id ∧ pr.Name = name ∧ pr.AuthorID = authorID ∧ pr.Status = StatusOpen ∧
      pr.MergedAt = none ∧ pr.CreatedAt = (s.timeProvider.Now w4).1 ∧
      pr.Reviewers.length =
        min 2 ((members.filter (fun u => u.IsActive && decide (u.ID ≠ authorID))).map
          (fun u => u.ID)).toFinset.card ∧
      (∀ r ∈ pr.Reviewers, ∃ u ∈ members, u.ID = r ∧ u.IsActive = true ∧ u.ID ≠ authorID) ∧
      pr.Reviewers.Nodup ∧
      (((members.filter (fun u => u.IsActive && decide (u.ID ≠ authorID))).map
          (fun u => u.ID)).toFinset.card = 0 → pr.Reviewers = []) := by
  obtain ⟨pr, wp, hassign, hwp, h1, h2, h3, h4, h5, h6, h7, h8, h9⟩ :=
    createAssign_ok s id name authorID members w4 hrange
  have hop : pullRequestService.createOperation s id name authorID (none, w) =
      pullRequestService.createPersist s pr wp := by
    unfold pullRequestService.createOperation
    simp only [hfound, hauthor, hteam, hmembers, hactive, hassign]
    simp
  refine ⟨pr, wp, hop, hwp, ?_, h1, h2, h3, h4, h5, h6, h7, ?_, h9, ?_⟩
  · intro hpersist
    unfold pullRequestService.Create
    rw [htx]
    simp only [hrun, hop]
    unfold pullRequestService.createPersist
    simp only [hpersist]
  · intro r hr
    exact (mem_toUserIDs_filter authorID members r).1 (h8 r hr)
  · intro hk
    have hlen : pr.Reviewers.length =
        min 2 ((members.filter (fun u => u.IsActive && decide (u.ID ≠ authorID))).map
          (fun u => u.ID)).toFinset.card := h7
    rw [hk] at hlen
    exact List.length_eq_zero.1 hlen

/-- C10 at concrete inputs.  The test "successfully create pull request with
reviewers": both teammates become reviewers, in the order the swap leaves them.  And the
repositories of the program on the store `partialFailureDatabase`, whose driver fails
the seventh call, under a manager that makes no call of its own: the six calls of the
run are carried out and the pull request is returned with the reviewer "u1". -/
theorem Create_result_witness :
    testService.Create "pull-request-1" "Test Pull Request" "author1" () =
      some ((some { NewPullRequest "pull-request-1" "Test Pull Request" "author1" 42 with
        reviewers := ["user2", "user1"] }, none), ()) ∧
    ({ productionPullRequestService { Now := fun db => (42, db) }
          { Shuffle := fun _ db => ([], db)
            Intn := fun _ db => (0, db) } with
        txManager := some (mockTxManager none) }).Create "pr-1" "feature" "a1"
        partialFailureDatabase =
      some ((some { NewPullRequest "pr-1" "feature" "a1" 42 with reviewers := ["u1"] }, none),
        { partialFailureDatabase with
          pullRequests := [{ ID := "pr-1", Name := "feature", AuthorID := "a1",
                             Status := StatusOpen, CreatedAt := 42, MergedAt := none }]
          pullRequestReviewers := [("pr-1", "u1")]
          faults := [some "connection reset"] }) := by
  constructor
  · obtain ⟨pr, wp, hop, _, himp, _⟩ :=
      Create_result testService (mockTxManager none) "pull-request-1" "Test Pull Request"
        "author1" () () () () () none testAuthor { Name := "backend" } testMembers
        rfl (fun _ _ _ => rfl) rfl rfl rfl rfl rfl (by decide)
    have hev : pullRequestService.createOperation testService "pull-request-1"
        "Test Pull Request" "author1" (none, ()) =
        some (none, (some { NewPullRequest "pull-request-1" "Test Pull Request" "author1" 42
          with reviewers := ["user2", "user1"] }, ())) := by decide
    rw [hev] at hop
    unfold pullRequestService.createPersist at hop
    simp only [Option.some.injEq, Prod.mk.injEq] at hop
    rw [himp hop.1.symm, ← hop.2.1]
  · obtain ⟨pr, wp, hop, _, himp, _⟩ :=
      Create_result
        ({ productionPullRequestService { Now := fun db => (42, db) }
            { Shuffle := fun _ db => ([], db)
              Intn := fun _ db => (0, db) } with
          txManager := some (mockTxManager none) })
        (mockTxManager none) "pr-1" "feature" "a1" partialFailureDatabase
        { partialFailureDatabase with
          faults := [none, none, none, none, none, some "connection reset"] }
        { partialFailureDatabase with
          faults := [none, none, none, none, some "connection reset"] }
        { partialFailureDatabase with faults := [none, none, none, some "connection reset"] }
        { partialFailureDatabase with faults := [none, none, some "connection reset"] }
        none
        { ID := "a1", Username := "author", Team := "backend", IsActive := true }
        { Name := "backend" }
        [{ ID := "a1", Username := "author", Team := "backend", IsActive := true },
          { ID := "u1", Username := "user1", Team := "backend", IsActive := true }]
        rfl (fun _ _ _ => rfl) (by decide) (by decide) rfl (by decide) (by decide)
        (by decide)
    have hev : pullRequestService.createOperation
        ({ productionPullRequestService { Now := fun db => (42, db) }
            { Shuffle := fun _ db => ([], db)
              Intn := fun _ db => (0, db) } with
          txManager := some (mockTxManager none) })
        "pr-1" "feature" "a1" (none, partialFailureDatabase) =
        some (none, (some { NewPullRequest "pr-1" "feature" "a1" 42 with
          reviewers := ["u1"] },
          { partialFailureDatabase with
            pullRequests := [{ ID := "pr-1", Name := "feature", AuthorID := "a1",
                               Status := StatusOpen, CreatedAt := 42, MergedAt := none }]
            pullRequestReviewers := [("pr-1", "u1")]
            faults := [some "connection reset"] })) := by decide
    rw [hev] at hop
    unfold pullRequestService.createPersist at hop
    injection hop with hop
    injection hop with herr hrest
    injection hrest with hpr hdb
    injection hpr with hpr
    have hcreate := himp herr.symm
    rw [← hdb, ← hpr] at hcreate
    exact hcreate

/-- C11: candidate selection in `ReassignReviewer`, under a transaction manager that
runs the operation and returns its error.  With the pull request found OPEN, the old
reviewer a known user and a current reviewer, and the author, team and member lookups
successful: the filter of the service yields the eligible pool; with an empty pool
the call fails with `ErrNoCandidate` and neither `Intn` nor the swap is called;
otherwise `Intn` is called once, on the size of the pool, the swap is requested for
the member at the returned index, and that member is the returned reviewer.  When the
swap and the second lookup do not themselves fail with `ErrNoCandidate`, the call fails
with `ErrNoCandidate` if and only if the pool is empty. -/
theorem ReassignReviewer_candidate_selection {ω : Type} (s : pullRequestService ω)
    (tx : TxManager ω) (id : PullRequestID) (oldReviewerID : UserID)
    (w w1 w2 w3 w4 w5 : ω) (pr : PullRequest) (oldUser author : User) (team : Team)
    (members : List User)
    (htx : s.txManager = some tx)
    (hrun : ∀ (κ : Type) (operation : κ × ω → Option (Option Error × (κ × ω)))
      (st : κ × ω), tx.Do operation st = operation st)
    (hfound : s.pullRequestRepository.GetByID id w = ((some pr, none), w1))
    (hopen : pr.Status = StatusOpen)
    (hold : s.userRepository.GetByID oldReviewerID w1 = ((oldUser, none), w2))
    (hassigned : oldReviewerID ∈ pr.Reviewers)
    (hauthor : s.userRepository.GetByID pr.AuthorID w2 = ((author, none), w3))
    (hteam : s.teamRepository.GetByName author.Team w3 = ((team, none), w4))
    (hmembers : s.userRepository.GetUsersByTeam team.Name w4 = ((members, none), w5)) :
    filterActiveUsersExcludeAuthorAndReviewer pr pr.AuthorID oldReviewerID members =
      eligiblePool pr oldReviewerID members ∧
    (eligiblePool pr oldReviewerID members = [] →
      s.ReassignReviewer id oldReviewerID w =
        some ((none, "", some Error.ErrNoCandidate), w5)) ∧
    (∀ (i : Nat) (u : User),
      (s.random.Intn (eligiblePool pr oldReviewerID members).length w5).1 = (i : Int) →
      (eligiblePool pr oldReviewerID members)[i]? = some u →
      s.ReassignReviewer id oldReviewerID w =
        match (s.pullRequestRepository.ReassignReviewer id oldReviewerID u.ID
            (s.random.Intn (eligiblePool pr oldReviewerID members).length w5).2).1 with
        | some err => some ((none, "", some err),
            (s.pullRequestRepository.ReassignReviewer id oldReviewerID u.ID
              (s.random.Intn (eligiblePool pr oldReviewerID members).length w5).2).2)
        | none =>
          match (s.pullRequestRepository.GetByID id
              (s.pullRequestRepository.ReassignReviewer id oldReviewerID u.ID
                (s.random.Intn (eligiblePool pr oldReviewerID members).length w5).2).2).1.2 with
          | some err => some ((none, "", some err),
              (s.pullRequestRepository.GetByID id
                (s.pullRequestRepository.ReassignReviewer id oldReviewerID u.ID
                  (s.random.Intn (eligiblePool pr oldReviewerID members).length w5).2).2).2)
          | none =>
            some (((s.pullRequestRepository.GetByID id
                (s.pullRequestRepository.ReassignReviewer id oldReviewerID u.ID
                  (s.random.Intn (eligiblePool pr oldReviewerID members).length w5).2).2).1.1,
                u.ID, none),
              (s.pullRequestRepository.GetByID id
                (s.pullRequestRepository.ReassignReviewer id oldReviewerID u.ID
                  (s.random.Intn (eligiblePool pr oldReviewerID members).length w5).2).2).2)) ∧
    ((∀ a b c x, (s.pullRequestRepository.ReassignReviewer a b c x).1 ≠
        some Error.ErrNoCandidate) →
      (∀ a x, (s.pullRequestRepository.GetByID a x).1.2 ≠ some Error.ErrNoCandidate) →
      ∀ r, s.ReassignReviewer id oldReviewerID w = some r →
        (r.1.2.2 = some Error.ErrNoCandidate ↔ eligiblePool pr oldReviewerID members = [])) := by
  have hst : pr.Status ≠ StatusMerged := by
    rw [hopen]
    decide
  have hop := reassignOperation_select s id oldReviewerID (none, "") w w1 w2 w3 w4 w5 pr
    oldUser author team members hfound hst hold hassigned hauthor hteam hmembers
  have hmethod := ReassignReviewer_of_run s tx id oldReviewerID w htx hrun
  rw [hop] at hmethod
  have hdrawn : ∀ (i : Nat) (u : User),
      (s.random.Intn (eligiblePool pr oldReviewerID members).length w5).1 = (i : Int) →
      (eligiblePool pr oldReviewerID members)[i]? = some u →
      s.ReassignReviewer id oldReviewerID w =
        match (s.pullRequestRepository.ReassignReviewer id oldReviewerID u.ID
            (s.random.Intn (eligiblePool pr oldReviewerID members).length w5).2).1 with
        | some err => some ((none, "", some err),
            (s.pullRequestRepository.ReassignReviewer id oldReviewerID u.ID
              (s.random.Intn (eligiblePool pr oldReviewerID members).length w5).2).2)
        | none =>
          match (s.pullRequestRepository.GetByID id
              (s.pullRequestRepository.ReassignReviewer id oldReviewerID u.ID
                (s.random.Intn (eligiblePool pr oldReviewerID members).length w5).2).2).1.2 with
          | some err => some ((none, "", some err),
              (s.pullRequestRepository.GetByID id
                (s.pullRequestRepository.ReassignReviewer id oldReviewerID u.ID
                  (s.random.Intn (eligiblePool pr oldReviewerID members).length w5).2).2).2)
          | none =>
            some (((s.pullRequestRepository.GetByID id
                (s.pullRequestRepository.ReassignReviewer id oldReviewerID u.ID
                  (s.random.Intn (eligiblePool pr oldReviewerID members).length w5).2).2).1.1,
                u.ID, none),
              (s.pullRequestRepository.GetByID id
                (s.pullRequestRepository.ReassignReviewer id oldReviewerID u.ID
                  (s.random.Intn (eligiblePool pr oldReviewerID members).length w5).2).2).2) := by
    intro i u hdraw hu
    rw [hmethod, reassignSelect_draw s id oldReviewerID pr members (none, "") w5 i u hdraw hu]
    cases hsw : (s.pullRequestRepository.ReassignReviewer id oldReviewerID u.ID
        (s.random.Intn (eligiblePool pr oldReviewerID members).length w5).2).1 with
    | some e => rfl
    | none =>
      cases hre : (s.pullRequestRepository.GetByID id
          (s.pullRequestRepository.ReassignReviewer id oldReviewerID u.ID
            (s.random.Intn (eligiblePool pr oldReviewerID members).length w5).2).2).1.2 with
      | some e => simp only [hre]
      | none => simp only [hre]
  refine ⟨filterActiveUsersExcludeAuthorAndReviewer_eq pr oldReviewerID members, ?_, hdrawn, ?_⟩
  · intro hpool
    rw [hmethod, reassignSelect_empty s id oldReviewerID pr members (none, "") w5 hpool]
  · intro hswap hreread r hr
    by_cases hpool : eligiblePool pr oldReviewerID members = []
    · rw [hmethod, reassignSelect_empty s id oldReviewerID pr members (none, "") w5 hpool] at hr
      simp only [Option.some.injEq] at hr
      rw [← hr]
      simp [hpool]
    · by_cases hrange :
          0 ≤ (s.random.Intn (eligiblePool pr oldReviewerID members).length w5).1 ∧
          (s.random.Intn (eligiblePool pr oldReviewerID members).length w5).1 <
            (eligiblePool pr oldReviewerID members).length
      · obtain ⟨i, hi⟩ := Int.eq_ofNat_of_zero_le hrange.1
        have hlt : i < (eligiblePool pr oldReviewerID members).length := by omega
        have hu : (eligiblePool pr oldReviewerID members)[i]? =
            some ((eligiblePool pr oldReviewerID members)[i]) := List.getElem?_eq_getElem hlt
        have heq := hdrawn i _ hi hu
        rw [heq] at hr
        have h1 := hswap id oldReviewerID ((eligiblePool pr oldReviewerID members)[i]).ID
          (s.random.Intn (eligiblePool pr oldReviewerID members).length w5).2
        have h2 := hreread id
          (s.pullRequestRepository.ReassignReviewer id oldReviewerID
            ((eligiblePool pr oldReviewerID members)[i]).ID
            (s.random.Intn (eligiblePool pr oldReviewerID members).length w5).2).2
        constructor
        · intro herr
          exfalso
          split at hr
          · rename_i e he
            simp only [Option.some.injEq] at hr
            rw [← hr] at herr
            simp only [Option.some.injEq] at herr
            rw [herr] at he
            exact h1 he
          · split at hr
            · rename_i e he
              simp only [Option.some.injEq] at hr
              rw [← hr] at herr
              simp only [Option.some.injEq] at herr
              rw [herr] at he
              exact h2 he
            · simp only [Option.some.injEq] at hr
              rw [← hr] at herr
              exact absurd herr (by simp)
        · intro h
          exact absurd h hpool
      · rw [hmethod, reassignSelect_out_of_range s id oldReviewerID pr members (none, "") w5
          hpool hrange] at hr
        exact absurd hr (by simp)

/-- C11 at a concrete input, the test "successfully reassign reviewer": the pool is
"reviewer2", "user3", `Intn` is called once on 2 and returns 0, the swap is requested
for "reviewer2", which is returned with the pull request read again. -/
theorem ReassignReviewer_candidate_selection_witness :
    (recordingPullRequestService reassignAnswers (some (mockTxManager none))).ReassignReviewer
        "pull-request-1" "reviewer1" [] =
      some ((some (testPullRequest ["reviewer2"]), "reviewer2", none),
        [Call.PullRequestGetByID "pull-request-1", Call.UserGetByID "reviewer1",
          Call.UserGetByID "author1", Call.TeamGetByName "backend",
          Call.UserGetUsersByTeam "backend", Call.Intn 2,
          Call.PullRequestReassignReviewer "pull-request-1" "reviewer1" "reviewer2",
          Call.PullRequestGetByID "pull-request-1"]) :=
  ((ReassignReviewer_candidate_selection
      (recordingPullRequestService reassignAnswers (some (mockTxManager none)))
      (mockTxManager none) "pull-request-1" "reviewer1" [] _ _ _ _ _
      (testPullRequest ["reviewer1"])
      { ID := "reviewer1", Username := "reviewer1", Team := "backend", IsActive := true }
      testAuthor { Name := "backend" }
      [{ ID := "reviewer2", Username := "reviewer2", Team := "backend", IsActive := true },
        { ID := "user3", Username := "user3", Team := "backend", IsActive := true }]
      rfl (fun _ _ _ => rfl) rfl rfl rfl (by decide) rfl rfl rfl).2.2.1 0
      { ID := "reviewer2", Username := "reviewer2", Team := "backend", IsActive := true }
      (by decide) (by decide)).trans (by decide)

/-- C12: error precedence of `ReassignReviewer`, under a transaction manager that runs
the operation and returns its error.  The error of the pull-request lookup, unchanged;
otherwise `ErrPRMerged` when the pull request is merged; otherwise `ErrUserNotFound` when
the lookup of the old reviewer fails; otherwise `ErrNotAssigned` when the old reviewer is
not a current reviewer; otherwise the error of the author, team or member lookup,
unchanged; otherwise `ErrNoCandidate` when the eligible pool is empty.  On each of these
paths the world is the one the last lookup left: no swap is requested. -/
theorem ReassignReviewer_error_precedence {ω : Type} (s : pullRequestService ω)
    (tx : TxManager ω) (id : PullRequestID) (oldReviewerID : UserID) (w : ω)
    (htx : s.txManager = some tx)
    (hrun : ∀ (κ : Type) (operation : κ × ω → Option (Option Error × (κ × ω)))
      (st : κ × ω), tx.Do operation st = operation st) :
    (∀ found e1 w1, s.pullRequestRepository.GetByID id w = ((found, some e1), w1) →
      s.ReassignReviewer id oldReviewerID w = some ((none, "", some e1), w1)) ∧
    (∀ pr w1, s.pullRequestRepository.GetByID id w = ((some pr, none), w1) →
      (pr.Status = StatusMerged →
        s.ReassignReviewer id oldReviewerID w = some ((none, "", some Error.ErrPRMerged), w1)) ∧
      (pr.Status ≠ StatusMerged →
        (∀ u e2 w2, s.userRepository.GetByID oldReviewerID w1 = ((u, some e2), w2) →
          s.ReassignReviewer id oldReviewerID w =
            some ((none, "", some Error.ErrUserNotFound), w2)) ∧
        (∀ u w2, s.userRepository.GetByID oldReviewerID w1 = ((u, none), w2) →
          (oldReviewerID ∉ pr.Reviewers →
            s.ReassignReviewer id oldReviewerID w =
              some ((none, "", some Error.ErrNotAssigned), w2)) ∧
          (oldReviewerID ∈ pr.Reviewers →
            (∀ a e3 w3, s.userRepository.GetByID pr.AuthorID w2 = ((a, some e3), w3) →
              s.ReassignReviewer id oldReviewerID w = some ((none, "", some e3), w3)) ∧
            (∀ author w3, s.userRepository.GetByID pr.AuthorID w2 = ((author, none), w3) →
              (∀ t e4 w4, s.teamRepository.GetByName author.Team w3 = ((t, some e4), w4) →
                s.ReassignReviewer id oldReviewerID w = some ((none, "", some e4), w4)) ∧
              (∀ team w4, s.teamRepository.GetByName author.Team w3 = ((team, none), w4) →
                (∀ l e5 w5,
                  s.userRepository.GetUsersByTeam team.Name w4 = ((l, some e5), w5) →
                  s.ReassignReviewer id oldReviewerID w = some ((none, "", some e5), w5)) ∧
                (∀ members w5,
                  s.userRepository.GetUsersByTeam team.Name w4 = ((members, none), w5) →
                  eligiblePool pr oldReviewerID members = [] →
                  s.ReassignReviewer id oldReviewerID w =
                    some ((none, "", some Error.ErrNoCandidate), w5)))))))) := by
  rw [ReassignReviewer_of_run s tx id oldReviewerID w htx hrun]
  refine ⟨?_, ?_⟩
  · intro found e1 w1 h1
    unfold pullRequestService.reassignOperation
    simp only [h1]
  · intro pr w1 h1
    refine ⟨?_, ?_⟩
    · intro hm
      have hm2 : pr.IsMerged = true := (IsMerged_iff pr).2 hm
      unfold pullRequestService.reassignOperation
      simp only [h1, hm2, if_true]
    · intro hst
      have hm2 : ¬ pr.IsMerged = true := fun h => hst ((IsMerged_iff pr).1 h)
      refine ⟨?_, ?_⟩
      · intro u e2 w2 h2
        unfold pullRequestService.reassignOperation
        simp only [h1, hm2, if_false, h2]
        simp
      · intro u w2 h2
        refine ⟨?_, ?_⟩
        · intro hno
          have hr : pr.IsReviewer oldReviewerID = false := by
            cases hb : pr.IsReviewer oldReviewerID
            · rfl
            · exact absurd ((IsReviewer_iff pr oldReviewerID).1 hb) hno
          unfold pullRequestService.reassignOperation
          simp only [h1, hm2, if_false, h2, hr]
          simp
        · intro hyes
          have hr : ¬ pr.IsReviewer oldReviewerID = false := by
            rw [(IsReviewer_iff pr oldReviewerID).2 hyes]
            simp
          have hop : pullRequestService.reassignOperation s id oldReviewerID ((none, ""), w) =
              pullRequestService.reassignLookups s id oldReviewerID pr (none, "") w2 := by
            unfold pullRequestService.reassignOperation
            simp only [h1, hm2, if_false, h2, hr]
            simp
          rw [hop]
          unfold pullRequestService.reassignLookups
          refine ⟨?_, ?_⟩
          · intro a e3 w3 h3
            simp only [h3]
          · intro author w3 h3
            refine ⟨?_, ?_⟩
            · intro t e4 w4 h4
              simp only [h3, h4]
            · intro team w4 h4
              refine ⟨?_, ?_⟩
              · intro l e5 w5 h5
                simp only [h3, h4, h5]
              · intro members w5 h5 hpool
                simp only [h3, h4, h5,
                  reassignSelect_empty s id oldReviewerID pr members (none, "") w5 hpool]

/-- C12 at a concrete input, the test "fail when no candidates available": the calls
are the five lookups, and no swap. -/
theorem ReassignReviewer_error_precedence_witness :
    (recordingPullRequestService noCandidateAnswers
        (some (mockTxManager none))).ReassignReviewer "pull-request-1" "reviewer1" [] =
      some ((none, "", some Error.ErrNoCandidate),
        [Call.PullRequestGetByID "pull-request-1", Call.UserGetByID "reviewer1",
          Call.UserGetByID "author1", Call.TeamGetByName "backend",
          Call.UserGetUsersByTeam "backend"]) :=
  ((((((((ReassignReviewer_error_precedence
      (recordingPullRequestService noCandidateAnswers (some (mockTxManager none)))
      (mockTxManager none) "pull-request-1" "reviewer1" [] rfl (fun _ _ _ => rfl)).2
      (testPullRequest ["reviewer1"]) _ rfl).2 (by decide)).2
      { ID := "reviewer1", Username := "reviewer1", Team := "backend", IsActive := true }
      _ rfl).2 (by decide)).2 testAuthor _ rfl).2 { Name := "backend" } _ rfl).2
      [testAuthor] _ rfl (by decide))

/-- C13: error precedence of `Create`, under a transaction manager that runs the
operation and returns its error.  `ErrPRExists` when the pull-request lookup succeeds;
otherwise `ErrUserNotFound` when the author lookup fails; otherwise the error of the
team lookup, unchanged; otherwise `ErrAuthorNotActive` when the author is not active;
otherwise the error of the member fetch, unchanged; otherwise, the swaps of `Shuffle`
being in range, the error of the persist, unchanged.  The team lookup is judged before
the active flag. -/
theorem Create_error_precedence {ω : Type} (s : pullRequestService ω) (tx : TxManager ω)
    (id : PullRequestID) (name : String) (authorID : UserID) (w : ω)
    (htx : s.txManager = some tx)
    (hrun : ∀ (κ : Type) (operation : κ × ω → Option (Option Error × (κ × ω)))
      (st : κ × ω), tx.Do operation st = operation st) :
    (∀ found w1, s.pullRequestRepository.GetByID id w = ((found, none), w1) →
      s.Create id name authorID w = some ((none, some Error.ErrPRExists), w1)) ∧
    (∀ found e1 w1, s.pullRequestRepository.GetByID id w = ((found, some e1), w1) →
      (∀ u e2 w2, s.userRepository.GetByID authorID w1 = ((u, some e2), w2) →
        s.Create id name authorID w = some ((none, some Error.ErrUserNotFound), w2)) ∧
      (∀ author w2, s.userRepository.GetByID authorID w1 = ((author, none), w2) →
        (∀ t e3 w3, s.teamRepository.GetByName author.Team w2 = ((t, some e3), w3) →
          s.Create id name authorID w = some ((none, some e3), w3)) ∧
        (∀ team w3, s.teamRepository.GetByName author.Team w2 = ((team, none), w3) →
          (author.IsActive = false →
            s.Create id name authorID w = some ((none, some Error.ErrAuthorNotActive), w3)) ∧
          (author.IsActive = true →
            (∀ l e4 w4, s.userRepository.GetUsersByTeam team.Name w3 = ((l, some e4), w4) →
              s.Create id name authorID w = some ((none, some e4), w4)) ∧
            (∀ members w4,
              s.userRepository.GetUsersByTeam team.Name w3 = ((members, none), w4) →
              (∀ p ∈ (s.random.Shuffle
                  (toUserIDs (filterActiveUsersExcludeAuthor authorID members)).length
                  (s.timeProvider.Now w4).2).1,
                0 ≤ p.1 ∧
                p.1 < (toUserIDs (filterActiveUsersExcludeAuthor authorID members)).length ∧
                0 ≤ p.2 ∧
                p.2 < (toUserIDs (filterActiveUsersExcludeAuthor authorID members)).length) →
              ∃ (pr : PullRequest) (w5 : ω),
                (∀ e5, (s.pullRequestRepository.Create pr w5).1 = some e5 →
                  s.Create id name authorID w =
                    some ((none, some e5), (s.pullRequestRepository.Create pr w5).2)) ∧
                ((s.pullRequestRepository.Create pr w5).1 = none →
                  s.Create id name authorID w =
                    some ((some pr, none), (s.pullRequestRepository.Create pr w5).2))))))) := by
  have hcreate : s.Create id name authorID w =
      match pullRequestService.createOperation s id name authorID (none, w) with
      | none => none
      | some (some err, (_, w1)) => some ((none, some err), w1)
      | some (none, (resultPullRequest, w1)) => some ((resultPullRequest, none), w1) := by
    unfold pullRequestService.Create
    rw [htx]
    simp only [hrun]
  rw [hcreate]
  unfold pullRequestService.createOperation
  refine ⟨?_, ?_⟩
  · intro found w1 h1
    simp only [h1]
    simp
  · intro found e1 w1 h1
    refine ⟨?_, ?_⟩
    · intro u e2 w2 h2
      simp only [h1, h2]
      simp
    · intro author w2 h2
      refine ⟨?_, ?_⟩
      · intro t e3 w3 h3
        simp only [h1, h2, h3]
        simp
      · intro team w3 h3
        refine ⟨?_, ?_⟩
        · intro hact
          simp only [h1, h2, h3, hact]
          simp
        · intro hact
          refine ⟨?_, ?_⟩
          · intro l e4 w4 h4
            simp only [h1, h2, h3, h4, hact]
            simp
          · intro members w4 h4 hrange
            obtain ⟨pr, w5, hp⟩ := createAssign_persists s id name authorID members w4 hrange
            refine ⟨pr, w5, ?_, ?_⟩
            · intro e5 h5
              simp only [h1, h2, h3, h4, hact, hp, pullRequestService.createPersist, h5]
              simp
            · intro h5
              simp only [h1, h2, h3, h4, hact, hp, pullRequestService.createPersist, h5]
              simp

/-- C13 at a concrete input: no pull request is found, the author is not active and the
lookup of the team fails with `ErrTeamNotFound`; `Create` fails with the error of the
team lookup after three calls. -/
theorem Create_error_precedence_witness :
    (recordingPullRequestService
        { noAnswers with
          userGetByID := fun _ =>
            ({ ID := "author1", Username := "author", Team := "backend", IsActive := false },
              none) }
        (some (mockTxManager none))).Create "pull-request-1" "Test Pull Request" "author1" [] =
      some ((none, some Error.ErrTeamNotFound),
        [Call.PullRequestGetByID "pull-request-1", Call.UserGetByID "author1",
          Call.TeamGetByName "backend"]) :=
  ((((Create_error_precedence
      (recordingPullRequestService
        { noAnswers with
          userGetByID := fun _ =>
            ({ ID := "author1", Username := "author", Team := "backend", IsActive := false },
              none) }
        (some (mockTxManager none)))
      (mockTxManager none) "pull-request-1" "Test Pull Request" "author1" [] rfl
      (fun _ _ _ => rfl)).2 none Error.ErrPRNotFound _ rfl).2
      { ID := "author1", Username := "author", Team := "backend", IsActive := false } _ rfl).1
      { Name := "" } Error.ErrTeamNotFound _ rfl)

/-- C17: the method `Merge` of the service.  When the lookup fails it returns no pull
request and the error of the lookup, and the world the lookup left (no `Save`); when
`Save` fails it returns no pull request and the error of `Save`; otherwise it returns the
pull request found, after the entity's `Merge` at the reading of the clock: its status
is MERGED, its `mergedAt` is that reading when it was OPEN, and it is the pull request
found, unchanged, when that was already MERGED. -/
theorem Merge_service {ω : Type} (s : pullRequestService ω) (id : PullRequestID) (w : ω) :
    (∀ found e w1, s.pullRequestRepository.GetByID id w = ((found, some e), w1) →
      s.Merge id w = some ((none, some e), w1)) ∧
    (∀ pr w1, s.pullRequestRepository.GetByID id w = ((some pr, none), w1) →
      (∀ e, (s.pullRequestRepository.Save (pr.Merge (s.timeProvider.Now w1).1)
          (s.timeProvider.Now w1).2).1 = some e →
        s.Merge id w = some ((none, some e),
          (s.pullRequestRepository.Save (pr.Merge (s.timeProvider.Now w1).1)
            (s.timeProvider.Now w1).2).2)) ∧
      ((s.pullRequestRepository.Save (pr.Merge (s.timeProvider.Now w1).1)
          (s.timeProvider.Now w1).2).1 = none →
        s.Merge id w = some ((some (pr.Merge (s.timeProvider.Now w1).1), none),
          (s.pullRequestRepository.Save (pr.Merge (s.timeProvider.Now w1).1)
            (s.timeProvider.Now w1).2).2)) ∧
      (pr.Merge (s.timeProvider.Now w1).1).Status = StatusMerged ∧
      (pr.Merge (s.timeProvider.Now w1).1).ID = pr.ID ∧
      (pr.Merge (s.timeProvider.Now w1).1).reviewers = pr.reviewers ∧
      (pr.Status = StatusOpen →
        (pr.Merge (s.timeProvider.Now w1).1).MergedAt = some (s.timeProvider.Now w1).1) ∧
      (pr.Status = StatusMerged → pr.Merge (s.timeProvider.Now w1).1 = pr)) := by
  refine ⟨?_, ?_⟩
  · intro found e w1 h1
    unfold pullRequestService.Merge
    simp only [h1]
  · intro pr w1 h1
    refine ⟨?_, ?_, ?_, ?_, ?_, ?_, ?_⟩
    · intro e he
      unfold pullRequestService.Merge
      simp only [h1, he]
    · intro he
      unfold pullRequestService.Merge
      simp only [h1, he]
    · exact (Merge_eq pr _).2.2.1
    · unfold PullRequest.Merge
      split <;> rfl
    · exact (Merge_eq pr _).1
    · intro hopen
      have hst : pr.Status ≠ StatusMerged := by
        rw [hopen]
        decide
      simp [PullRequest.Merge, hst]
    · intro hm
      simp [PullRequest.Merge, hm]

/-- C17 at concrete inputs: the test "fail when pull request not found", where the only
call is the lookup, and a merge of a pull request merged at 7 when the clock reads 42. -/
theorem Merge_service_witness :
    (recordingPullRequestService noAnswers none).Merge "pull-request-1" [] =
      some ((none, some Error.ErrPRNotFound), [Call.PullRequestGetByID "pull-request-1"]) ∧
    (recordingPullRequestService
        (mergeAnswers { testPullRequest [] with Status := StatusMerged, MergedAt := some 7 })
        none).Merge "pull-request-1" [] =
      some ((some { testPullRequest [] with Status := StatusMerged, MergedAt := some 7 }, none),
        [Call.PullRequestGetByID "pull-request-1", Call.Now,
          Call.PullRequestSave
            { testPullRequest [] with Status := StatusMerged, MergedAt := some 7 }]) :=
  ⟨(Merge_service (recordingPullRequestService noAnswers none) "pull-request-1" []).1
      none Error.ErrPRNotFound _ rfl,
    (((Merge_service (recordingPullRequestService
        (mergeAnswers { testPullRequest [] with Status := StatusMerged, MergedAt := some 7 })
        none) "pull-request-1" []).2
      { testPullRequest [] with Status := StatusMerged, MergedAt := some 7 } _ rfl).2.1
      rfl).trans (by decide)⟩

/-- C18: whatever the transaction manager does, when `Create` returns an error it
returns no pull request, and when `ReassignReviewer` returns an error it returns no pull
request and the empty reviewer ID. -/
theorem no_result_with_error {ω : Type} (s : pullRequestService ω) (w : ω) :
    (∀ (id : PullRequestID) (name : String) (authorID : UserID)
        (r : (Option PullRequest × Option Error) × ω),
      s.Create id name authorID w = some r → r.1.2 ≠ none → r.1.1 = none) ∧
    (∀ (id : PullRequestID) (oldReviewerID : UserID)
        (r : (Option PullRequest × UserID × Option Error) × ω),
      s.ReassignReviewer id oldReviewerID w = some r → r.1.2.2 ≠ none →
        r.1.1 = none ∧ r.1.2.1 = "") := by
  refine ⟨?_, ?_⟩
  · intro id name authorID r hr herr
    unfold pullRequestService.Create at hr
    cases htx : s.txManager with
    | none =>
      simp only [htx, Option.some.injEq] at hr
      rw [← hr]
    | some tx =>
      simp only [htx] at hr
      cases hdo : tx.Do (pullRequestService.createOperation s id name authorID) (none, w) with
      | none => simp [hdo] at hr
      | some res =>
        obtain ⟨e, c, w1⟩ := res
        cases e with
        | none =>
          simp only [hdo, Option.some.injEq] at hr
          rw [← hr] at herr
          exact absurd rfl herr
        | some err =>
          simp only [hdo, Option.some.injEq] at hr
          rw [← hr]
  · intro id oldReviewerID r hr herr
    unfold pullRequestService.ReassignReviewer at hr
    cases htx : s.txManager with
    | none =>
      simp only [htx, Option.some.injEq] at hr
      rw [← hr]
      exact ⟨rfl, rfl⟩
    | some tx =>
      simp only [htx] at hr
      cases hdo : tx.Do (pullRequestService.reassignOperation s id oldReviewerID)
          ((none, ""), w) with
      | none => simp [hdo] at hr
      | some res =>
        obtain ⟨e, ⟨c1, c2⟩, w1⟩ := res
        cases e with
        | none =>
          simp only [hdo, Option.some.injEq] at hr
          rw [← hr] at herr
          exact absurd rfl herr
        | some err =>
          simp only [hdo, Option.some.injEq] at hr
          rw [← hr]
          exact ⟨rfl, rfl⟩

/-- C18 at concrete inputs: a manager that fails without running the operation, as in
the test "fail when pull request already exists", and the manager of the program when the
commit fails after the operation of `ReassignReviewer` has run to its end. -/
theorem no_result_with_error_witness :
    ((recordingPullRequestService noAnswers
        (some (mockTxManager (some Error.ErrPRExists)))).Create
        "pull-request-1" "Test Pull Request" "author1" [] =
      some ((none, some Error.ErrPRExists), [])) ∧
    (∀ r, (recordingPullRequestService reassignAnswers
          (some (NewTxManager (recordingSqlDB none none (some "commit failed"))))).ReassignReviewer
          "pull-request-1" "reviewer1" [] = some r →
      r.1.2.2 ≠ none → r.1.1 = none ∧ r.1.2.1 = "") ∧
    ((recordingPullRequestService reassignAnswers
          (some (NewTxManager (recordingSqlDB none none (some "commit failed"))))).ReassignReviewer
          "pull-request-1" "reviewer1" []).map (fun r => r.1) =
      some (none, "", some (Error.wrapped "failed to commit transaction: %w"
        (Error.infra "commit failed"))) :=
  ⟨by decide,
    (no_result_with_error (recordingPullRequestService reassignAnswers
      (some (NewTxManager (recordingSqlDB none none (some "commit failed"))))) []).2
      "pull-request-1" "reviewer1",
    by decide⟩

/-- C20: the method `Create` of the team service, under a transaction manager that
runs the operation and returns its error.  `ErrTeamExists` when the team lookup
succeeds; the error of the lookup, unchanged and with no further call, when it is not
`ErrTeamNotFound`; otherwise the team is created, the members are upserted and read
again, and the first error among these three steps is returned; on success the result
is the team of the given name with the members as read again.  When none of the four
calls fails with `ErrTeamExists` itself, the call fails with `ErrTeamExists` if and only
if the lookup succeeds. -/
theorem teamCreate_precedence {ω : Type} (s : teamService ω) (tx : TxManager ω)
    (teamName : TeamName) (members : List User) (w : ω)
    (htx : s.txManager = some tx)
    (hrun : ∀ (κ : Type) (operation : κ × ω → Option (Option Error × (κ × ω)))
      (st : κ × ω), tx.Do operation st = operation st) :
    (∀ t w1, s.teamRepository.GetByName teamName w = ((t, none), w1) →
      s.Create teamName members w =
        some (({ Name := "" }, none, some Error.ErrTeamExists), w1)) ∧
    (∀ t e1 w1, s.teamRepository.GetByName teamName w = ((t, some e1), w1) →
      (errorsIs e1 Error.ErrTeamNotFound = false →
        s.Create teamName members w = some (({ Name := "" }, none, some e1), w1)) ∧
      (errorsIs e1 Error.ErrTeamNotFound = true →
        (∀ e2 w2, s.teamRepository.Create { Name := teamName } w1 = (some e2, w2) →
          s.Create teamName members w = some (({ Name := "" }, none, some e2), w2)) ∧
        (∀ w2, s.teamRepository.Create { Name := teamName } w1 = (none, w2) →
          (∀ e3 w3, s.userRepository.UpsertMembers teamName members w2 = (some e3, w3) →
            s.Create teamName members w = some (({ Name := "" }, none, some e3), w3)) ∧
          (∀ w3, s.userRepository.UpsertMembers teamName members w2 = (none, w3) →
            (∀ l e4 w4, s.userRepository.GetUsersByTeam teamName w3 = ((l, some e4), w4) →
              s.Create teamName members w = some (({ Name := "" }, some l, some e4), w4)) ∧
            (∀ l w4, s.userRepository.GetUsersByTeam teamName w3 = ((l, none), w4) →
              s.Create teamName members w =
                some (({ Name := teamName }, some l, none), w4)))))) ∧
    ((∀ x, (s.teamRepository.GetByName teamName x).1.2 ≠ some Error.ErrTeamExists) →
      (∀ t x, (s.teamRepository.Create t x).1 ≠ some Error.ErrTeamExists) →
      (∀ n l x, (s.userRepository.UpsertMembers n l x).1 ≠ some Error.ErrTeamExists) →
      (∀ n x, (s.userRepository.GetUsersByTeam n x).1.2 ≠ some Error.ErrTeamExists) →
      ∀ r, s.Create teamName members w = some r →
        (r.1.2.2 = some Error.ErrTeamExists ↔
          (s.teamRepository.GetByName teamName w).1.2 = none)) := by
  rw [teamCreate_of_run s tx teamName members w htx hrun]
  unfold teamService.createOperation
  refine ⟨?_, ?_, ?_⟩
  · intro t w1 h1
    simp only [h1]
  · intro t e1 w1 h1
    refine ⟨?_, ?_⟩
    · intro hnot
      simp only [h1, hnot, if_true]
    · intro his
      refine ⟨?_, ?_⟩
      · intro e2 w2 h2
        simp [h1, his, h2]
      · intro w2 h2
        refine ⟨?_, ?_⟩
        · intro e3 w3 h3
          simp [h1, his, h2, h3]
        · intro w3 h3
          refine ⟨?_, ?_⟩
          · intro l e4 w4 h4
            simp [h1, his, h2, h3, h4]
          · intro l w4 h4
            simp [h1, his, h2, h3, h4]
  · intro hget hcreate hupsert hreread r hr
    cases hfound : (s.teamRepository.GetByName teamName w).1.2 with
    | none =>
      simp only [hfound, Option.some.injEq] at hr
      rw [← hr]
      simp
    | some e1 =>
      have hne1 : e1 ≠ Error.ErrTeamExists := by
        intro h
        apply hget w
        rw [hfound, h]
      simp only [hfound] at hr
      by_cases his : errorsIs e1 Error.ErrTeamNotFound = false
      · simp only [his, if_true, Option.some.injEq] at hr
        rw [← hr]
        simp [hne1]
      · have his2 : errorsIs e1 Error.ErrTeamNotFound = true := by simpa using his
        simp only [his2, Bool.true_eq_false, if_false] at hr
        have hc := hcreate { Name := teamName } (s.teamRepository.GetByName teamName w).2
        cases hcr : (s.teamRepository.Create { Name := teamName }
            (s.teamRepository.GetByName teamName w).2).1 with
        | some e2 =>
          simp only [hcr, Option.some.injEq] at hr
          rw [← hr]
          rw [hcr] at hc
          simpa using hc
        | none =>
          simp only [hcr] at hr
          have hu := hupsert teamName members
            (s.teamRepository.Create { Name := teamName }
              (s.teamRepository.GetByName teamName w).2).2
          cases hup : (s.userRepository.UpsertMembers teamName members
              (s.teamRepository.Create { Name := teamName }
                (s.teamRepository.GetByName teamName w).2).2).1 with
          | some e3 =>
            simp only [hup, Option.some.injEq] at hr
            rw [← hr]
            rw [hup] at hu
            simpa using hu
          | none =>
            simp only [hup] at hr
            have hrr := hreread teamName
              (s.userRepository.UpsertMembers teamName members
                (s.teamRepository.Create { Name := teamName }
                  (s.teamRepository.GetByName teamName w).2).2).2
            cases hre : (s.userRepository.GetUsersByTeam teamName
                (s.userRepository.UpsertMembers teamName members
                  (s.teamRepository.Create { Name := teamName }
                    (s.teamRepository.GetByName teamName w).2).2).2).1.2 with
            | some e4 =>
              simp only [hre, Option.some.injEq] at hr
              rw [← hr]
              rw [hre] at hrr
              simpa using hrr
            | none =>
              simp only [hre, Option.some.injEq] at hr
              rw [← hr]
              simp

/-- C20 at a concrete input, the test "successfully create team with members": the
four calls in order, and the members returned are those read again. -/
theorem teamCreate_precedence_witness :
    (recordingTeamService teamAnswers (some (mockTxManager none))).Create "backend" [] [] =
      some (({ Name := "backend" },
          some [{ ID := "user1", Username := "Alice", Team := "backend", IsActive := true }],
          none),
        [Call.TeamGetByName "backend", Call.TeamCreate { Name := "backend" },
          Call.UserUpsertMembers "backend" [], Call.UserGetUsersByTeam "backend"]) :=
  ((((((teamCreate_precedence (recordingTeamService teamAnswers (some (mockTxManager none)))
      (mockTxManager none) "backend" [] [] rfl (fun _ _ _ => rfl)).2.1
      { Name := "" } Error.ErrTeamNotFound _ rfl).2 rfl).2 _ rfl).2 _ rfl).2
      [{ ID := "user1", Username := "Alice", Team := "backend", IsActive := true }] _ rfl)

/-- C15 on the code: a failure of the infrastructure in a lookup does not come out of
the service.  When the existence lookup of `Create` fails with "connection refused",
`Create` goes on and returns the new pull request without an error; when the author
lookup of `Create`, or the lookup of the old reviewer in `ReassignReviewer`, fails with
"connection refused", the call fails with `ErrUserNotFound`. -/
theorem lookup_failure_not_surfaced :
    (recordingPullRequestService
        { createAnswers with
          pullRequestGetByID := fun _ => (none, some (Error.infra "connection refused")) }
        (some (mockTxManager none))).Create "pull-request-1" "Test Pull Request" "author1" [] =
      some ((some { NewPullRequest "pull-request-1" "Test Pull Request" "author1" 42 with
          reviewers := ["user2", "user1"] }, none),
        [Call.PullRequestGetByID "pull-request-1", Call.UserGetByID "author1",
          Call.TeamGetByName "backend", Call.UserGetUsersByTeam "backend", Call.Now,
          Call.Shuffle 2,
          Call.PullRequestCreate
            { NewPullRequest "pull-request-1" "Test Pull Request" "author1" 42 with
              reviewers := ["user2", "user1"] }]) ∧
    (recordingPullRequestService
        { createAnswers with
          userGetByID := fun _ => (testAuthor, some (Error.infra "connection refused")) }
        (some (mockTxManager none))).Create "pull-request-1" "Test Pull Request" "author1" [] =
      some ((none, some Error.ErrUserNotFound),
        [Call.PullRequestGetByID "pull-request-1", Call.UserGetByID "author1"]) ∧
    (recordingPullRequestService
        { reassignAnswers with
          userGetByID := fun _ => (testAuthor, some (Error.infra "connection refused")) }
        (some (mockTxManager none))).ReassignReviewer "pull-request-1" "reviewer1" [] =
      some ((none, "", some Error.ErrUserNotFound),
        [Call.PullRequestGetByID "pull-request-1", Call.UserGetByID "reviewer1"]) := by
  refine ⟨?_, ?_, ?_⟩ <;> decide

/-- C16, as stated, fails: the operation returns `ErrPRExists`, the transaction is
rolled back, and `Do` returns an error that wraps `ErrPRExists`, another value. -/
theorem txManagerDo_counterexample :
    ¬ (∀ (db : SqlDB (List Call))
        (operation : Unit × List Call → Option (Option Error × (Unit × List Call)))
        (st st1 : Unit × List Call) (e : Error),
        (db.BeginTx st.2).1 = none →
        operation (st.1, (db.BeginTx st.2).2) = some (some e, st1) →
        ∃ w2, txManagerDo db operation st = some (some e, (st1.1, w2))) := by
  intro h
  obtain ⟨w2, hw⟩ := h (recordingSqlDB none none none)
    (fun st => some (some Error.ErrPRExists, st)) ((), []) ((), [Call.BeginTx])
    Error.ErrPRExists rfl rfl
  have hdo : txManagerDo (recordingSqlDB none none none)
      (fun st => some (some Error.ErrPRExists, st)) (((), []) : Unit × List Call) =
      some (some (Error.wrapped "operation failed: %w" Error.ErrPRExists),
        ((), [Call.BeginTx, Call.Rollback])) := by decide
  rw [hdo] at hw
  simp at hw

/-- C16, amended: when the transaction begins and the operation returns an error `e`,
`Do` rolls the transaction back and returns an error that wraps `e`, so that `errors.Is`
finds `e` in it, whose text is "operation failed: " and the text of `e`, followed by the
text of the rollback's error when the rollback fails; when the operation returns nil,
`Do` commits, and returns nil if the commit succeeds. -/
theorem txManagerDo_unit_of_work {ω κ : Type} (db : SqlDB ω)
    (operation : κ × ω → Option (Option Error × (κ × ω))) (st : κ × ω)
    (hbegin : (db.BeginTx st.2).1 = none) :
    (∀ e st1, operation (st.1, (db.BeginTx st.2).2) = some (some e, st1) →
      ∃ err, txManagerDo db operation st = some (some err, (st1.1, (db.Rollback st1.2).2)) ∧
        errorsIs err e = true ∧
        err = match (db.Rollback st1.2).1 with
          | none => Error.wrapped "operation failed: %w" e
          | some text => Error.wrapped ("operation failed: %w, rollback error: " ++ text) e) ∧
    (∀ st1, operation (st.1, (db.BeginTx st.2).2) = some (none, st1) →
      (db.Commit st1.2).1 = none →
      txManagerDo db operation st = some (none, (st1.1, (db.Commit st1.2).2))) := by
  refine ⟨?_, ?_⟩
  · intro e st1 hop
    cases hrb : (db.Rollback st1.2).1 with
    | none =>
      refine ⟨Error.wrapped "operation failed: %w" e, ?_, ?_, rfl⟩
      · unfold txManagerDo
        simp only [hbegin, hop, hrb]
      · simp [errorsIs, errorsIs_self]
    | some text =>
      refine ⟨Error.wrapped ("operation failed: %w, rollback error: " ++ text) e, ?_, ?_, rfl⟩
      · unfold txManagerDo
        simp only [hbegin, hop, hrb]
      · simp [errorsIs, errorsIs_self]
  · intro st1 hop hcommit
    unfold txManagerDo
    simp only [hbegin, hop, hcommit]

/-- C16, amended, at a concrete input: the operation fails with `ErrPRExists` and the
rollback fails with "connection lost". -/
theorem txManagerDo_unit_of_work_witness :
    ∃ err, txManagerDo (recordingSqlDB none (some "connection lost") none)
        (fun st => some (some Error.ErrPRExists, st)) (((), []) : Unit × List Call) =
        some (some err, ((), [Call.BeginTx, Call.Rollback])) ∧
      errorsIs err Error.ErrPRExists = true ∧
      err = Error.wrapped "operation failed: %w, rollback error: connection lost"
        Error.ErrPRExists :=
  ((txManagerDo_unit_of_work (recordingSqlDB none (some "connection lost") none)
    (fun st => some (some Error.ErrPRExists, st)) (((), []) : Unit × List Call) rfl).1
    Error.ErrPRExists ((), [Call.BeginTx]) rfl).imp
    (fun _ h => ⟨h.1, h.2.1, h.2.2.trans (by decide)⟩)

/-- C19 on the code: the transaction manager of the program runs the operation of
`Create` to its end and the commit fails.  `Create` returns the error of the commit
together with the team "backend" and the members read again, not the empty team and a
nil list. -/
theorem teamCreate_commit_failure :
    (recordingTeamService teamAnswers
        (some (NewTxManager (recordingSqlDB none none (some "commit failed"))))).Create
        "backend" [] [] =
      some (({ Name := "backend" },
          some [{ ID := "user1", Username := "Alice", Team := "backend", IsActive := true }],
          some (Error.wrapped "failed to commit transaction: %w" (Error.infra "commit failed"))),
        [Call.BeginTx, Call.TeamGetByName "backend", Call.TeamCreate { Name := "backend" },
          Call.UserUpsertMembers "backend" [], Call.UserGetUsersByTeam "backend",
          Call.Commit]) := by
  decide

/-- C14 on the code: `Create` of the program on a store where the insert of the
reviewer row fails after the insert of the pull-request row.  `Create` returns the
error, the transaction is rolled back, and the row of the pull request "pr-1" remains in
the store. -/
theorem Create_leaves_partial_write :
    (productionPullRequestService { Now := fun db => (42, db) }
        { Shuffle := fun _ db => ([], db), Intn := fun _ db => (0, db) }).Create
        "pr-1" "feature" "a1" partialFailureDatabase =
      some ((none, some (Error.wrapped "operation failed: %w"
          (Error.infra "failed to insert reviewer: connection reset"))),
        { partialFailureDatabase with
          pullRequests :=
            [{ ID := "pr-1", Name := "feature", AuthorID := "a1", Status := "OPEN",
               CreatedAt := 42, MergedAt := none }],
          faults := [] }) := by
  decide

/-- C21, as stated, fails: on the collaborators of the test "fail when no active
candidates" (the author is found and active, the members of the team are the author
alone), with a transaction manager that runs the operation, `Create` persists and
returns a pull request without reviewers and no error, not `ErrNoCandidate`. -/
theorem Create_no_candidate_counterexample :
    onlyAuthorAnswers.userGetByID "author1" = (testAuthor, none) ∧
    testAuthor.IsActive = true ∧
    onlyAuthorAnswers.userGetUsersByTeam "backend" = ([testAuthor], none) ∧
    (recordingPullRequestService onlyAuthorAnswers (some (mockTxManager none))).Create
        "pull-request-1" "Test Pull Request" "author1" [] =
      some ((some (NewPullRequest "pull-request-1" "Test Pull Request" "author1" 42), none),
        [Call.PullRequestGetByID "pull-request-1", Call.UserGetByID "author1",
          Call.TeamGetByName "backend", Call.UserGetUsersByTeam "backend", Call.Now,
          Call.PullRequestCreate
            (NewPullRequest "pull-request-1" "Test Pull Request" "author1" 42)]) ∧
    ¬ ∃ w, (recordingPullRequestService onlyAuthorAnswers (some (mockTxManager none))).Create
        "pull-request-1" "Test Pull Request" "author1" [] =
      some ((none, some Error.ErrNoCandidate), w) := by
  have hrun : (recordingPullRequestService onlyAuthorAnswers
      (some (mockTxManager none))).Create "pull-request-1" "Test Pull Request" "author1" [] =
      some ((some (NewPullRequest "pull-request-1" "Test Pull Request" "author1" 42), none),
        [Call.PullRequestGetByID "pull-request-1", Call.UserGetByID "author1",
          Call.TeamGetByName "backend", Call.UserGetUsersByTeam "backend", Call.Now,
          Call.PullRequestCreate
            (NewPullRequest "pull-request-1" "Test Pull Request" "author1" 42)]) := by
    decide
  refine ⟨rfl, rfl, rfl, hrun, ?_⟩
  rintro ⟨w, hw⟩
  rw [hrun] at hw
  simp at hw

/-- C21, amended: under a transaction manager that runs the operation and returns its
error, when no pull request is found, the author is found and active, the team and its
members are found, no member other than the author is active and the persist
succeeds, `Create` returns no error and a new OPEN pull request without reviewers;
neither `Shuffle` nor `AddReviewers` is reached. -/
theorem Create_without_candidates {ω : Type} (s : pullRequestService ω) (tx : TxManager ω)
    (id : PullRequestID) (name : String) (authorID : UserID) (w w1 w2 w3 w4 : ω)
    (found : Option PullRequest) (e : Error) (author : User) (team : Team)
    (members : List User)
    (htx : s.txManager = some tx)
    (hrun : ∀ (κ : Type) (operation : κ × ω → Option (Option Error × (κ × ω)))
      (st : κ × ω), tx.Do operation st = operation st)
    (hfound : s.pullRequestRepository.GetByID id w = ((found, some e), w1))
    (hauthor : s.userRepository.GetByID authorID w1 = ((author, none), w2))
    (hactive : author.IsActive = true)
    (hteam : s.teamRepository.GetByName author.Team w2 = ((team, none), w3))
    (hmembers : s.userRepository.GetUsersByTeam team.Name w3 = ((members, none), w4))
    (hnone : ∀ u ∈ members, u.IsActive = true → u.ID = authorID)
    (hpersist : (s.pullRequestRepository.Create
      (NewPullRequest id name authorID (s.timeProvider.Now w4).1)
      (s.timeProvider.Now w4).2).1 = none) :
    s.Create id name authorID w =
      some ((some (NewPullRequest id name authorID (s.timeProvider.Now w4).1), none),
        (s.pullRequestRepository.Create
          (NewPullRequest id name authorID (s.timeProvider.Now w4).1)
          (s.timeProvider.Now w4).2).2) ∧
    (NewPullRequest id name authorID (s.timeProvider.Now w4).1).Reviewers = [] ∧
    (NewPullRequest id name authorID (s.timeProvider.Now w4).1).Status = StatusOpen := by
  have hempty : filterActiveUsersExcludeAuthor authorID members = [] := by
    unfold filterActiveUsersExcludeAuthor
    rw [List.filter_eq_nil_iff]
    intro u hu
    by_cases ha : u.IsActive = true
    · simp [ha, hnone u hu ha]
    · simp [ha]
  refine ⟨?_, rfl, rfl⟩
  unfold pullRequestService.Create
  rw [htx]
  simp only [hrun]
  unfold pullRequestService.createOperation
  simp only [hfound, hauthor, hteam, hmembers, hactive]
  unfold pullRequestService.createAssign
  simp [hempty, pullRequestService.createPersist, hpersist]

/-- C21, amended, at a concrete input, the collaborators of the test "fail when no
active candidates": the calls end with the persist of a pull request without reviewers. -/
theorem Create_without_candidates_witness :
    (recordingPullRequestService onlyAuthorAnswers (some (mockTxManager none))).Create
        "pull-request-1" "Test Pull Request" "author1" [] =
      some ((some (NewPullRequest "pull-request-1" "Test Pull Request" "author1" 42), none),
        [Call.PullRequestGetByID "pull-request-1", Call.UserGetByID "author1",
          Call.TeamGetByName "backend", Call.UserGetUsersByTeam "backend", Call.Now,
          Call.PullRequestCreate
            (NewPullRequest "pull-request-1" "Test Pull Request" "author1" 42)]) :=
  (Create_without_candidates
    (recordingPullRequestService onlyAuthorAnswers (some (mockTxManager none)))
    (mockTxManager none) "pull-request-1" "Test Pull Request" "author1" [] _ _ _ _
    none Error.ErrPRNotFound testAuthor { Name := "backend" } [testAuthor]
    rfl (fun _ _ _ => rfl) rfl rfl rfl rfl rfl (by decide) rfl).1

/-- C25: without a transaction manager, `Create` and `ReassignReviewer` of the
pull-request service and `Create` of the team service fail with
`ErrTransactionRequired`, return nil (and the empty reviewer ID, the empty team), and
leave the world as it was: no collaborator is called. -/
theorem no_transaction_manager {ω : Type} (w : ω) :
    (∀ (s : pullRequestService ω) (id : PullRequestID) (name : String) (authorID : UserID),
      s.txManager = none →
      s.Create id name authorID w = some ((none, some Error.ErrTransactionRequired), w)) ∧
    (∀ (s : pullRequestService ω) (id : PullRequestID) (oldReviewerID : UserID),
      s.txManager = none →
      s.ReassignReviewer id oldReviewerID w =
        some ((none, "", some Error.ErrTransactionRequired), w)) ∧
    (∀ (s : teamService ω) (teamName : TeamName) (members : List User),
      s.txManager = none →
      s.Create teamName members w =
        some (({ Name := "" }, none, some Error.ErrTransactionRequired), w)) := by
  refine ⟨?_, ?_, ?_⟩
  · intro s id name authorID h
    unfold pullRequestService.Create
    rw [h]
  · intro s id oldReviewerID h
    unfold pullRequestService.ReassignReviewer
    rw [h]
  · intro s teamName members h
    unfold teamService.Create
    rw [h]

/-- C25 at concrete inputs, the tests "fail when txManager is nil": the list of the
calls stays empty. -/
theorem no_transaction_manager_witness :
    (recordingPullRequestService createAnswers none).Create
        "pull-request-1" "Test Pull Request" "author1" [] =
      some ((none, some Error.ErrTransactionRequired), []) ∧
    (recordingPullRequestService reassignAnswers none).ReassignReviewer
        "pull-request-1" "reviewer1" [] =
      some ((none, "", some Error.ErrTransactionRequired), []) ∧
    (recordingTeamService teamAnswers none).Create "backend" [] [] =
      some (({ Name := "" }, none, some Error.ErrTransactionRequired), []) :=
  ⟨(no_transaction_manager []).1 _ _ _ _ rfl, (no_transaction_manager []).2.1 _ _ _ rfl,
    (no_transaction_manager []).2.2 _ _ _ rfl⟩

/-- C27: the candidate filter of the service implies the preconditions of the entity.
For an OPEN pull request, a current reviewer `old` and any member list, the entity's
`ReassignReviewer` from `old` to any user that passes
`filterActiveUsersExcludeAuthorAndReviewer` returns nil. -/
theorem filter_implies_entity_preconditions (pr : PullRequest) (oldReviewerID : UserID)
    (members : List User) (u : User)
    (hopen : pr.Status = StatusOpen) (hold : oldReviewerID ∈ pr.Reviewers)
    (hu : u ∈ filterActiveUsersExcludeAuthorAndReviewer pr pr.AuthorID oldReviewerID members) :
    (pr.ReassignReviewer oldReviewerID u.ID).2 = none := by
  rw [filterActiveUsersExcludeAuthorAndReviewer_eq] at hu
  unfold eligiblePool at hu
  rw [List.mem_filter] at hu
  obtain ⟨_, hp⟩ := hu
  simp only [decide_eq_true_eq] at hp
  obtain ⟨_, hauthor, _, hnot⟩ := hp
  have hst : pr.Status ≠ StatusMerged := by
    rw [hopen]
    decide
  have hold2 : oldReviewerID ∈ pr.reviewers := hold
  have hnot2 : u.ID ∉ pr.reviewers := hnot
  rw [ReassignReviewer_eq]
  simp [hst, hold2, hauthor, hnot2]

/-- C27 at a concrete input: the pull request of the tests with reviewer "reviewer1",
and the member "reviewer2" of the test "successfully reassign reviewer". -/
theorem filter_implies_entity_preconditions_witness :
    ((testPullRequest ["reviewer1"]).ReassignReviewer "reviewer1" "reviewer2").2 = none :=
  filter_implies_entity_preconditions (testPullRequest ["reviewer1"]) "reviewer1"
    [{ ID := "reviewer2", Username := "reviewer2", Team := "backend", IsActive := true },
      { ID := "user3", Username := "user3", Team := "backend", IsActive := true }]
    { ID := "reviewer2", Username := "reviewer2", Team := "backend", IsActive := true }
    (by decide) (by decide) (by decide)

/-- C28: the entity's `ReassignReviewer` is atomic on failure.  When it returns an
error, the error is `ErrPRMerged`, `ErrNotAssigned` or `ErrNoCandidate`, and the pull
request, its reviewer list included, is as it was before the call. -/
theorem ReassignReviewer_failure_frame (pr : PullRequest) (oldReviewerID newReviewerID : UserID)
    (e : Error) (herr : (pr.ReassignReviewer oldReviewerID newReviewerID).2 = some e) :
    (pr.ReassignReviewer oldReviewerID newReviewerID).1 = pr ∧
    (e = Error.ErrPRMerged ∨ e = Error.ErrNotAssigned ∨ e = Error.ErrNoCandidate) := by
  rw [ReassignReviewer_eq] at herr ⊢
  by_cases hm : pr.Status = StatusMerged
  · simp only [hm, if_true, Option.some.injEq] at herr ⊢
    exact ⟨trivial, Or.inl herr.symm⟩
  · by_cases ho : oldReviewerID ∈ pr.reviewers
    · by_cases hn : newReviewerID = pr.AuthorID ∨ newReviewerID ∈ pr.reviewers
      · simp only [hm, if_false, ho, not_true_eq_false, hn, if_true,
          Option.some.injEq] at herr ⊢
        exact ⟨trivial, Or.inr (Or.inr herr.symm)⟩
      · simp [hm, ho, hn] at herr
    · simp only [hm, if_false, ho, not_false_eq_true, if_true, Option.some.injEq] at herr ⊢
      exact ⟨trivial, Or.inr (Or.inl herr.symm)⟩

/-- C28 at a concrete input, the test "fail when new reviewer is already assigned". -/
theorem ReassignReviewer_failure_frame_witness :
    ((testPullRequest ["user1", "user2"]).ReassignReviewer "user1" "user2").1 =
      testPullRequest ["user1", "user2"] ∧
    (Error.ErrNoCandidate = Error.ErrPRMerged ∨ Error.ErrNoCandidate = Error.ErrNotAssigned ∨
      Error.ErrNoCandidate = Error.ErrNoCandidate) :=
  ReassignReviewer_failure_frame (testPullRequest ["user1", "user2"]) "user1" "user2"
    Error.ErrNoCandidate (by decide)

/-- C22: `ToHTTPError` is a fixed mapping.  `ErrPRExists`, `ErrTeamExists`,
`ErrPRMerged`, `ErrNoCandidate`, `ErrNotAssigned` and `ErrAuthorNotActive` get status 409
with the code and message of that error; `ErrUserNotFound`, `ErrTeamNotFound` and
`ErrPRNotFound` get status 404 with the code NOT_FOUND; a wrapping with `%w` does not
change the response; nil, `ErrTransactionRequired` and an infrastructure error of any
text get status 500, the code INTERNAL_ERROR and the message "internal server error".
In terms of `errors.Is`: an error that matches one of the nine gets the response of the
one it matches, and every error that matches none of the nine gets the one response 500,
in which the error does not occur, so two such errors get equal responses. -/
theorem ToHTTPError_mapping :
    ToHTTPError (some Error.ErrPRExists) =
      (409, { Code := "PR_EXISTS", Message := "PR id already exists" }) ∧
    ToHTTPError (some Error.ErrTeamExists) =
      (409, { Code := "TEAM_EXISTS", Message := "team_name already exists" }) ∧
    ToHTTPError (some Error.ErrPRMerged) =
      (409, { Code := "PR_MERGED", Message := "cannot reassign on merged PR" }) ∧
    ToHTTPError (some Error.ErrNoCandidate) =
      (409, { Code := "NO_CANDIDATE", Message := "no active replacement candidate in team" }) ∧
    ToHTTPError (some Error.ErrNotAssigned) =
      (409, { Code := "NOT_ASSIGNED", Message := "reviewer is not assigned to this PR" }) ∧
    ToHTTPError (some Error.ErrAuthorNotActive) =
      (409, { Code := "AUTHOR_NOT_ACTIVE",
              Message := "user can not create PR with false active status" }) ∧
    ToHTTPError (some Error.ErrUserNotFound) =
      (404, { Code := "NOT_FOUND", Message := "resource not found" }) ∧
    ToHTTPError (some Error.ErrTeamNotFound) =
      (404, { Code := "NOT_FOUND", Message := "resource not found" }) ∧
    ToHTTPError (some Error.ErrPRNotFound) =
      (404, { Code := "NOT_FOUND", Message := "resource not found" }) ∧
    (∀ (text : String) (inner : Error),
      ToHTTPError (some (Error.wrapped text inner)) = ToHTTPError (some inner)) ∧
    ToHTTPError none =
      (500, { Code := "INTERNAL_ERROR", Message := "internal server error" }) ∧
    ToHTTPError (some Error.ErrTransactionRequired) =
      (500, { Code := "INTERNAL_ERROR", Message := "internal server error" }) ∧
    (∀ text : String, ToHTTPError (some (Error.infra text)) =
      (500, { Code := "INTERNAL_ERROR", Message := "internal server error" })) ∧
    (∀ e, errorsIs e Error.ErrPRExists = true →
      ToHTTPError (some e) = (409, { Code := "PR_EXISTS", Message := "PR id already exists" })) ∧
    (∀ e, errorsIs e Error.ErrTeamExists = true →
      ToHTTPError (some e) =
        (409, { Code := "TEAM_EXISTS", Message := "team_name already exists" })) ∧
    (∀ e, errorsIs e Error.ErrPRMerged = true →
      ToHTTPError (some e) =
        (409, { Code := "PR_MERGED", Message := "cannot reassign on merged PR" })) ∧
    (∀ e, errorsIs e Error.ErrNoCandidate = true →
      ToHTTPError (some e) =
        (409, { Code := "NO_CANDIDATE", Message := "no active replacement candidate in team" })) ∧
    (∀ e, errorsIs e Error.ErrNotAssigned = true →
      ToHTTPError (some e) =
        (409, { Code := "NOT_ASSIGNED", Message := "reviewer is not assigned to this PR" })) ∧
    (∀ e, errorsIs e Error.ErrAuthorNotActive = true →
      ToHTTPError (some e) =
        (409, { Code := "AUTHOR_NOT_ACTIVE",
                Message := "user can not create PR with false active status" })) ∧
    (∀ e, errorsIs e Error.ErrUserNotFound = true ∨ errorsIs e Error.ErrTeamNotFound = true ∨
        errorsIs e Error.ErrPRNotFound = true →
      ToHTTPError (some e) = (404, { Code := "NOT_FOUND", Message := "resource not found" })) ∧
    (∀ e : Option Error, (∀ d ∈ domainErrors, errorsIsNil e d = false) →
      ToHTTPError e =
        (500, { Code := "INTERNAL_ERROR", Message := "internal server error" })) ∧
    (∀ e1 e2 : Option Error, (∀ d ∈ domainErrors, errorsIsNil e1 d = false) →
      (∀ d ∈ domainErrors, errorsIsNil e2 d = false) → ToHTTPError e1 = ToHTTPError e2) := by
  refine ⟨by decide, by decide, by decide, by decide, by decide, by decide, by decide,
    by decide, by decide, ToHTTPError_wrapped, by decide, by decide, ?_, ?_⟩
  · intro text
    unfold ToHTTPError
    simp only [errorsIsNil, errorsIs]
    simp only [decide_eq_true_eq, reduceCtorEq, if_false, or_self]
    decide
  · have hfive : ∀ e : Option Error, (∀ d ∈ domainErrors, errorsIsNil e d = false) →
        ToHTTPError e =
          (500, { Code := "INTERNAL_ERROR", Message := "internal server error" }) := by
      intro e h
      unfold ToHTTPError
      simp only [h Error.ErrPRExists (by simp [domainErrors]),
        h Error.ErrTeamExists (by simp [domainErrors]),
        h Error.ErrPRMerged (by simp [domainErrors]),
        h Error.ErrNoCandidate (by simp [domainErrors]),
        h Error.ErrNotAssigned (by simp [domainErrors]),
        h Error.ErrAuthorNotActive (by simp [domainErrors]),
        h Error.ErrUserNotFound (by simp [domainErrors]),
        h Error.ErrTeamNotFound (by simp [domainErrors]),
        h Error.ErrPRNotFound (by simp [domainErrors])]
      decide
    refine ⟨?_, ?_, ?_, ?_, ?_, ?_, ?_, hfive, ?_⟩
    · intro e h
      rw [ToHTTPError_of_is e _ (by simp [domainErrors]) h]
      decide
    · intro e h
      rw [ToHTTPError_of_is e _ (by simp [domainErrors]) h]
      decide
    · intro e h
      rw [ToHTTPError_of_is e _ (by simp [domainErrors]) h]
      decide
    · intro e h
      rw [ToHTTPError_of_is e _ (by simp [domainErrors]) h]
      decide
    · intro e h
      rw [ToHTTPError_of_is e _ (by simp [domainErrors]) h]
      decide
    · intro e h
      rw [ToHTTPError_of_is e _ (by simp [domainErrors]) h]
      decide
    · intro e h
      rcases h with h | h | h
      · rw [ToHTTPError_of_is e _ (by simp [domainErrors]) h]
        decide
      · rw [ToHTTPError_of_is e _ (by simp [domainErrors]) h]
        decide
      · rw [ToHTTPError_of_is e _ (by simp [domainErrors]) h]
        decide
    · intro e1 e2 h1 h2
      rw [hfive e1 h1, hfive e2 h2]

/-- C22 at concrete inputs: the error of a rolled-back reassignment on a merged pull
request, which wraps `ErrPRMerged`, gets the 409 of `ErrPRMerged`, and two
infrastructure errors of different texts get the same response, the 500. -/
theorem ToHTTPError_mapping_witness :
    ToHTTPError (some (Error.wrapped "operation failed: %w" Error.ErrPRMerged)) =
      (409, { Code := "PR_MERGED", Message := "cannot reassign on merged PR" }) ∧
    ToHTTPError (some (Error.infra "connection refused")) =
      ToHTTPError (some (Error.wrapped "failed to commit transaction: %w"
        (Error.infra "deadline exceeded"))) ∧
    ToHTTPError (some (Error.infra "connection refused")) =
      (500, { Code := "INTERNAL_ERROR", Message := "internal server error" }) :=
  ⟨ToHTTPError_mapping.2.2.2.2.2.2.2.2.2.2.2.2.2.2.2.1 _ (by decide),
    ToHTTPError_mapping.2.2.2.2.2.2.2.2.2.2.2.2.2.2.2.2.2.2.2.2.2 _ _
      (by decide) (by decide),
    ToHTTPError_mapping.2.2.2.2.2.2.2.2.2.2.2.2.2.2.2.2.2.2.2.2.1 _ (by decide)⟩

/-- C30: the wrapping of the transaction manager does not change the response.  When
the transaction begins and the operation returns an error, one of the nine domain
errors or any other, `Do` returns, whether the rollback fails or not, an error for which
`ToHTTPError` gives the status and body it gives for the error of the operation. -/
theorem wrapping_keeps_response {ω κ : Type} (db : SqlDB ω)
    (operation : κ × ω → Option (Option Error × (κ × ω))) (st st1 : κ × ω) (d : Error)
    (hbegin : (db.BeginTx st.2).1 = none)
    (hop : operation (st.1, (db.BeginTx st.2).2) = some (some d, st1)) :
    ∃ err, txManagerDo db operation st = some (some err, (st1.1, (db.Rollback st1.2).2)) ∧
      ToHTTPError (some err) = ToHTTPError (some d) := by
  cases hrb : (db.Rollback st1.2).1 with
  | none =>
    refine ⟨Error.wrapped "operation failed: %w" d, ?_, ToHTTPError_wrapped _ _⟩
    unfold txManagerDo
    simp only [hbegin, hop, hrb]
  | some text =>
    refine ⟨Error.wrapped ("operation failed: %w, rollback error: " ++ text) d, ?_,
      ToHTTPError_wrapped _ _⟩
    unfold txManagerDo
    simp only [hbegin, hop, hrb]

/-- C30 at a concrete input: the operation fails with `ErrPRMerged`, the rollback fails
with "connection lost", and the response is the 409 of a merged pull request. -/
theorem wrapping_keeps_response_witness :
    ∃ err, txManagerDo (recordingSqlDB none (some "connection lost") none)
        (fun st => some (some Error.ErrPRMerged, st)) (((), []) : Unit × List Call) =
        some (some err, ((), [Call.BeginTx, Call.Rollback])) ∧
      ToHTTPError (some err) =
        (409, { Code := "PR_MERGED", Message := "cannot reassign on merged PR" }) :=
  (wrapping_keeps_response (recordingSqlDB none (some "connection lost") none)
    (fun st => some (some Error.ErrPRMerged, st)) (((), []) : Unit × List Call)
    ((), [Call.BeginTx]) Error.ErrPRMerged rfl rfl).imp
    (fun _ h => ⟨h.1, h.2.trans (by decide)⟩)

/-- C23: `GetUserReviews` guards on the existence of the user.  When the lookup of the
user fails it returns a nil list and the error of the lookup, and the world the lookup
left: the pull requests are not queried.  When it succeeds it returns what
`GetByReviewer` produced for that user: its list with no error, or its error with a nil
list, which is the list the repository of the program returns with every error. -/
theorem GetUserReviews_guard {ω : Type} (s : userService ω) (userID : UserID) (w : ω) :
    (∀ u e w1, s.userRepository.GetByID userID w = ((u, some e), w1) →
      s.GetUserReviews userID w = ((none, some e), w1)) ∧
    (∀ u w1, s.userRepository.GetByID userID w = ((u, none), w1) →
      (∀ l w2, s.pullRequestRepo.GetByReviewer userID w1 = ((l, none), w2) →
        s.GetUserReviews userID w = ((some l, none), w2)) ∧
      (∀ l e w2, s.pullRequestRepo.GetByReviewer userID w1 = ((l, some e), w2) →
        s.GetUserReviews userID w = ((none, some e), w2))) ∧
    (∀ (reviewerID : UserID) (db : Database),
      (repositories.pullRequestGetByReviewer reviewerID db).1.2 ≠ none →
      (repositories.pullRequestGetByReviewer reviewerID db).1.1 = []) := by
  refine ⟨?_, ?_, ?_⟩
  · intro u e w1 h1
    unfold userService.GetUserReviews
    simp only [h1]
  · intro u w1 h1
    refine ⟨?_, ?_⟩
    · intro l w2 h2
      unfold userService.GetUserReviews
      simp only [h1, h2]
    · intro l e w2 h2
      unfold userService.GetUserReviews
      simp only [h1, h2]
  · intro reviewerID db h
    unfold repositories.pullRequestGetByReviewer at h ⊢
    split
    · rfl
    · rename_i heq
      rw [heq] at h
      exact absurd rfl h

/-- C23 at concrete inputs: the test with the user "nonexistent", where the only call
is the lookup of the user, and a known user without reviews. -/
theorem GetUserReviews_guard_witness :
    (recordingUserService noAnswers ([], none)).GetUserReviews "nonexistent" [] =
      ((none, some Error.ErrUserNotFound), [Call.UserGetByID "nonexistent"]) ∧
    (recordingUserService createAnswers ([], none)).GetUserReviews "author1" [] =
      ((some [], none), [Call.UserGetByID "author1", Call.PullRequestGetByReviewer "author1"]) :=
  ⟨(GetUserReviews_guard (recordingUserService noAnswers ([], none)) "nonexistent" []).1
      _ Error.ErrUserNotFound _ rfl,
    ((GetUserReviews_guard (recordingUserService createAnswers ([], none)) "author1" []).2.1
      testAuthor _ rfl).1 [] _ rfl⟩

/-- C24: the statistics of the teams.  `calculateTeamStats` returns one entry for each
team, in the order of the teams: the name of the team, the number of users of that
team, the number of those that are active, and the number of pull requests whose
author is the ID of some user of that team; the active members are at most the
members. -/
theorem calculateTeamStats_counts (teams : List Team) (users : List User)
    (pullRequests : List PullRequest) :
    calculateTeamStats teams users pullRequests =
      teams.map (fun team =>
        { TeamName := team.Name,
          MemberCount := users.countP (fun u => decide (u.Team = team.Name)),
          ActiveMembers :=
            users.countP (fun u => decide (u.Team = team.Name ∧ u.IsActive = true)),
          PullRequestsCount := pullRequests.countP (fun p =>
            decide (∃ u ∈ users, u.ID = p.AuthorID ∧ u.Team = team.Name)) }) ∧
    (calculateTeamStats teams users pullRequests).length = teams.length ∧
    (∀ stats ∈ calculateTeamStats teams users pullRequests,
      stats.ActiveMembers ≤ stats.MemberCount ∧
      stats.PullRequestsCount ≤ pullRequests.length) := by
  have heq : calculateTeamStats teams users pullRequests =
      teams.map (fun team =>
        { TeamName := team.Name,
          MemberCount := users.countP (fun u => decide (u.Team = team.Name)),
          ActiveMembers :=
            users.countP (fun u => decide (u.Team = team.Name ∧ u.IsActive = true)),
          PullRequestsCount := pullRequests.countP (fun p =>
            decide (∃ u ∈ users, u.ID = p.AuthorID ∧ u.Team = team.Name)) }) := by
    unfold calculateTeamStats
    apply List.map_congr_left
    intro team _
    unfold teamStatsOf
    rw [countPullRequestsLoop_eq, countMembersLoop_eq]
    simp
  refine ⟨heq, ?_, ?_⟩
  · rw [heq, List.length_map]
  · intro stats hs
    rw [heq, List.mem_map] at hs
    obtain ⟨team, _, hst⟩ := hs
    rw [← hst]
    refine ⟨?_, List.countP_le_length _⟩
    apply List.countP_mono_left
    intro u _ hu
    simp only [decide_eq_true_eq] at hu ⊢
    exact hu.1

/-- C29: safety of the random index in `ReassignReviewer`.  With an empty pool the
selection ends with `ErrNoCandidate` in the same world, so `Intn` is not reached; what
the method returns does not depend on what `Intn` would answer for an `n` that is not
positive; with a non-empty pool the argument of `Intn`, the length of the list of
candidate IDs, is the size of the pool and positive, and for every `i` with
`0 ≤ i < n` the list of candidate IDs has an entry at `i`, the ID of the pool member at
`i`, and the selection does not panic when `Intn` returns `i`. -/
theorem Intn_index_safety {ω : Type} (s : pullRequestService ω) (id : PullRequestID)
    (oldReviewerID : UserID) (pr : PullRequest) (members : List User)
    (captured : Option PullRequest × UserID) (w : ω) :
    ((filterActiveUsersExcludeAuthorAndReviewer pr pr.AuthorID oldReviewerID
        members).length = 0 →
      pullRequestService.reassignSelect s id oldReviewerID pr members captured w =
        some (some Error.ErrNoCandidate, (captured, w))) ∧
    (∀ intn : Int → ω → Int × ω, (∀ n, 0 < n → intn n = s.random.Intn n) →
      ∀ (id2 : PullRequestID) (old2 : UserID) (w2 : ω),
        pullRequestService.ReassignReviewer
            { s with random := { s.random with Intn := intn } } id2 old2 w2 =
          pullRequestService.ReassignReviewer s id2 old2 w2) ∧
    ((filterActiveUsersExcludeAuthorAndReviewer pr pr.AuthorID oldReviewerID
        members).length ≠ 0 →
      (toUserIDs (filterActiveUsersExcludeAuthorAndReviewer pr pr.AuthorID oldReviewerID
          members)).length =
        (filterActiveUsersExcludeAuthorAndReviewer pr pr.AuthorID oldReviewerID
          members).length ∧
      (0 : Int) < (toUserIDs (filterActiveUsersExcludeAuthorAndReviewer pr pr.AuthorID
        oldReviewerID members)).length ∧
      ∀ i : Int, 0 ≤ i →
        i < (toUserIDs (filterActiveUsersExcludeAuthorAndReviewer pr pr.AuthorID
          oldReviewerID members)).length →
        (∃ u, (filterActiveUsersExcludeAuthorAndReviewer pr pr.AuthorID oldReviewerID
            members)[i.toNat]? = some u ∧
          (toUserIDs (filterActiveUsersExcludeAuthorAndReviewer pr pr.AuthorID
            oldReviewerID members))[i.toNat]? = some u.ID) ∧
        ((s.random.Intn (toUserIDs (filterActiveUsersExcludeAuthorAndReviewer pr
            pr.AuthorID oldReviewerID members)).length w).1 = i →
          pullRequestService.reassignSelect s id oldReviewerID pr members captured w ≠
            none)) := by
  have hlenIDs : ∀ l : List User, (toUserIDs l).length = l.length := by
    intro l
    simp [toUserIDs]
  refine ⟨?_, ?_, ?_⟩
  · intro hlen
    unfold pullRequestService.reassignSelect
    simp only [hlen, if_true]
  · intro intn hintn id2 old2 w2
    have hsel : ∀ (p : PullRequest) (ms : List User) (c : Option PullRequest × UserID)
        (v : ω),
        pullRequestService.reassignSelect
            { s with random := { s.random with Intn := intn } } id2 old2 p ms c v =
          pullRequestService.reassignSelect s id2 old2 p ms c v := by
      intro p ms c v
      unfold pullRequestService.reassignSelect
      by_cases hlen : (filterActiveUsersExcludeAuthorAndReviewer p p.AuthorID old2
          ms).length = 0
      · simp only [hlen, if_true]
      · have hpos : (0 : Int) < ((toUserIDs (filterActiveUsersExcludeAuthorAndReviewer p
            p.AuthorID old2 ms)).length : Int) := by
          rw [hlenIDs]
          omega
        simp only [hlen, if_false, hintn _ hpos]
    have hop : pullRequestService.reassignOperation
          { s with random := { s.random with Intn := intn } } id2 old2 =
        pullRequestService.reassignOperation s id2 old2 := by
      funext st
      obtain ⟨c, v⟩ := st
      unfold pullRequestService.reassignOperation pullRequestService.reassignLookups
      simp only [hsel]
    unfold pullRequestService.ReassignReviewer
    rw [hop]
  · intro hlen
    refine ⟨hlenIDs _, ?_, ?_⟩
    · rw [hlenIDs]
      omega
    · intro i h0 hlt
      rw [hlenIDs] at hlt
      have hnat : i.toNat < (filterActiveUsersExcludeAuthorAndReviewer pr pr.AuthorID
          oldReviewerID members).length := by omega
      refine ⟨⟨(filterActiveUsersExcludeAuthorAndReviewer pr pr.AuthorID oldReviewerID
        members)[i.toNat], ?_, ?_⟩, ?_⟩
      · exact List.getElem?_eq_getElem hnat
      · simp [toUserIDs, List.getElem?_eq_getElem hnat]
      · intro hdraw
        unfold pullRequestService.reassignSelect
        have hrange : 0 ≤ i ∧ i < ((toUserIDs (filterActiveUsersExcludeAuthorAndReviewer pr
            pr.AuthorID oldReviewerID members)).length : Int) := by
          rw [hlenIDs]
          exact ⟨h0, hlt⟩
        simp only [hlen, if_false, hdraw, hrange, and_self, if_true]
        split <;> simp

/-- The calls recorded in the test "successfully reassign reviewer" hold `Intn 2` once,
those of the test without candidates hold no `Intn`, and the selection with `Intn`
answering 1 does not panic. -/
theorem Intn_index_safety_witness :
    ((recordingPullRequestService reassignAnswers
        (some (mockTxManager none))).ReassignReviewer "pull-request-1" "reviewer1" []).map
      (fun r => r.2) =
      some [Call.PullRequestGetByID "pull-request-1", Call.UserGetByID "reviewer1",
        Call.UserGetByID "author1", Call.TeamGetByName "backend",
        Call.UserGetUsersByTeam "backend", Call.Intn 2,
        Call.PullRequestReassignReviewer "pull-request-1" "reviewer1" "reviewer2",
        Call.PullRequestGetByID "pull-request-1"] ∧
    ((recordingPullRequestService noCandidateAnswers
        (some (mockTxManager none))).ReassignReviewer "pull-request-1" "reviewer1" []).map
      (fun r => r.2) =
      some [Call.PullRequestGetByID "pull-request-1", Call.UserGetByID "reviewer1",
        Call.UserGetByID "author1", Call.TeamGetByName "backend",
        Call.UserGetUsersByTeam "backend"] ∧
    pullRequestService.reassignSelect
      (recordingPullRequestService { reassignAnswers with intn := 1 }
        (some (mockTxManager none)))
      "pull-request-1" "reviewer1" (testPullRequest ["reviewer1"])
      (reassignAnswers.userGetUsersByTeam "backend").1 (none, "") [] ≠ none :=
  ⟨by decide, by decide,
    ((((Intn_index_safety
      (recordingPullRequestService { reassignAnswers with intn := 1 }
        (some (mockTxManager none)))
      "pull-request-1" "reviewer1" (testPullRequest ["reviewer1"])
      (reassignAnswers.userGetUsersByTeam "backend").1 (none, "") []).2.2
        (by decide)).2.2 1 (by decide) (by decide)).2 (by decide))⟩

/-- C26 fails on the store `raceDatabase`, with two calls of `ReassignReviewer` for
"pr-1" and "r1".  The transaction of the first call begins and its lookups bring it to
the selection with the store unchanged.  The second call then runs from start to end,
puts "u3" in the place of "r1" and succeeds.  The first call goes on: it draws "u2",
its update meets no row and returns nil all the same, and it succeeds with the new
reviewer "u2" and the pull request read again, whose only reviewer is "u3".  Both calls
succeed, with different new reviewers, and neither returns `ErrNotAssigned`.  One after
the other, the second call does fail with an error that wraps `ErrNotAssigned`.  The
cause: on a store whose driver does not fail, the update of the repository returns nil
and leaves the store as it is when no row holds the old reviewer. -/
theorem concurrent_reassign_both_succeed :
    sqlDatabase.BeginTx raceDatabase = (none, raceDatabase) ∧
    pullRequestService.reassignOperation (racingService 0 afterSecondReassign) "pr-1" "r1"
        ((none, ""), raceDatabase) =
      pullRequestService.reassignSelect (racingService 0 afterSecondReassign) "pr-1" "r1"
        { ID := "pr-1", Name := "feature", AuthorID := "a1", Status := StatusOpen,
          reviewers := ["r1"], CreatedAt := 7, MergedAt := none }
        raceDatabase.users (none, "") raceDatabase ∧
    secondReassign raceDatabase =
      some ((some { ID := "pr-1", Name := "feature", AuthorID := "a1", Status := StatusOpen,
                    reviewers := ["u3"], CreatedAt := 7, MergedAt := none }, "u3", none),
        { raceDatabase with pullRequestReviewers := [("pr-1", "u3")] }) ∧
    firstReassign raceDatabase =
      some ((some { ID := "pr-1", Name := "feature", AuthorID := "a1", Status := StatusOpen,
                    reviewers := ["u3"], CreatedAt := 7, MergedAt := none }, "u2", none),
        { raceDatabase with pullRequestReviewers := [("pr-1", "u3")] }) ∧
    (repositories.pullRequestReassignReviewer "pr-1" "r1" "u2"
        { raceDatabase with pullRequestReviewers := [("pr-1", "u3")] } =
      (none, { raceDatabase with pullRequestReviewers := [("pr-1", "u3")] })) ∧
    ((racingService 0 id).ReassignReviewer "pr-1" "r1" raceDatabase).bind
        (fun r => secondReassign r.2) =
      some ((none, "", some (Error.wrapped "operation failed: %w" Error.ErrNotAssigned)),
        { raceDatabase with pullRequestReviewers := [("pr-1", "u2")] }) ∧
    (∀ (db : Database) (id : PullRequestID) (oldReviewerID newReviewerID : UserID),
      db.faults = [] → (id, oldReviewerID) ∉ db.pullRequestReviewers →
      repositories.pullRequestReassignReviewer id oldReviewerID newReviewerID db =
        (none, db)) := by
  refine ⟨by decide, by decide, by decide, by decide, by decide, by decide, ?_⟩
  intro db id oldReviewerID newReviewerID hfaults hrow
  have hmap : db.pullRequestReviewers.map (fun r =>
      if r.1 = id ∧ r.2 = oldReviewerID then (r.1, newReviewerID) else r) =
      db.pullRequestReviewers := by
    have hid : ∀ r ∈ db.pullRequestReviewers,
        (if r.1 = id ∧ r.2 = oldReviewerID then (r.1, newReviewerID) else r) = r := by
      intro r hr
      have hne : ¬ (r.1 = id ∧ r.2 = oldReviewerID) := by
        intro h
        apply hrow
        have : r = (id, oldReviewerID) := Prod.ext h.1 h.2
        rw [← this]
        exact hr
      rw [if_neg hne]
    calc db.pullRequestReviewers.map (fun r =>
          if r.1 = id ∧ r.2 = oldReviewerID then (r.1, newReviewerID) else r)
        = db.pullRequestReviewers.map (fun r => r) := List.map_congr_left hid
      _ = db.pullRequestReviewers := List.map_id' _
  unfold repositories.pullRequestReassignReviewer Database.call
  simp only [hfaults]
  rw [hmap]
  cases db
  simp only [Prod.mk.injEq, true_and]
  congr
  exact hfaults.symm

end PrService
